import Mathlib

/-!
Scalar shapes of go-raml: facets and the `Inherit` merge

A shallow embedding of `scalars.go`.  Go pointers to facet values (`*big.Int`,
`*int64`, `*float64`, `*uint64`, `*string`, `*regexp.Regexp`) and nilable slices
(`[]*Node`) become `Option`s: `none` is the nil pointer / nil slice.  A method with
a pointer receiver that mutates the receiver in place becomes a function returning
the receiver's state after the call next to the returned `(Shape, error)` pair.

Types declared outside `scalars.go` are parameters of the development:
`N` is `Node`, `F` is `float64`, `I` is the type of shape identifiers, `P` is
`Position` and `X` is the type of the errors that functions of other packages return.

The decoders `UnmarshalYAMLNodes` are embedded with their index loop and its
bounds-checked reads; a call returns nil, returns an error or panics.  The functions
they call outside `scalars.go` (`MakeNode`, `SetString`, `Decode`, `Compile`) are the
fields of a parameter `lib`.
-/

namespace Raml

/-! ## Data model -/

/-- Result of `(*big.Int).Cmp`: `-1` if `x < y`, `0` if `x = y`, `+1` if `x > y`. -/
def bigCmp (x y : Int) : Int :=
  if x < y then -1 else if x = y then 0 else 1

/-- Modelled from the spec: `BaseShape` is declared outside `scalars.go`; the spec
(section 3) lists its fields: identity, declared type name, source location and
position, and the custom-facet mapping (a Go map, `none` when the map is nil). -/
structure BaseShape (N I P : Type) where
  Id : I
  Type_ : String
  Location : String
  Position : P
  CustomShapeFacets : Option (String → Option N)

/-- The struct `EnumFacets`. -/
structure EnumFacets (N : Type) where
  Enum : Option (List N)

/-- The struct `FormatFacets`. -/
structure FormatFacets where
  Format : Option String

/-- The struct `IntegerFacets`: `Minimum`, `Maximum` are `*big.Int`, `MultipleOf` is `*int64`. -/
structure IntegerFacets where
  Minimum : Option Int
  Maximum : Option Int
  MultipleOf : Option Int

/-- The struct `IntegerShape`. -/
structure IntegerShape (N I P : Type) extends
    BaseShape N I P, EnumFacets N, FormatFacets, IntegerFacets

/-- The struct `NumberFacets`: all three fields are `*float64`. -/
structure NumberFacets (F : Type) where
  Minimum : Option F
  Maximum : Option F
  MultipleOf : Option F

/-- The struct `NumberShape`. -/
structure NumberShape (N F I P : Type) extends
    BaseShape N I P, EnumFacets N, FormatFacets, NumberFacets F

/-- The struct `LengthFacets`: both fields are `*uint64`. -/
structure LengthFacets where
  MaxLength : Option Nat
  MinLength : Option Nat

/-- The struct `StringFacets`; a compiled `*regexp.Regexp` is represented by the
expression it was compiled from. -/
structure StringFacets extends LengthFacets where
  Pattern : Option String

/-- The struct `StringShape`. -/
structure StringShape (N I P : Type) extends
    BaseShape N I P, EnumFacets N, StringFacets

/-- The struct `FileFacets`. -/
structure FileFacets (N : Type) where
  FileTypes : Option (List N)

/-- The struct `FileShape`. -/
structure FileShape (N I P : Type) extends
    BaseShape N I P, LengthFacets, FileFacets N

/-- The struct `BooleanShape`. -/
structure BooleanShape (N I P : Type) extends BaseShape N I P, EnumFacets N

/-- The struct `DateTimeShape`. -/
structure DateTimeShape (N I P : Type) extends BaseShape N I P, FormatFacets

/-- The struct `DateTimeOnlyShape`. -/
structure DateTimeOnlyShape (N I P : Type) extends BaseShape N I P

/-- The struct `DateOnlyShape`. -/
structure DateOnlyShape (N I P : Type) extends BaseShape N I P

/-- The struct `TimeOnlyShape`. -/
structure TimeOnlyShape (N I P : Type) extends BaseShape N I P

/-- The struct `AnyShape`. -/
structure AnyShape (N I P : Type) extends BaseShape N I P

/-- The struct `NilShape`. -/
structure NilShape (N I P : Type) extends BaseShape N I P

/-- The interface `Shape` with its implementors: the eleven variants of `scalars.go`
and `other`, standing for the structural shape kinds (object, array, union) that
are declared elsewhere; of those only `Base()` is used here. -/
inductive Shape (N F I P : Type) where
  | integer (s : IntegerShape N I P)
  | number (s : NumberShape N F I P)
  | string (s : StringShape N I P)
  | file (s : FileShape N I P)
  | boolean (s : BooleanShape N I P)
  | dateTime (s : DateTimeShape N I P)
  | dateTimeOnly (s : DateTimeOnlyShape N I P)
  | dateOnly (s : DateOnlyShape N I P)
  | timeOnly (s : TimeOnlyShape N I P)
  | any (s : AnyShape N I P)
  | nil (s : NilShape N I P)
  | other (b : BaseShape N I P)

variable {N F I P : Type}

/-- The method `Base()` of every implementor: the embedded `BaseShape`. -/
def Shape.Base : Shape N F I P → BaseShape N I P
  | .integer s => s.toBaseShape
  | .number s => s.toBaseShape
  | .string s => s.toBaseShape
  | .file s => s.toBaseShape
  | .boolean s => s.toBaseShape
  | .dateTime s => s.toBaseShape
  | .dateTimeOnly s => s.toBaseShape
  | .dateOnly s => s.toBaseShape
  | .timeOnly s => s.toBaseShape
  | .any s => s.toBaseShape
  | .nil s => s.toBaseShape
  | .other b => b

/-! ## Errors -/

/-- A value attached to an error with `WithInfo`. -/
inductive InfoValue (N F : Type) where
  | str (v : String)
  | bigInt (v : Int)
  | float (v : F)
  | uint (v : Nat)
  | nodes (v : Option (List N))

/-- Modelled from the spec: the error facility is declared outside `scalars.go`;
the spec (section 6) says an error carries a message, a source location, a source
position and key/value diagnostic attachments. -/
structure Error (N F P : Type) where
  Message : String
  Location : String
  Position : P
  Info : List (String × InfoValue N F)

/-- The call `NewError(msg, location, WithPosition(&pos), WithInfo(k1, v1), ...)`. -/
def NewError (msg location : String) (pos : P) (info : List (String × InfoValue N F)) :
    Error N F P :=
  { Message := msg, Location := location, Position := pos, Info := info }

/-- Outcome of `s.Inherit(source)`: the receiver and the ancestor after the call, and
the returned pair, `.ok sh` for `(sh, nil)` and `.error e` for `(nil, e)`. -/
structure InheritResult (α N F I P : Type) where
  recv : α
  source : Shape N F I P
  ret : Except (Error N F P) (Shape N F I P)

/-- The error returned by every `Inherit` when the type assertion on `source` fails. -/
def typeMismatch (b : BaseShape N I P) (source : Shape N F I P) : Error N F P :=
  NewError "merge shape type mismatch" b.Location b.Position
    [("source", .str source.Base.Type_), ("target", .str b.Type_)]

/-! ## IntegerShape.Inherit -/

/-- Lines 78-82: the `minimum` block of `IntegerShape.Inherit`. -/
def IntegerShape.inheritMinimum (s ss : IntegerShape N I P) :
    Except (Error N F P) (IntegerShape N I P) :=
  match s.Minimum with
  | none => .ok { s with Minimum := ss.Minimum }
  | some a =>
    match ss.Minimum with
    | some b =>
      if bigCmp a b < 0 then
        .error (NewError "minimum constraint violation" s.Location s.Position
          [("source", .bigInt b), ("target", .bigInt a)])
      else .ok s
    | none => .ok s

/-- Lines 83-87: the `maximum` block of `IntegerShape.Inherit`. -/
def IntegerShape.inheritMaximum (s ss : IntegerShape N I P) :
    Except (Error N F P) (IntegerShape N I P) :=
  match s.Maximum with
  | none => .ok { s with Maximum := ss.Maximum }
  | some a =>
    match ss.Maximum with
    | some b =>
      if bigCmp a b > 0 then
        .error (NewError "maximum constraint violation" s.Location s.Position
          [("source", .bigInt b), ("target", .bigInt a)])
      else .ok s
    | none => .ok s

/-- Lines 89-92: the `multipleOf` block of `IntegerShape.Inherit`. -/
def IntegerShape.inheritMultipleOf (s ss : IntegerShape N I P) : IntegerShape N I P :=
  match s.MultipleOf with
  | none => { s with MultipleOf := ss.MultipleOf }
  | some _ => s

/-- Lines 93-97: the `enum` block of `IntegerShape.Inherit`; `IsOverridableEnum` is
declared outside `scalars.go` and is a parameter. -/
def IntegerShape.inheritEnum (IsOverridableEnum : List N → List N → Bool)
    (s ss : IntegerShape N I P) : Except (Error N F P) (IntegerShape N I P) :=
  match s.Enum with
  | none => .ok { s with Enum := ss.Enum }
  | some ce =>
    match ss.Enum with
    | some pe =>
      if !IsOverridableEnum pe ce then
        .error (NewError "enum constraint violation" s.Location s.Position
          [("source", .nodes ss.Enum), ("target", .nodes s.Enum)])
      else .ok s
    | none => .ok s

/-- Lines 99-101: the `format` block of `IntegerShape.Inherit`. -/
def IntegerShape.inheritFormat (s ss : IntegerShape N I P) : IntegerShape N I P :=
  match s.Format with
  | none => { s with Format := ss.Format }
  | some _ => s

/-- The method `(*IntegerShape).Inherit`. -/
def IntegerShape.Inherit (IsOverridableEnum : List N → List N → Bool)
    (s : IntegerShape N I P) (source : Shape N F I P) :
    InheritResult (IntegerShape N I P) N F I P :=
  match source with
  | .integer ss =>
    match IntegerShape.inheritMinimum s ss with
    | .error e => ⟨s, source, .error e⟩
    | .ok s1 =>
      match IntegerShape.inheritMaximum s1 ss with
      | .error e => ⟨s1, source, .error e⟩
      | .ok s2 =>
        let s3 := IntegerShape.inheritMultipleOf s2 ss
        match IntegerShape.inheritEnum IsOverridableEnum s3 ss with
        | .error e => ⟨s3, source, .error e⟩
        | .ok s4 =>
          let s5 := IntegerShape.inheritFormat s4 ss
          ⟨s5, source, .ok (.integer s5)⟩
  | _ => ⟨s, source, .error (typeMismatch s.toBaseShape source)⟩

/-! ## NumberShape.Inherit -/

/-- Lines 192-196: the `minimum` block of `NumberShape.Inherit`; `lt` is the
comparison `<` of `float64`. -/
def NumberShape.inheritMinimum (lt : F → F → Bool) (s ss : NumberShape N F I P) :
    Except (Error N F P) (NumberShape N F I P) :=
  match s.Minimum with
  | none => .ok { s with Minimum := ss.Minimum }
  | some a =>
    match ss.Minimum with
    | some b =>
      if lt a b then
        .error (NewError "minimum constraint violation" s.Location s.Position
          [("source", .float b), ("target", .float a)])
      else .ok s
    | none => .ok s

/-- Lines 197-201: the `maximum` block of `NumberShape.Inherit`; `a > b` on `float64`
is `lt b a`. -/
def NumberShape.inheritMaximum (lt : F → F → Bool) (s ss : NumberShape N F I P) :
    Except (Error N F P) (NumberShape N F I P) :=
  match s.Maximum with
  | none => .ok { s with Maximum := ss.Maximum }
  | some a =>
    match ss.Maximum with
    | some b =>
      if lt b a then
        .error (NewError "maximum constraint violation" s.Location s.Position
          [("source", .float b), ("target", .float a)])
      else .ok s
    | none => .ok s

/-- Lines 203-206: the `multipleOf` block of `NumberShape.Inherit`; the test is on the
ancestor's field. -/
def NumberShape.inheritMultipleOf (s ss : NumberShape N F I P) : NumberShape N F I P :=
  match ss.MultipleOf with
  | some m => { s with MultipleOf := some m }
  | none => s

/-- Lines 207-211: the `enum` block of `NumberShape.Inherit`. -/
def NumberShape.inheritEnum (IsOverridableEnum : List N → List N → Bool)
    (s ss : NumberShape N F I P) : Except (Error N F P) (NumberShape N F I P) :=
  match s.Enum with
  | none => .ok { s with Enum := ss.Enum }
  | some ce =>
    match ss.Enum with
    | some pe =>
      if !IsOverridableEnum pe ce then
        .error (NewError "enum constraint violation" s.Location s.Position
          [("source", .nodes ss.Enum), ("target", .nodes s.Enum)])
      else .ok s
    | none => .ok s

/-- Lines 213-215: the `format` block of `NumberShape.Inherit`. -/
def NumberShape.inheritFormat (s ss : NumberShape N F I P) : NumberShape N F I P :=
  match s.Format with
  | none => { s with Format := ss.Format }
  | some _ => s

/-- The method `(*NumberShape).Inherit`. -/
def NumberShape.Inherit (IsOverridableEnum : List N → List N → Bool) (lt : F → F → Bool)
    (s : NumberShape N F I P) (source : Shape N F I P) :
    InheritResult (NumberShape N F I P) N F I P :=
  match source with
  | .number ss =>
    match NumberShape.inheritMinimum lt s ss with
    | .error e => ⟨s, source, .error e⟩
    | .ok s1 =>
      match NumberShape.inheritMaximum lt s1 ss with
      | .error e => ⟨s1, source, .error e⟩
      | .ok s2 =>
        let s3 := NumberShape.inheritMultipleOf s2 ss
        match NumberShape.inheritEnum IsOverridableEnum s3 ss with
        | .error e => ⟨s3, source, .error e⟩
        | .ok s4 =>
          let s5 := NumberShape.inheritFormat s4 ss
          ⟨s5, source, .ok (.number s5)⟩
  | _ => ⟨s, source, .error (typeMismatch s.toBaseShape source)⟩

/-! ## StringShape.Inherit -/

/-- Lines 292-296: the `minLength` block of `StringShape.Inherit`. -/
def StringShape.inheritMinLength (s ss : StringShape N I P) :
    Except (Error N F P) (StringShape N I P) :=
  match s.MinLength with
  | none => .ok { s with MinLength := ss.MinLength }
  | some a =>
    match ss.MinLength with
    | some b =>
      if a < b then
        .error (NewError "minLength constraint violation" s.Location s.Position
          [("source", .uint b), ("target", .uint a)])
      else .ok s
    | none => .ok s

/-- Lines 297-301: the `maxLength` block of `StringShape.Inherit`. -/
def StringShape.inheritMaxLength (s ss : StringShape N I P) :
    Except (Error N F P) (StringShape N I P) :=
  match s.MaxLength with
  | none => .ok { s with MaxLength := ss.MaxLength }
  | some a =>
    match ss.MaxLength with
    | some b =>
      if a > b then
        .error (NewError "maxLength constraint violation" s.Location s.Position
          [("source", .uint b), ("target", .uint a)])
      else .ok s
    | none => .ok s

/-- Lines 303-305: the `pattern` block of `StringShape.Inherit`. -/
def StringShape.inheritPattern (s ss : StringShape N I P) : StringShape N I P :=
  match s.Pattern with
  | none => { s with Pattern := ss.Pattern }
  | some _ => s

/-- Lines 306-310: the `enum` block of `StringShape.Inherit`. -/
def StringShape.inheritEnum (IsOverridableEnum : List N → List N → Bool)
    (s ss : StringShape N I P) : Except (Error N F P) (StringShape N I P) :=
  match s.Enum with
  | none => .ok { s with Enum := ss.Enum }
  | some ce =>
    match ss.Enum with
    | some pe =>
      if !IsOverridableEnum pe ce then
        .error (NewError "enum constraint violation" s.Location s.Position
          [("source", .nodes ss.Enum), ("target", .nodes s.Enum)])
      else .ok s
    | none => .ok s

/-- The method `(*StringShape).Inherit`. -/
def StringShape.Inherit (IsOverridableEnum : List N → List N → Bool)
    (s : StringShape N I P) (source : Shape N F I P) :
    InheritResult (StringShape N I P) N F I P :=
  match source with
  | .string ss =>
    match StringShape.inheritMinLength s ss with
    | .error e => ⟨s, source, .error e⟩
    | .ok s1 =>
      match StringShape.inheritMaxLength s1 ss with
      | .error e => ⟨s1, source, .error e⟩
      | .ok s2 =>
        let s3 := StringShape.inheritPattern s2 ss
        match StringShape.inheritEnum IsOverridableEnum s3 ss with
        | .error e => ⟨s3, source, .error e⟩
        | .ok s4 => ⟨s4, source, .ok (.string s4)⟩
  | _ => ⟨s, source, .error (typeMismatch s.toBaseShape source)⟩

/-! ## FileShape.Inherit -/

/-- Lines 384-388: the `minLength` block of `FileShape.Inherit`. -/
def FileShape.inheritMinLength (s ss : FileShape N I P) :
    Except (Error N F P) (FileShape N I P) :=
  match s.MinLength with
  | none => .ok { s with MinLength := ss.MinLength }
  | some a =>
    match ss.MinLength with
    | some b =>
      if a < b then
        .error (NewError "minLength constraint violation" s.Location s.Position
          [("source", .uint b), ("target", .uint a)])
      else .ok s
    | none => .ok s

/-- Lines 389-393: the `maxLength` block of `FileShape.Inherit`. -/
def FileShape.inheritMaxLength (s ss : FileShape N I P) :
    Except (Error N F P) (FileShape N I P) :=
  match s.MaxLength with
  | none => .ok { s with MaxLength := ss.MaxLength }
  | some a =>
    match ss.MaxLength with
    | some b =>
      if a > b then
        .error (NewError "maxLength constraint violation" s.Location s.Position
          [("source", .uint b), ("target", .uint a)])
      else .ok s
    | none => .ok s

/-- Lines 395-397: the `fileTypes` block of `FileShape.Inherit`. -/
def FileShape.inheritFileTypes (s ss : FileShape N I P) : FileShape N I P :=
  match s.FileTypes with
  | none => { s with FileTypes := ss.FileTypes }
  | some _ => s

/-- The method `(*FileShape).Inherit`. -/
def FileShape.Inherit (s : FileShape N I P) (source : Shape N F I P) :
    InheritResult (FileShape N I P) N F I P :=
  match source with
  | .file ss =>
    match FileShape.inheritMinLength s ss with
    | .error e => ⟨s, source, .error e⟩
    | .ok s1 =>
      match FileShape.inheritMaxLength s1 ss with
      | .error e => ⟨s1, source, .error e⟩
      | .ok s2 =>
        let s3 := FileShape.inheritFileTypes s2 ss
        ⟨s3, source, .ok (.file s3)⟩
  | _ => ⟨s, source, .error (typeMismatch s.toBaseShape source)⟩

/-! ## BooleanShape.Inherit and DateTimeShape.Inherit -/

/-- Lines 466-470: the `enum` block of `BooleanShape.Inherit`. -/
def BooleanShape.inheritEnum (IsOverridableEnum : List N → List N → Bool)
    (s ss : BooleanShape N I P) : Except (Error N F P) (BooleanShape N I P) :=
  match s.Enum with
  | none => .ok { s with Enum := ss.Enum }
  | some ce =>
    match ss.Enum with
    | some pe =>
      if !IsOverridableEnum pe ce then
        .error (NewError "enum constraint violation" s.Location s.Position
          [("source", .nodes ss.Enum), ("target", .nodes s.Enum)])
      else .ok s
    | none => .ok s

/-- The method `(*BooleanShape).Inherit`. -/
def BooleanShape.Inherit (IsOverridableEnum : List N → List N → Bool)
    (s : BooleanShape N I P) (source : Shape N F I P) :
    InheritResult (BooleanShape N I P) N F I P :=
  match source with
  | .boolean ss =>
    match BooleanShape.inheritEnum IsOverridableEnum s ss with
    | .error e => ⟨s, source, .error e⟩
    | .ok s1 => ⟨s1, source, .ok (.boolean s1)⟩
  | _ => ⟨s, source, .error (typeMismatch s.toBaseShape source)⟩

/-- Lines 523-525: the `format` block of `DateTimeShape.Inherit`. -/
def DateTimeShape.inheritFormat (s ss : DateTimeShape N I P) : DateTimeShape N I P :=
  match s.Format with
  | none => { s with Format := ss.Format }
  | some _ => s

/-- The method `(*DateTimeShape).Inherit`. -/
def DateTimeShape.Inherit (s : DateTimeShape N I P) (source : Shape N F I P) :
    InheritResult (DateTimeShape N I P) N F I P :=
  match source with
  | .dateTime ss =>
    let s1 := DateTimeShape.inheritFormat s ss
    ⟨s1, source, .ok (.dateTime s1)⟩
  | _ => ⟨s, source, .error (typeMismatch s.toBaseShape source)⟩

/-! ## The variants without facets -/

/-- The method `(*DateTimeOnlyShape).Inherit`: `return s, nil`. -/
def DateTimeOnlyShape.Inherit (s : DateTimeOnlyShape N I P) (source : Shape N F I P) :
    InheritResult (DateTimeOnlyShape N I P) N F I P :=
  ⟨s, source, .ok (.dateTimeOnly s)⟩

/-- The method `(*DateOnlyShape).Inherit`: `return s, nil`. -/
def DateOnlyShape.Inherit (s : DateOnlyShape N I P) (source : Shape N F I P) :
    InheritResult (DateOnlyShape N I P) N F I P :=
  ⟨s, source, .ok (.dateOnly s)⟩

/-- The method `(*TimeOnlyShape).Inherit`: `return s, nil`. -/
def TimeOnlyShape.Inherit (s : TimeOnlyShape N I P) (source : Shape N F I P) :
    InheritResult (TimeOnlyShape N I P) N F I P :=
  ⟨s, source, .ok (.timeOnly s)⟩

/-- The method `(*AnyShape).Inherit`: `return s, nil`. -/
def AnyShape.Inherit (s : AnyShape N I P) (source : Shape N F I P) :
    InheritResult (AnyShape N I P) N F I P :=
  ⟨s, source, .ok (.any s)⟩

/-- The method `(*NilShape).Inherit`: `return s, nil`. -/
def NilShape.Inherit (s : NilShape N I P) (source : Shape N F I P) :
    InheritResult (NilShape N I P) N F I P :=
  ⟨s, source, .ok (.nil s)⟩

/-! ## Clone -/

/-- Outcome of `s.Clone()`: the receiver after the call and the shape returned. -/
structure CloneResult (α N F I P : Type) where
  recv : α
  ret : Shape N F I P

/-- The method `(*IntegerShape).Clone`: `c := *s; c.Id = GenerateShapeId(); return &c`.
`GenerateShapeId` is declared outside `scalars.go`; `newId` is the value its call
returns. -/
def IntegerShape.Clone (newId : I) (s : IntegerShape N I P) : CloneResult (IntegerShape N I P) N F I P :=
  let c := s
  ⟨s, .integer { c with Id := newId }⟩

/-- The method `(*NumberShape).Clone`: `c := *s; c.Id = GenerateShapeId(); return &c`.
`GenerateShapeId` is declared outside `scalars.go`; `newId` is the value its call
returns. -/
def NumberShape.Clone (newId : I) (s : NumberShape N F I P) : CloneResult (NumberShape N F I P) N F I P :=
  let c := s
  ⟨s, .number { c with Id := newId }⟩

/-- The method `(*StringShape).Clone`: `c := *s; c.Id = GenerateShapeId(); return &c`.
`GenerateShapeId` is declared outside `scalars.go`; `newId` is the value its call
returns. -/
def StringShape.Clone (newId : I) (s : StringShape N I P) : CloneResult (StringShape N I P) N F I P :=
  let c := s
  ⟨s, .string { c with Id := newId }⟩

/-- The method `(*FileShape).Clone`: `c := *s; c.Id = GenerateShapeId(); return &c`.
`GenerateShapeId` is declared outside `scalars.go`; `newId` is the value its call
returns. -/
def FileShape.Clone (newId : I) (s : FileShape N I P) : CloneResult (FileShape N I P) N F I P :=
  let c := s
  ⟨s, .file { c with Id := newId }⟩

/-- The method `(*BooleanShape).Clone`: `c := *s; c.Id = GenerateShapeId(); return &c`.
`GenerateShapeId` is declared outside `scalars.go`; `newId` is the value its call
returns. -/
def BooleanShape.Clone (newId : I) (s : BooleanShape N I P) : CloneResult (BooleanShape N I P) N F I P :=
  let c := s
  ⟨s, .boolean { c with Id := newId }⟩

/-- The method `(*DateTimeShape).Clone`: `c := *s; c.Id = GenerateShapeId(); return &c`.
`GenerateShapeId` is declared outside `scalars.go`; `newId` is the value its call
returns. -/
def DateTimeShape.Clone (newId : I) (s : DateTimeShape N I P) : CloneResult (DateTimeShape N I P) N F I P :=
  let c := s
  ⟨s, .dateTime { c with Id := newId }⟩

/-- The method `(*DateTimeOnlyShape).Clone`: `c := *s; c.Id = GenerateShapeId(); return &c`.
`GenerateShapeId` is declared outside `scalars.go`; `newId` is the value its call
returns. -/
def DateTimeOnlyShape.Clone (newId : I) (s : DateTimeOnlyShape N I P) : CloneResult (DateTimeOnlyShape N I P) N F I P :=
  let c := s
  ⟨s, .dateTimeOnly { c with Id := newId }⟩

/-- The method `(*DateOnlyShape).Clone`: `c := *s; c.Id = GenerateShapeId(); return &c`.
`GenerateShapeId` is declared outside `scalars.go`; `newId` is the value its call
returns. -/
def DateOnlyShape.Clone (newId : I) (s : DateOnlyShape N I P) : CloneResult (DateOnlyShape N I P) N F I P :=
  let c := s
  ⟨s, .dateOnly { c with Id := newId }⟩

/-- The method `(*TimeOnlyShape).Clone`: `c := *s; c.Id = GenerateShapeId(); return &c`.
`GenerateShapeId` is declared outside `scalars.go`; `newId` is the value its call
returns. -/
def TimeOnlyShape.Clone (newId : I) (s : TimeOnlyShape N I P) : CloneResult (TimeOnlyShape N I P) N F I P :=
  let c := s
  ⟨s, .timeOnly { c with Id := newId }⟩

/-- The method `(*AnyShape).Clone`: `c := *s; c.Id = GenerateShapeId(); return &c`.
`GenerateShapeId` is declared outside `scalars.go`; `newId` is the value its call
returns. -/
def AnyShape.Clone (newId : I) (s : AnyShape N I P) : CloneResult (AnyShape N I P) N F I P :=
  let c := s
  ⟨s, .any { c with Id := newId }⟩

/-- The method `(*NilShape).Clone`: `c := *s; c.Id = GenerateShapeId(); return &c`.
`GenerateShapeId` is declared outside `scalars.go`; `newId` is the value its call
returns. -/
def NilShape.Clone (newId : I) (s : NilShape N I P) : CloneResult (NilShape N I P) N F I P :=
  let c := s
  ⟨s, .nil { c with Id := newId }⟩

/-! ## Decoding of facets -/

/-- The struct `yaml.Node` of `gopkg.in/yaml.v3`, with the fields the decoders read and
the position that `WithNodePosition` reports. -/
structure YamlNode where
  Kind : Nat
  Tag : String
  Value : String
  Content : List YamlNode
  Line : Nat
  Column : Nat

/-- The constant `yaml.SequenceNode`; the kinds of `yaml.v3` are `1 << iota` starting
with `DocumentNode`. -/
def SequenceNode : Nat := 2

/-- Errors that the decoders return: an error `external e` produced outside
`scalars.go`, `NewError(msg, location, WithNodePosition(node))` and
`NewWrappedError(msg, err, location, WithNodePosition(node))`. -/
inductive DecodeError (X : Type) where
  | external (e : X)
  | new (msg location : String) (node : YamlNode)
  | wrapped (msg : String) (err : DecodeError X) (location : String) (node : YamlNode)

/-- Operations declared outside `scalars.go` that the decoders call: `MakeNode`,
`big.NewInt(0).SetString(text, 10)`, `(*yaml.Node).Decode` into a `*int64`, `*float64`,
`*uint64` or `*string` field (given the node and the field's current value, it gives
the field's new value and the error returned, if any) and `regexp.Compile` (the error
returned, if any). -/
structure Lib (N F X : Type) where
  MakeNode : YamlNode → String → Except X N
  SetString : String → Option Int
  DecodeInt64 : YamlNode → Option Int → Option Int × Option X
  DecodeFloat64 : YamlNode → Option F → Option F × Option X
  DecodeUint64 : YamlNode → Option Nat → Option Nat × Option X
  DecodeString : YamlNode → Option String → Option String × Option X
  Compile : String → Option X

/-- Run-time panics of the decoders. -/
inductive Panic where
  | indexOutOfRange (index length : Nat)
  | nilMap

/-- What a call of `UnmarshalYAMLNodes` produces: `return nil`, `return err` or a panic. -/
inductive Ret (X : Type) where
  | nil
  | err (e : DecodeError X)
  | panic (p : Panic)

/-- Outcome of `s.UnmarshalYAMLNodes(v)`: the receiver after the call and what the call
produced. -/
structure UnmarshalResult (α X : Type) where
  recv : α
  ret : Ret X

/-- Outcome of one iteration of a decoder loop: the loop goes on with the receiver `s`,
or the call ends. -/
inductive Step (α X : Type) where
  | next (s : α)
  | stop (r : UnmarshalResult α X)

variable {X : Type}

/-- The function `MakeEnum`, lines 19-25: the loop over `v.Content`. -/
def makeEnumElems (MakeNode : YamlNode → String → Except X N) (location : String) :
    List YamlNode → Except (DecodeError X) (List N)
  | [] => .ok []
  | c :: cs =>
    match MakeNode c location with
    | .error e => .error (.wrapped "make node enum" (.external e) location c)
    | .ok n =>
      match makeEnumElems MakeNode location cs with
      | .error e => .error e
      | .ok ns => .ok (n :: ns)

/-- The function `MakeEnum`. -/
def MakeEnum (MakeNode : YamlNode → String → Except X N) (v : YamlNode) (location : String) :
    Except (DecodeError X) (List N) :=
  if v.Kind ≠ SequenceNode then
    .error (.new "enum must be sequence node" location v)
  else makeEnumElems MakeNode location v.Content

/-- The statement `s.CustomShapeFacets[node.Value] = n`, the last branch of every
decoder loop (for example lines 152-156); writing to a nil map panics. -/
def setCustomFacet (lib : Lib N F X) (b : BaseShape N I P) (node valueNode : YamlNode) :
    Step (BaseShape N I P) X :=
  match lib.MakeNode valueNode b.Location with
  | .error e =>
    .stop ⟨b, .err (.wrapped "make node" (.external e) b.Location valueNode)⟩
  | .ok n =>
    match b.CustomShapeFacets with
    | none => .stop ⟨b, .panic .nilMap⟩
    | some m =>
      .next { b with
        CustomShapeFacets := some fun k => if k = node.Value then some n else m k }

/-- The loop `for i := 0; i != len(v); i += 2` of every decoder with the reads
`node := v[i]` and `valueNode := v[i+1]`; `body` is the rest of the loop body. -/
def unmarshalLoop {α : Type} (body : YamlNode → YamlNode → α → Step α X)
    (v : List YamlNode) (i : Nat) (s : α) : UnmarshalResult α X :=
  if i = v.length then ⟨s, .nil⟩
  else if h0 : i < v.length then
    if h1 : i + 1 < v.length then
      match body v[i] v[i + 1] s with
      | .next s1 => unmarshalLoop body v (i + 2) s1
      | .stop r => r
    else ⟨s, .panic (.indexOutOfRange (i + 1) v.length)⟩
  else ⟨s, .panic (.indexOutOfRange i v.length)⟩
termination_by v.length - i

/-- The key/value pairs of a flattened list in order, `(v[0], v[1])`, `(v[2], v[3])`,
and so on; a last element without a partner is left out. -/
def pairs : List YamlNode → List (YamlNode × YamlNode)
  | k :: x :: rest => (k, x) :: pairs rest
  | _ => []

/-- The loop body run over a list of pairs in order, one iteration per pair, until an
iteration ends the call. -/
def runPairs {α : Type} (body : YamlNode → YamlNode → α → Step α X) :
    List (YamlNode × YamlNode) → α → Step α X
  | [], s => .next s
  | q :: ps, s =>
    match body q.1 q.2 s with
    | .next s1 => runPairs body ps s1
    | .stop r => .stop r

/-- How the loop over a list of `len` elements ends once the iterations over its pairs
are through: `return nil` when `len` is even, and when `len` is odd the read `v[i+1]`
at `i = len - 1`, which is out of range. -/
def endOfLoop {α : Type} (len : Nat) : Step α X → UnmarshalResult α X
  | .stop r => r
  | .next s =>
    if len % 2 = 0 then ⟨s, .nil⟩ else ⟨s, .panic (.indexOutOfRange len len)⟩

/-- Lines 113-157: the body of the loop of `IntegerShape.UnmarshalYAMLNodes`. -/
def IntegerShape.unmarshalPair (lib : Lib N F X) (node valueNode : YamlNode)
    (s : IntegerShape N I P) : Step (IntegerShape N I P) X :=
  if node.Value = "minimum" then
    if valueNode.Tag ≠ "!!int" then
      .stop ⟨s, .err (.new "minimum must be integer" s.Location valueNode)⟩
    else
      match lib.SetString valueNode.Value with
      | none => .stop ⟨s, .err (.new "invalid minimum value" s.Location valueNode)⟩
      | some num => .next { s with Minimum := some num }
  else if node.Value = "maximum" then
    if valueNode.Tag ≠ "!!int" then
      .stop ⟨s, .err (.new "maximum must be integer" s.Location valueNode)⟩
    else
      match lib.SetString valueNode.Value with
      | none => .stop ⟨s, .err (.new "invalid maximum value" s.Location valueNode)⟩
      | some num => .next { s with Maximum := some num }
  else if node.Value = "multipleOf" then
    if valueNode.Tag ≠ "!!int" then
      .stop ⟨s, .err (.new "multipleOf must be integer" s.Location valueNode)⟩
    else
      match lib.DecodeInt64 valueNode s.MultipleOf with
      | (m, some e) =>
        .stop ⟨{ s with MultipleOf := m },
          .err (.wrapped "decode multipleOf" (.external e) s.Location valueNode)⟩
      | (m, none) => .next { s with MultipleOf := m }
  else if node.Value = "format" then
    match lib.DecodeString valueNode s.Format with
    | (f, some e) =>
      .stop ⟨{ s with Format := f },
        .err (.wrapped "decode format" (.external e) s.Location valueNode)⟩
    | (f, none) => .next { s with Format := f }
  else if node.Value = "enum" then
    match MakeEnum lib.MakeNode valueNode s.Location with
    | .error e => .stop ⟨s, .err (.wrapped "make enum" e s.Location valueNode)⟩
    | .ok enums => .next { s with Enum := some enums }
  else
    match setCustomFacet lib s.toBaseShape node valueNode with
    | .stop r => .stop ⟨{ s with toBaseShape := r.recv }, r.ret⟩
    | .next b => .next { s with toBaseShape := b }

/-- The method `(*IntegerShape).UnmarshalYAMLNodes`. -/
def IntegerShape.UnmarshalYAMLNodes (lib : Lib N F X) (s : IntegerShape N I P)
    (v : List YamlNode) : UnmarshalResult (IntegerShape N I P) X :=
  unmarshalLoop (IntegerShape.unmarshalPair lib) v 0 s

/-- Lines 227-255: the body of the loop of `NumberShape.UnmarshalYAMLNodes`. -/
def NumberShape.unmarshalPair (lib : Lib N F X) (node valueNode : YamlNode)
    (s : NumberShape N F I P) : Step (NumberShape N F I P) X :=
  if node.Value = "minimum" then
    match lib.DecodeFloat64 valueNode s.Minimum with
    | (m, some e) =>
      .stop ⟨{ s with Minimum := m },
        .err (.wrapped "decode minimum" (.external e) s.Location valueNode)⟩
    | (m, none) => .next { s with Minimum := m }
  else if node.Value = "maximum" then
    match lib.DecodeFloat64 valueNode s.Maximum with
    | (m, some e) =>
      .stop ⟨{ s with Maximum := m },
        .err (.wrapped "decode maximum" (.external e) s.Location valueNode)⟩
    | (m, none) => .next { s with Maximum := m }
  else if node.Value = "format" then
    match lib.DecodeString valueNode s.Format with
    | (f, some e) =>
      .stop ⟨{ s with Format := f },
        .err (.wrapped "decode format" (.external e) s.Location valueNode)⟩
    | (f, none) => .next { s with Format := f }
  else if node.Value = "enum" then
    match MakeEnum lib.MakeNode valueNode s.Location with
    | .error e => .stop ⟨s, .err (.wrapped "make enum" e s.Location valueNode)⟩
    | .ok enums => .next { s with Enum := some enums }
  else if node.Value = "multipleOf" then
    match lib.DecodeFloat64 valueNode s.MultipleOf with
    | (m, some e) =>
      .stop ⟨{ s with MultipleOf := m },
        .err (.wrapped "decode multipleOf" (.external e) s.Location valueNode)⟩
    | (m, none) => .next { s with MultipleOf := m }
  else
    match setCustomFacet lib s.toBaseShape node valueNode with
    | .stop r => .stop ⟨{ s with toBaseShape := r.recv }, r.ret⟩
    | .next b => .next { s with toBaseShape := b }

/-- The method `(*NumberShape).UnmarshalYAMLNodes`. -/
def NumberShape.UnmarshalYAMLNodes (lib : Lib N F X) (s : NumberShape N F I P)
    (v : List YamlNode) : UnmarshalResult (NumberShape N F I P) X :=
  unmarshalLoop (NumberShape.unmarshalPair lib) v 0 s

/-- Lines 323-353: the body of the loop of `StringShape.UnmarshalYAMLNodes`. -/
def StringShape.unmarshalPair (lib : Lib N F X) (node valueNode : YamlNode)
    (s : StringShape N I P) : Step (StringShape N I P) X :=
  if node.Value = "minLength" then
    match lib.DecodeUint64 valueNode s.MinLength with
    | (m, some e) =>
      .stop ⟨{ s with MinLength := m },
        .err (.wrapped "decode minLength" (.external e) s.Location valueNode)⟩
    | (m, none) => .next { s with MinLength := m }
  else if node.Value = "maxLength" then
    match lib.DecodeUint64 valueNode s.MaxLength with
    | (m, some e) =>
      .stop ⟨{ s with MaxLength := m },
        .err (.wrapped "decode maxLength" (.external e) s.Location valueNode)⟩
    | (m, none) => .next { s with MaxLength := m }
  else if node.Value = "pattern" then
    if valueNode.Tag ≠ "!!str" then
      .stop ⟨s, .err (.new "pattern must be string" s.Location valueNode)⟩
    else
      match lib.Compile valueNode.Value with
      | some e =>
        .stop ⟨s, .err (.wrapped "decode pattern" (.external e) s.Location valueNode)⟩
      | none => .next { s with Pattern := some valueNode.Value }
  else if node.Value = "enum" then
    match MakeEnum lib.MakeNode valueNode s.Location with
    | .error e => .stop ⟨s, .err (.wrapped "make enum" e s.Location valueNode)⟩
    | .ok enums => .next { s with Enum := some enums }
  else
    match setCustomFacet lib s.toBaseShape node valueNode with
    | .stop r => .stop ⟨{ s with toBaseShape := r.recv }, r.ret⟩
    | .next b => .next { s with toBaseShape := b }

/-- The method `(*StringShape).UnmarshalYAMLNodes`. -/
def StringShape.UnmarshalYAMLNodes (lib : Lib N F X) (s : StringShape N I P)
    (v : List YamlNode) : UnmarshalResult (StringShape N I P) X :=
  unmarshalLoop (StringShape.unmarshalPair lib) v 0 s

/-- Lines 422-432: the loop over `valueNode.Content` in
`FileShape.UnmarshalYAMLNodes`. -/
def FileShape.makeFileTypes (MakeNode : YamlNode → String → Except X N) (location : String) :
    List YamlNode → Except (DecodeError X) (List N)
  | [] => .ok []
  | c :: cs =>
    if c.Tag ≠ "!!str" then
      .error (.new "member of fileTypes must be string" location c)
    else
      match MakeNode c location with
      | .error e => .error (.wrapped "make node fileTypes" (.external e) location c)
      | .ok n =>
        match FileShape.makeFileTypes MakeNode location cs with
        | .error e => .error e
        | .ok ns => .ok (n :: ns)

/-- Lines 410-440: the body of the loop of `FileShape.UnmarshalYAMLNodes`. -/
def FileShape.unmarshalPair (lib : Lib N F X) (node valueNode : YamlNode)
    (s : FileShape N I P) : Step (FileShape N I P) X :=
  if node.Value = "minLength" then
    match lib.DecodeUint64 valueNode s.MinLength with
    | (m, some e) =>
      .stop ⟨{ s with MinLength := m },
        .err (.wrapped "decode minLength" (.external e) s.Location valueNode)⟩
    | (m, none) => .next { s with MinLength := m }
  else if node.Value = "maxLength" then
    match lib.DecodeUint64 valueNode s.MaxLength with
    | (m, some e) =>
      .stop ⟨{ s with MaxLength := m },
        .err (.wrapped "decode maxLength" (.external e) s.Location valueNode)⟩
    | (m, none) => .next { s with MaxLength := m }
  else if node.Value = "fileTypes" then
    if valueNode.Kind ≠ SequenceNode then
      .stop ⟨s, .err (.new "fileTypes must be sequence node" s.Location valueNode)⟩
    else
      match FileShape.makeFileTypes lib.MakeNode s.Location valueNode.Content with
      | .error e => .stop ⟨s, .err e⟩
      | .ok fileTypes => .next { s with FileTypes := some fileTypes }
  else
    match setCustomFacet lib s.toBaseShape node valueNode with
    | .stop r => .stop ⟨{ s with toBaseShape := r.recv }, r.ret⟩
    | .next b => .next { s with toBaseShape := b }

/-- The method `(*FileShape).UnmarshalYAMLNodes`. -/
def FileShape.UnmarshalYAMLNodes (lib : Lib N F X) (s : FileShape N I P)
    (v : List YamlNode) : UnmarshalResult (FileShape N I P) X :=
  unmarshalLoop (FileShape.unmarshalPair lib) v 0 s

/-- Lines 483-495: the body of the loop of `BooleanShape.UnmarshalYAMLNodes`. -/
def BooleanShape.unmarshalPair (lib : Lib N F X) (node valueNode : YamlNode)
    (s : BooleanShape N I P) : Step (BooleanShape N I P) X :=
  if node.Value = "enum" then
    match MakeEnum lib.MakeNode valueNode s.Location with
    | .error e => .stop ⟨s, .err (.wrapped "make enum" e s.Location valueNode)⟩
    | .ok enums => .next { s with Enum := some enums }
  else
    match setCustomFacet lib s.toBaseShape node valueNode with
    | .stop r => .stop ⟨{ s with toBaseShape := r.recv }, r.ret⟩
    | .next b => .next { s with toBaseShape := b }

/-- The method `(*BooleanShape).UnmarshalYAMLNodes`. -/
def BooleanShape.UnmarshalYAMLNodes (lib : Lib N F X) (s : BooleanShape N I P)
    (v : List YamlNode) : UnmarshalResult (BooleanShape N I P) X :=
  unmarshalLoop (BooleanShape.unmarshalPair lib) v 0 s

/-- Lines 537-547: the body of the loop of `DateTimeShape.UnmarshalYAMLNodes`. -/
def DateTimeShape.unmarshalPair (lib : Lib N F X) (node valueNode : YamlNode)
    (s : DateTimeShape N I P) : Step (DateTimeShape N I P) X :=
  if node.Value = "format" then
    match lib.DecodeString valueNode s.Format with
    | (f, some e) =>
      .stop ⟨{ s with Format := f },
        .err (.wrapped "decode format" (.external e) s.Location valueNode)⟩
    | (f, none) => .next { s with Format := f }
  else
    match setCustomFacet lib s.toBaseShape node valueNode with
    | .stop r => .stop ⟨{ s with toBaseShape := r.recv }, r.ret⟩
    | .next b => .next { s with toBaseShape := b }

/-- The method `(*DateTimeShape).UnmarshalYAMLNodes`. -/
def DateTimeShape.UnmarshalYAMLNodes (lib : Lib N F X) (s : DateTimeShape N I P)
    (v : List YamlNode) : UnmarshalResult (DateTimeShape N I P) X :=
  unmarshalLoop (DateTimeShape.unmarshalPair lib) v 0 s

/-- The method `(*DateTimeOnlyShape).UnmarshalYAMLNodes`: `return nil`. -/
def DateTimeOnlyShape.UnmarshalYAMLNodes (s : DateTimeOnlyShape N I P)
    (_v : List YamlNode) : UnmarshalResult (DateTimeOnlyShape N I P) X :=
  ⟨s, .nil⟩

/-- The method `(*DateOnlyShape).UnmarshalYAMLNodes`: `return nil`. -/
def DateOnlyShape.UnmarshalYAMLNodes (s : DateOnlyShape N I P)
    (_v : List YamlNode) : UnmarshalResult (DateOnlyShape N I P) X :=
  ⟨s, .nil⟩

/-- The method `(*TimeOnlyShape).UnmarshalYAMLNodes`: `return nil`. -/
def TimeOnlyShape.UnmarshalYAMLNodes (s : TimeOnlyShape N I P)
    (_v : List YamlNode) : UnmarshalResult (TimeOnlyShape N I P) X :=
  ⟨s, .nil⟩

/-- The method `(*AnyShape).UnmarshalYAMLNodes`: `return nil`. -/
def AnyShape.UnmarshalYAMLNodes (s : AnyShape N I P)
    (_v : List YamlNode) : UnmarshalResult (AnyShape N I P) X :=
  ⟨s, .nil⟩

/-- The method `(*NilShape).UnmarshalYAMLNodes`: `return nil`. -/
def NilShape.UnmarshalYAMLNodes (s : NilShape N I P)
    (_v : List YamlNode) : UnmarshalResult (NilShape N I P) X :=
  ⟨s, .nil⟩

/-- The keys that the loop of `IntegerShape.UnmarshalYAMLNodes` compares `node.Value`
with. -/
def IntegerShape.knownKeys : List String :=
  ["minimum", "maximum", "multipleOf", "format", "enum"]

/-- The keys that the loop of `NumberShape.UnmarshalYAMLNodes` compares `node.Value`
with. -/
def NumberShape.knownKeys : List String :=
  ["minimum", "maximum", "format", "enum", "multipleOf"]

/-- The keys that the loop of `StringShape.UnmarshalYAMLNodes` compares `node.Value`
with. -/
def StringShape.knownKeys : List String :=
  ["minLength", "maxLength", "pattern", "enum"]

/-- The keys that the loop of `FileShape.UnmarshalYAMLNodes` compares `node.Value`
with. -/
def FileShape.knownKeys : List String :=
  ["minLength", "maxLength", "fileTypes"]

/-- The key that the loop of `BooleanShape.UnmarshalYAMLNodes` compares `node.Value`
with. -/
def BooleanShape.knownKeys : List String :=
  ["enum"]

/-- The key that the loop of `DateTimeShape.UnmarshalYAMLNodes` compares `node.Value`
with. -/
def DateTimeShape.knownKeys : List String :=
  ["format"]

/-- The value of a string of decimal digits, most significant first, on top of the
value `acc` of the digits read so far; `none` if a character is not a decimal digit. -/
def decimalValue (acc : Nat) : List Char → Option Nat
  | [] => some acc
  | c :: cs =>
    if 48 ≤ c.toNat ∧ c.toNat ≤ 57 then decimalValue (10 * acc + (c.toNat - 48)) cs
    else none

/-- A model of `big.NewInt(0).SetString(text, 10)` of `math/big`: an optional sign and
at least one decimal digit, nothing else; the value has no bound. -/
def SetString10 (text : String) : Option Int :=
  match text.toList with
  | [] => none
  | '-' :: c :: cs => (decimalValue 0 (c :: cs)).map fun n => -(n : Int)
  | '+' :: c :: cs => (decimalValue 0 (c :: cs)).map fun n => (n : Int)
  | cs => (decimalValue 0 cs).map fun n => (n : Int)

/-- A sample of the outside operations, to run the decoders on concrete inputs: nodes
are represented by their text, `MakeNode` accepts every node, `Decode` accepts decimal
literals and any string, and every pattern compiles. -/
def exampleLib : Lib String Int String where
  MakeNode := fun c _ => .ok c.Value
  SetString := SetString10
  DecodeInt64 := fun c old =>
    match SetString10 c.Value with
    | some n => (some n, none)
    | none => (old, some "cannot decode")
  DecodeFloat64 := fun c old =>
    match SetString10 c.Value with
    | some n => (some n, none)
    | none => (old, some "cannot decode")
  DecodeUint64 := fun c old =>
    match SetString10 c.Value with
    | some n => (some n.toNat, none)
    | none => (old, some "cannot decode")
  DecodeString := fun c _ => (some c.Value, none)
  Compile := fun _ => none

/-- Modelled from the spec: `IsOverridableEnum` is declared outside `scalars.go`; the
spec (section 4.2) says it takes the ancestor enum and the child enum and returns
true iff every element of the child is value-equal to some element of the ancestor.
`valueEq` is the value equality of nodes. -/
def IsOverridableEnum (valueEq : N → N → Bool) (parent child : List N) : Bool :=
  child.all fun c => parent.any fun p => valueEq c p

/-- An integer satisfies the `minimum`/`maximum` bounds of an integer shape: it is not
below a specified minimum and not above a specified maximum. -/
def IntegerShape.satisfiesBounds (s : IntegerShape N I P) (v : Int) : Prop :=
  (∀ m, s.Minimum = some m → m ≤ v) ∧ (∀ m, s.Maximum = some m → v ≤ m)


/-- A facet field after a merge attempt is its old value or, when it was unset, the
ancestor's value. -/
def keptOrFilled {α : Type} (before after ancestor : Option α) : Prop :=
  after = before ∨ (before = none ∧ after = ancestor)

/-! ## Step lemmas -/

theorem keptOrFilled_refl {α : Type} (c p : Option α) : keptOrFilled c c p :=
  Or.inl rfl

theorem keptOrFilled_or {α : Type} (c p : Option α) : keptOrFilled c (c.or p) p := by
  cases c
  · exact Or.inr ⟨rfl, rfl⟩
  · exact Or.inl rfl

theorem bigCmp_neg_iff (x y : Int) : bigCmp x y < 0 ↔ x < y := by
  unfold bigCmp
  split_ifs <;> omega

theorem bigCmp_pos_iff (x y : Int) : bigCmp x y > 0 ↔ y < x := by
  unfold bigCmp
  split_ifs <;> omega

theorem IntegerShape_inheritMinimum_cases (s ss : IntegerShape N I P) :
    (∃ a b, s.Minimum = some a ∧ ss.Minimum = some b ∧ a < b ∧
      (IntegerShape.inheritMinimum s ss : Except (Error N F P) _) =
        .error (NewError "minimum constraint violation" s.Location s.Position
          [("source", .bigInt b), ("target", .bigInt a)])) ∨
    ((∀ a b, s.Minimum = some a → ss.Minimum = some b → b ≤ a) ∧
      (IntegerShape.inheritMinimum s ss : Except (Error N F P) _) =
        .ok { s with Minimum := s.Minimum.or ss.Minimum }) := by
  rcases s with ⟨b, e, f, ⟨mn, mx, mo⟩⟩
  cases mn with
  | none => right; simp [IntegerShape.inheritMinimum]
  | some a =>
    cases h : ss.Minimum with
    | none => right; simp [IntegerShape.inheritMinimum, h]
    | some b =>
      by_cases hab : a < b
      · left; simp [IntegerShape.inheritMinimum, h, hab, bigCmp_neg_iff]
      · right; simp [IntegerShape.inheritMinimum, h, hab, bigCmp_neg_iff]; omega

theorem IntegerShape_inheritMaximum_cases (s ss : IntegerShape N I P) :
    (∃ a b, s.Maximum = some a ∧ ss.Maximum = some b ∧ b < a ∧
      (IntegerShape.inheritMaximum s ss : Except (Error N F P) _) =
        .error (NewError "maximum constraint violation" s.Location s.Position
          [("source", .bigInt b), ("target", .bigInt a)])) ∨
    ((∀ a b, s.Maximum = some a → ss.Maximum = some b → a ≤ b) ∧
      (IntegerShape.inheritMaximum s ss : Except (Error N F P) _) =
        .ok { s with Maximum := s.Maximum.or ss.Maximum }) := by
  rcases s with ⟨b, e, f, ⟨mn, mx, mo⟩⟩
  cases mx with
  | none => right; simp [IntegerShape.inheritMaximum]
  | some a =>
    cases h : ss.Maximum with
    | none => right; simp [IntegerShape.inheritMaximum, h]
    | some b =>
      by_cases hab : b < a
      · left; simp [IntegerShape.inheritMaximum, h, hab, bigCmp_pos_iff]
      · right; simp [IntegerShape.inheritMaximum, h, hab, bigCmp_pos_iff]; omega

theorem IntegerShape_inheritMultipleOf_eq (s ss : IntegerShape N I P) :
    IntegerShape.inheritMultipleOf s ss =
      { s with MultipleOf := s.MultipleOf.or ss.MultipleOf } := by
  rcases s with ⟨b, e, f, ⟨mn, mx, mo⟩⟩
  cases mo <;> simp [IntegerShape.inheritMultipleOf]

theorem IntegerShape_inheritEnum_cases (ov : List N → List N → Bool)
    (s ss : IntegerShape N I P) :
    (∃ ce pe, s.Enum = some ce ∧ ss.Enum = some pe ∧ ov pe ce = false ∧
      (IntegerShape.inheritEnum ov s ss : Except (Error N F P) _) =
        .error (NewError "enum constraint violation" s.Location s.Position
          [("source", .nodes ss.Enum), ("target", .nodes s.Enum)])) ∨
    ((∀ ce pe, s.Enum = some ce → ss.Enum = some pe → ov pe ce = true) ∧
      (IntegerShape.inheritEnum ov s ss : Except (Error N F P) _) =
        .ok { s with Enum := s.Enum.or ss.Enum }) := by
  rcases s with ⟨b, ⟨e⟩, f, m⟩
  cases e with
  | none => right; simp [IntegerShape.inheritEnum]
  | some ce =>
    cases h : ss.Enum with
    | none => right; simp [IntegerShape.inheritEnum, h]
    | some pe =>
      cases hov : ov pe ce
      · left; simp [IntegerShape.inheritEnum, h, hov]
      · right; simp [IntegerShape.inheritEnum, h, hov]

theorem IntegerShape_inheritFormat_eq (s ss : IntegerShape N I P) :
    IntegerShape.inheritFormat s ss = { s with Format := s.Format.or ss.Format } := by
  rcases s with ⟨b, e, ⟨f⟩, m⟩
  cases f <;> simp [IntegerShape.inheritFormat]

/-- The four outcomes of `IntegerShape.Inherit` on an integer ancestor, each with the
receiver it leaves behind. -/
theorem IntegerShape_Inherit_cases (ov : List N → List N → Bool)
    (s ss : IntegerShape N I P) :
    (∃ a b, s.Minimum = some a ∧ ss.Minimum = some b ∧ a < b ∧
      IntegerShape.Inherit ov s (Shape.integer ss : Shape N F I P) =
        ⟨s, .integer ss,
          .error (NewError "minimum constraint violation" s.Location s.Position
            [("source", .bigInt b), ("target", .bigInt a)])⟩) ∨
    ((∀ a b, s.Minimum = some a → ss.Minimum = some b → b ≤ a) ∧
      ∃ a b, s.Maximum = some a ∧ ss.Maximum = some b ∧ b < a ∧
      IntegerShape.Inherit ov s (Shape.integer ss : Shape N F I P) =
        ⟨{ s with Minimum := s.Minimum.or ss.Minimum }, .integer ss,
          .error (NewError "maximum constraint violation" s.Location s.Position
            [("source", .bigInt b), ("target", .bigInt a)])⟩) ∨
    ((∀ a b, s.Minimum = some a → ss.Minimum = some b → b ≤ a) ∧
      (∀ a b, s.Maximum = some a → ss.Maximum = some b → a ≤ b) ∧
      ∃ ce pe, s.Enum = some ce ∧ ss.Enum = some pe ∧ ov pe ce = false ∧
      IntegerShape.Inherit ov s (Shape.integer ss : Shape N F I P) =
        ⟨{ s with Minimum := s.Minimum.or ss.Minimum, Maximum := s.Maximum.or ss.Maximum,
                  MultipleOf := s.MultipleOf.or ss.MultipleOf }, .integer ss,
          .error (NewError "enum constraint violation" s.Location s.Position
            [("source", .nodes ss.Enum), ("target", .nodes s.Enum)])⟩) ∨
    ((∀ a b, s.Minimum = some a → ss.Minimum = some b → b ≤ a) ∧
      (∀ a b, s.Maximum = some a → ss.Maximum = some b → a ≤ b) ∧
      (∀ ce pe, s.Enum = some ce → ss.Enum = some pe → ov pe ce = true) ∧
      IntegerShape.Inherit ov s (Shape.integer ss : Shape N F I P) =
        ⟨{ s with Minimum := s.Minimum.or ss.Minimum, Maximum := s.Maximum.or ss.Maximum,
                  MultipleOf := s.MultipleOf.or ss.MultipleOf, Enum := s.Enum.or ss.Enum,
                  Format := s.Format.or ss.Format }, .integer ss,
          .ok (.integer
            { s with Minimum := s.Minimum.or ss.Minimum, Maximum := s.Maximum.or ss.Maximum,
                     MultipleOf := s.MultipleOf.or ss.MultipleOf, Enum := s.Enum.or ss.Enum,
                     Format := s.Format.or ss.Format })⟩) := by
  rcases @IntegerShape_inheritMinimum_cases N F I P s ss with ⟨a, b, h1, h2, h3, h4⟩ | ⟨hmin, h4⟩
  · left
    exact ⟨a, b, h1, h2, h3, by simp only [IntegerShape.Inherit, h4]⟩
  right
  rcases @IntegerShape_inheritMaximum_cases N F I P { s with Minimum := s.Minimum.or ss.Minimum } ss
    with ⟨a, b, h1, h2, h3, h5⟩ | ⟨hmax, h5⟩
  · left
    exact ⟨hmin, a, b, h1, h2, h3, by simp only [IntegerShape.Inherit, h4, h5]⟩
  right
  rcases @IntegerShape_inheritEnum_cases N F I P ov
    { s with Minimum := s.Minimum.or ss.Minimum, Maximum := s.Maximum.or ss.Maximum,
             MultipleOf := s.MultipleOf.or ss.MultipleOf } ss
    with ⟨ce, pe, h1, h2, h3, h6⟩ | ⟨henum, h6⟩
  · left
    exact ⟨hmin, hmax, ce, pe, h1, h2, h3, by
      simp only [IntegerShape.Inherit, h4, h5, IntegerShape_inheritMultipleOf_eq]
      rw [h6]⟩
  right
  exact ⟨hmin, hmax, henum, by
    simp only [IntegerShape.Inherit, h4, h5, IntegerShape_inheritMultipleOf_eq]
    rw [h6]
    simp only [IntegerShape_inheritFormat_eq]⟩

theorem NumberShape_inheritMinimum_cases (lt : F → F → Bool) (s ss : NumberShape N F I P) :
    (∃ a b, s.Minimum = some a ∧ ss.Minimum = some b ∧ lt a b = true ∧
      NumberShape.inheritMinimum lt s ss =
        .error (NewError "minimum constraint violation" s.Location s.Position
          [("source", .float b), ("target", .float a)])) ∨
    ((∀ a b, s.Minimum = some a → ss.Minimum = some b → lt a b = false) ∧
      NumberShape.inheritMinimum lt s ss =
        .ok { s with Minimum := s.Minimum.or ss.Minimum }) := by
  rcases s with ⟨b, e, f, ⟨mn, mx, mo⟩⟩
  cases mn with
  | none => right; simp [NumberShape.inheritMinimum]
  | some a =>
    cases h : ss.Minimum with
    | none => right; simp [NumberShape.inheritMinimum, h]
    | some b =>
      cases hab : lt a b
      · right; simp [NumberShape.inheritMinimum, h, hab]
      · left; simp [NumberShape.inheritMinimum, h, hab]

theorem NumberShape_inheritMaximum_cases (lt : F → F → Bool) (s ss : NumberShape N F I P) :
    (∃ a b, s.Maximum = some a ∧ ss.Maximum = some b ∧ lt b a = true ∧
      NumberShape.inheritMaximum lt s ss =
        .error (NewError "maximum constraint violation" s.Location s.Position
          [("source", .float b), ("target", .float a)])) ∨
    ((∀ a b, s.Maximum = some a → ss.Maximum = some b → lt b a = false) ∧
      NumberShape.inheritMaximum lt s ss =
        .ok { s with Maximum := s.Maximum.or ss.Maximum }) := by
  rcases s with ⟨b, e, f, ⟨mn, mx, mo⟩⟩
  cases mx with
  | none => right; simp [NumberShape.inheritMaximum]
  | some a =>
    cases h : ss.Maximum with
    | none => right; simp [NumberShape.inheritMaximum, h]
    | some b =>
      cases hab : lt b a
      · right; simp [NumberShape.inheritMaximum, h, hab]
      · left; simp [NumberShape.inheritMaximum, h, hab]

theorem NumberShape_inheritMultipleOf_eq (s ss : NumberShape N F I P) :
    NumberShape.inheritMultipleOf s ss =
      { s with MultipleOf := ss.MultipleOf.or s.MultipleOf } := by
  rcases s with ⟨b, e, f, ⟨mn, mx, mo⟩⟩
  cases h : ss.MultipleOf <;> simp [NumberShape.inheritMultipleOf, h]

theorem NumberShape_inheritEnum_cases (ov : List N → List N → Bool)
    (s ss : NumberShape N F I P) :
    (∃ ce pe, s.Enum = some ce ∧ ss.Enum = some pe ∧ ov pe ce = false ∧
      NumberShape.inheritEnum ov s ss =
        .error (NewError "enum constraint violation" s.Location s.Position
          [("source", .nodes ss.Enum), ("target", .nodes s.Enum)])) ∨
    ((∀ ce pe, s.Enum = some ce → ss.Enum = some pe → ov pe ce = true) ∧
      NumberShape.inheritEnum ov s ss = .ok { s with Enum := s.Enum.or ss.Enum }) := by
  rcases s with ⟨b, ⟨e⟩, f, m⟩
  cases e with
  | none => right; simp [NumberShape.inheritEnum]
  | some ce =>
    cases h : ss.Enum with
    | none => right; simp [NumberShape.inheritEnum, h]
    | some pe =>
      cases hov : ov pe ce
      · left; simp [NumberShape.inheritEnum, h, hov]
      · right; simp [NumberShape.inheritEnum, h, hov]

theorem NumberShape_inheritFormat_eq (s ss : NumberShape N F I P) :
    NumberShape.inheritFormat s ss = { s with Format := s.Format.or ss.Format } := by
  rcases s with ⟨b, e, ⟨f⟩, m⟩
  cases f <;> simp [NumberShape.inheritFormat]

/-- The four outcomes of `NumberShape.Inherit` on a number ancestor, each with the
receiver it leaves behind. -/
theorem NumberShape_Inherit_cases (ov : List N → List N → Bool) (lt : F → F → Bool)
    (s ss : NumberShape N F I P) :
    (∃ a b, s.Minimum = some a ∧ ss.Minimum = some b ∧ lt a b = true ∧
      NumberShape.Inherit ov lt s (.number ss) =
        ⟨s, .number ss,
          .error (NewError "minimum constraint violation" s.Location s.Position
            [("source", .float b), ("target", .float a)])⟩) ∨
    ((∀ a b, s.Minimum = some a → ss.Minimum = some b → lt a b = false) ∧
      ∃ a b, s.Maximum = some a ∧ ss.Maximum = some b ∧ lt b a = true ∧
      NumberShape.Inherit ov lt s (.number ss) =
        ⟨{ s with Minimum := s.Minimum.or ss.Minimum }, .number ss,
          .error (NewError "maximum constraint violation" s.Location s.Position
            [("source", .float b), ("target", .float a)])⟩) ∨
    ((∀ a b, s.Minimum = some a → ss.Minimum = some b → lt a b = false) ∧
      (∀ a b, s.Maximum = some a → ss.Maximum = some b → lt b a = false) ∧
      ∃ ce pe, s.Enum = some ce ∧ ss.Enum = some pe ∧ ov pe ce = false ∧
      NumberShape.Inherit ov lt s (.number ss) =
        ⟨{ s with Minimum := s.Minimum.or ss.Minimum, Maximum := s.Maximum.or ss.Maximum,
                  MultipleOf := ss.MultipleOf.or s.MultipleOf }, .number ss,
          .error (NewError "enum constraint violation" s.Location s.Position
            [("source", .nodes ss.Enum), ("target", .nodes s.Enum)])⟩) ∨
    ((∀ a b, s.Minimum = some a → ss.Minimum = some b → lt a b = false) ∧
      (∀ a b, s.Maximum = some a → ss.Maximum = some b → lt b a = false) ∧
      (∀ ce pe, s.Enum = some ce → ss.Enum = some pe → ov pe ce = true) ∧
      NumberShape.Inherit ov lt s (.number ss) =
        ⟨{ s with Minimum := s.Minimum.or ss.Minimum, Maximum := s.Maximum.or ss.Maximum,
                  MultipleOf := ss.MultipleOf.or s.MultipleOf, Enum := s.Enum.or ss.Enum,
                  Format := s.Format.or ss.Format }, .number ss,
          .ok (.number
            { s with Minimum := s.Minimum.or ss.Minimum, Maximum := s.Maximum.or ss.Maximum,
                     MultipleOf := ss.MultipleOf.or s.MultipleOf, Enum := s.Enum.or ss.Enum,
                     Format := s.Format.or ss.Format })⟩) := by
  rcases NumberShape_inheritMinimum_cases lt s ss with ⟨a, b, h1, h2, h3, h4⟩ | ⟨hmin, h4⟩
  · left
    exact ⟨a, b, h1, h2, h3, by simp only [NumberShape.Inherit, h4]⟩
  right
  rcases NumberShape_inheritMaximum_cases lt { s with Minimum := s.Minimum.or ss.Minimum } ss
    with ⟨a, b, h1, h2, h3, h5⟩ | ⟨hmax, h5⟩
  · left
    exact ⟨hmin, a, b, h1, h2, h3, by simp only [NumberShape.Inherit, h4, h5]⟩
  right
  rcases NumberShape_inheritEnum_cases ov
    { s with Minimum := s.Minimum.or ss.Minimum, Maximum := s.Maximum.or ss.Maximum,
             MultipleOf := ss.MultipleOf.or s.MultipleOf } ss
    with ⟨ce, pe, h1, h2, h3, h6⟩ | ⟨henum, h6⟩
  · left
    exact ⟨hmin, hmax, ce, pe, h1, h2, h3, by
      simp only [NumberShape.Inherit, h4, h5, NumberShape_inheritMultipleOf_eq]
      rw [h6]⟩
  right
  exact ⟨hmin, hmax, henum, by
    simp only [NumberShape.Inherit, h4, h5, NumberShape_inheritMultipleOf_eq]
    rw [h6]
    simp only [NumberShape_inheritFormat_eq]⟩

theorem StringShape_inheritMinLength_cases (s ss : StringShape N I P) :
    (∃ a b, s.MinLength = some a ∧ ss.MinLength = some b ∧ a < b ∧
      (StringShape.inheritMinLength s ss : Except (Error N F P) _) =
        .error (NewError "minLength constraint violation" s.Location s.Position
          [("source", .uint b), ("target", .uint a)])) ∨
    ((∀ a b, s.MinLength = some a → ss.MinLength = some b → b ≤ a) ∧
      (StringShape.inheritMinLength s ss : Except (Error N F P) _) =
        .ok { s with MinLength := s.MinLength.or ss.MinLength }) := by
  rcases s with ⟨b, e, ⟨⟨mx, mn⟩, pat⟩⟩
  cases mn with
  | none => right; simp [StringShape.inheritMinLength]
  | some a =>
    cases h : ss.MinLength with
    | none => right; simp [StringShape.inheritMinLength, h]
    | some b =>
      by_cases hab : a < b
      · left; simp [StringShape.inheritMinLength, h, hab]
      · right; simp [StringShape.inheritMinLength, h, hab]; omega

theorem StringShape_inheritMaxLength_cases (s ss : StringShape N I P) :
    (∃ a b, s.MaxLength = some a ∧ ss.MaxLength = some b ∧ b < a ∧
      (StringShape.inheritMaxLength s ss : Except (Error N F P) _) =
        .error (NewError "maxLength constraint violation" s.Location s.Position
          [("source", .uint b), ("target", .uint a)])) ∨
    ((∀ a b, s.MaxLength = some a → ss.MaxLength = some b → a ≤ b) ∧
      (StringShape.inheritMaxLength s ss : Except (Error N F P) _) =
        .ok { s with MaxLength := s.MaxLength.or ss.MaxLength }) := by
  rcases s with ⟨b, e, ⟨⟨mx, mn⟩, pat⟩⟩
  cases mx with
  | none => right; simp [StringShape.inheritMaxLength]
  | some a =>
    cases h : ss.MaxLength with
    | none => right; simp [StringShape.inheritMaxLength, h]
    | some b =>
      by_cases hab : b < a
      · left; simp [StringShape.inheritMaxLength, h, hab]
      · right; simp [StringShape.inheritMaxLength, h, hab]; omega

theorem StringShape_inheritPattern_eq (s ss : StringShape N I P) :
    StringShape.inheritPattern s ss = { s with Pattern := s.Pattern.or ss.Pattern } := by
  rcases s with ⟨b, e, ⟨⟨mx, mn⟩, pat⟩⟩
  cases pat <;> simp [StringShape.inheritPattern]

theorem StringShape_inheritEnum_cases (ov : List N → List N → Bool)
    (s ss : StringShape N I P) :
    (∃ ce pe, s.Enum = some ce ∧ ss.Enum = some pe ∧ ov pe ce = false ∧
      (StringShape.inheritEnum ov s ss : Except (Error N F P) _) =
        .error (NewError "enum constraint violation" s.Location s.Position
          [("source", .nodes ss.Enum), ("target", .nodes s.Enum)])) ∨
    ((∀ ce pe, s.Enum = some ce → ss.Enum = some pe → ov pe ce = true) ∧
      (StringShape.inheritEnum ov s ss : Except (Error N F P) _) =
        .ok { s with Enum := s.Enum.or ss.Enum }) := by
  rcases s with ⟨b, ⟨e⟩, m⟩
  cases e with
  | none => right; simp [StringShape.inheritEnum]
  | some ce =>
    cases h : ss.Enum with
    | none => right; simp [StringShape.inheritEnum, h]
    | some pe =>
      cases hov : ov pe ce
      · left; simp [StringShape.inheritEnum, h, hov]
      · right; simp [StringShape.inheritEnum, h, hov]

/-- The four outcomes of `StringShape.Inherit` on a string ancestor, each with the
receiver it leaves behind. -/
theorem StringShape_Inherit_cases (ov : List N → List N → Bool)
    (s ss : StringShape N I P) :
    (∃ a b, s.MinLength = some a ∧ ss.MinLength = some b ∧ a < b ∧
      StringShape.Inherit ov s (Shape.string ss : Shape N F I P) =
        ⟨s, .string ss,
          .error (NewError "minLength constraint violation" s.Location s.Position
            [("source", .uint b), ("target", .uint a)])⟩) ∨
    ((∀ a b, s.MinLength = some a → ss.MinLength = some b → b ≤ a) ∧
      ∃ a b, s.MaxLength = some a ∧ ss.MaxLength = some b ∧ b < a ∧
      StringShape.Inherit ov s (Shape.string ss : Shape N F I P) =
        ⟨{ s with MinLength := s.MinLength.or ss.MinLength }, .string ss,
          .error (NewError "maxLength constraint violation" s.Location s.Position
            [("source", .uint b), ("target", .uint a)])⟩) ∨
    ((∀ a b, s.MinLength = some a → ss.MinLength = some b → b ≤ a) ∧
      (∀ a b, s.MaxLength = some a → ss.MaxLength = some b → a ≤ b) ∧
      ∃ ce pe, s.Enum = some ce ∧ ss.Enum = some pe ∧ ov pe ce = false ∧
      StringShape.Inherit ov s (Shape.string ss : Shape N F I P) =
        ⟨{ s with MinLength := s.MinLength.or ss.MinLength,
                  MaxLength := s.MaxLength.or ss.MaxLength,
                  Pattern := s.Pattern.or ss.Pattern }, .string ss,
          .error (NewError "enum constraint violation" s.Location s.Position
            [("source", .nodes ss.Enum), ("target", .nodes s.Enum)])⟩) ∨
    ((∀ a b, s.MinLength = some a → ss.MinLength = some b → b ≤ a) ∧
      (∀ a b, s.MaxLength = some a → ss.MaxLength = some b → a ≤ b) ∧
      (∀ ce pe, s.Enum = some ce → ss.Enum = some pe → ov pe ce = true) ∧
      StringShape.Inherit ov s (Shape.string ss : Shape N F I P) =
        ⟨{ s with MinLength := s.MinLength.or ss.MinLength,
                  MaxLength := s.MaxLength.or ss.MaxLength,
                  Pattern := s.Pattern.or ss.Pattern, Enum := s.Enum.or ss.Enum },
          .string ss,
          .ok (.string
            { s with MinLength := s.MinLength.or ss.MinLength,
                     MaxLength := s.MaxLength.or ss.MaxLength,
                     Pattern := s.Pattern.or ss.Pattern, Enum := s.Enum.or ss.Enum })⟩) := by
  rcases @StringShape_inheritMinLength_cases N F I P s ss with
    ⟨a, b, h1, h2, h3, h4⟩ | ⟨hmin, h4⟩
  · left
    exact ⟨a, b, h1, h2, h3, by simp only [StringShape.Inherit, h4]⟩
  right
  rcases @StringShape_inheritMaxLength_cases N F I P
    { s with MinLength := s.MinLength.or ss.MinLength } ss
    with ⟨a, b, h1, h2, h3, h5⟩ | ⟨hmax, h5⟩
  · left
    exact ⟨hmin, a, b, h1, h2, h3, by simp only [StringShape.Inherit, h4, h5]⟩
  right
  rcases @StringShape_inheritEnum_cases N F I P ov
    { s with MinLength := s.MinLength.or ss.MinLength,
             MaxLength := s.MaxLength.or ss.MaxLength,
             Pattern := s.Pattern.or ss.Pattern } ss
    with ⟨ce, pe, h1, h2, h3, h6⟩ | ⟨henum, h6⟩
  · left
    exact ⟨hmin, hmax, ce, pe, h1, h2, h3, by
      simp only [StringShape.Inherit, h4, h5, StringShape_inheritPattern_eq]
      rw [h6]⟩
  right
  exact ⟨hmin, hmax, henum, by
    simp only [StringShape.Inherit, h4, h5, StringShape_inheritPattern_eq]
    rw [h6]⟩

theorem FileShape_inheritMinLength_cases (s ss : FileShape N I P) :
    (∃ a b, s.MinLength = some a ∧ ss.MinLength = some b ∧ a < b ∧
      (FileShape.inheritMinLength s ss : Except (Error N F P) _) =
        .error (NewError "minLength constraint violation" s.Location s.Position
          [("source", .uint b), ("target", .uint a)])) ∨
    ((∀ a b, s.MinLength = some a → ss.MinLength = some b → b ≤ a) ∧
      (FileShape.inheritMinLength s ss : Except (Error N F P) _) =
        .ok { s with MinLength := s.MinLength.or ss.MinLength }) := by
  rcases s with ⟨b, ⟨mx, mn⟩, ft⟩
  cases mn with
  | none => right; simp [FileShape.inheritMinLength]
  | some a =>
    cases h : ss.MinLength with
    | none => right; simp [FileShape.inheritMinLength, h]
    | some b =>
      by_cases hab : a < b
      · left; simp [FileShape.inheritMinLength, h, hab]
      · right; simp [FileShape.inheritMinLength, h, hab]; omega

theorem FileShape_inheritMaxLength_cases (s ss : FileShape N I P) :
    (∃ a b, s.MaxLength = some a ∧ ss.MaxLength = some b ∧ b < a ∧
      (FileShape.inheritMaxLength s ss : Except (Error N F P) _) =
        .error (NewError "maxLength constraint violation" s.Location s.Position
          [("source", .uint b), ("target", .uint a)])) ∨
    ((∀ a b, s.MaxLength = some a → ss.MaxLength = some b → a ≤ b) ∧
      (FileShape.inheritMaxLength s ss : Except (Error N F P) _) =
        .ok { s with MaxLength := s.MaxLength.or ss.MaxLength }) := by
  rcases s with ⟨b, ⟨mx, mn⟩, ft⟩
  cases mx with
  | none => right; simp [FileShape.inheritMaxLength]
  | some a =>
    cases h : ss.MaxLength with
    | none => right; simp [FileShape.inheritMaxLength, h]
    | some b =>
      by_cases hab : b < a
      · left; simp [FileShape.inheritMaxLength, h, hab]
      · right; simp [FileShape.inheritMaxLength, h, hab]; omega

theorem FileShape_inheritFileTypes_eq (s ss : FileShape N I P) :
    FileShape.inheritFileTypes s ss =
      { s with FileTypes := s.FileTypes.or ss.FileTypes } := by
  rcases s with ⟨b, l, ⟨ft⟩⟩
  cases ft <;> simp [FileShape.inheritFileTypes]

/-- The three outcomes of `FileShape.Inherit` on a file ancestor, each with the
receiver it leaves behind. -/
theorem FileShape_Inherit_cases (s ss : FileShape N I P) :
    (∃ a b, s.MinLength = some a ∧ ss.MinLength = some b ∧ a < b ∧
      FileShape.Inherit s (Shape.file ss : Shape N F I P) =
        ⟨s, .file ss,
          .error (NewError "minLength constraint violation" s.Location s.Position
            [("source", .uint b), ("target", .uint a)])⟩) ∨
    ((∀ a b, s.MinLength = some a → ss.MinLength = some b → b ≤ a) ∧
      ∃ a b, s.MaxLength = some a ∧ ss.MaxLength = some b ∧ b < a ∧
      FileShape.Inherit s (Shape.file ss : Shape N F I P) =
        ⟨{ s with MinLength := s.MinLength.or ss.MinLength }, .file ss,
          .error (NewError "maxLength constraint violation" s.Location s.Position
            [("source", .uint b), ("target", .uint a)])⟩) ∨
    ((∀ a b, s.MinLength = some a → ss.MinLength = some b → b ≤ a) ∧
      (∀ a b, s.MaxLength = some a → ss.MaxLength = some b → a ≤ b) ∧
      FileShape.Inherit s (Shape.file ss : Shape N F I P) =
        ⟨{ s with MinLength := s.MinLength.or ss.MinLength,
                  MaxLength := s.MaxLength.or ss.MaxLength,
                  FileTypes := s.FileTypes.or ss.FileTypes }, .file ss,
          .ok (.file
            { s with MinLength := s.MinLength.or ss.MinLength,
                     MaxLength := s.MaxLength.or ss.MaxLength,
                     FileTypes := s.FileTypes.or ss.FileTypes })⟩) := by
  rcases @FileShape_inheritMinLength_cases N F I P s ss with
    ⟨a, b, h1, h2, h3, h4⟩ | ⟨hmin, h4⟩
  · left
    exact ⟨a, b, h1, h2, h3, by simp only [FileShape.Inherit, h4]⟩
  right
  rcases @FileShape_inheritMaxLength_cases N F I P
    { s with MinLength := s.MinLength.or ss.MinLength } ss
    with ⟨a, b, h1, h2, h3, h5⟩ | ⟨hmax, h5⟩
  · left
    exact ⟨hmin, a, b, h1, h2, h3, by simp only [FileShape.Inherit, h4, h5]⟩
  right
  exact ⟨hmin, hmax, by
    simp only [FileShape.Inherit, h4, h5, FileShape_inheritFileTypes_eq]⟩

/-- The two outcomes of `BooleanShape.Inherit` on a boolean ancestor. -/
theorem BooleanShape_Inherit_cases (ov : List N → List N → Bool)
    (s ss : BooleanShape N I P) :
    (∃ ce pe, s.Enum = some ce ∧ ss.Enum = some pe ∧ ov pe ce = false ∧
      BooleanShape.Inherit ov s (Shape.boolean ss : Shape N F I P) =
        ⟨s, .boolean ss,
          .error (NewError "enum constraint violation" s.Location s.Position
            [("source", .nodes ss.Enum), ("target", .nodes s.Enum)])⟩) ∨
    ((∀ ce pe, s.Enum = some ce → ss.Enum = some pe → ov pe ce = true) ∧
      BooleanShape.Inherit ov s (Shape.boolean ss : Shape N F I P) =
        ⟨{ s with Enum := s.Enum.or ss.Enum }, .boolean ss,
          .ok (.boolean { s with Enum := s.Enum.or ss.Enum })⟩) := by
  rcases s with ⟨b, ⟨e⟩⟩
  cases e with
  | none => right; simp [BooleanShape.Inherit, BooleanShape.inheritEnum]
  | some ce =>
    cases h : ss.Enum with
    | none => right; simp [BooleanShape.Inherit, BooleanShape.inheritEnum, h]
    | some pe =>
      cases hov : ov pe ce
      · left; simp [BooleanShape.Inherit, BooleanShape.inheritEnum, h, hov]
      · right; simp [BooleanShape.Inherit, BooleanShape.inheritEnum, h, hov]

/-- The only outcome of `DateTimeShape.Inherit` on a datetime ancestor. -/
theorem DateTimeShape_Inherit_eq (s ss : DateTimeShape N I P) :
    DateTimeShape.Inherit s (Shape.dateTime ss : Shape N F I P) =
      ⟨{ s with Format := s.Format.or ss.Format }, .dateTime ss,
        .ok (.dateTime { s with Format := s.Format.or ss.Format })⟩ := by
  rcases s with ⟨b, ⟨f⟩⟩
  cases f <;> simp [DateTimeShape.Inherit, DateTimeShape.inheritFormat]


/-! ### Type mismatch -/

theorem IntegerShape_Inherit_mismatch (ov : List N → List N → Bool)
    (s : IntegerShape N I P) (source : Shape N F I P) (h : ∀ ss, source ≠ .integer ss) :
    IntegerShape.Inherit ov s source =
      ⟨s, source, .error (typeMismatch s.toBaseShape source)⟩ := by
  cases source <;> first | rfl | exact absurd rfl (h _)

theorem NumberShape_Inherit_mismatch (ov : List N → List N → Bool) (lt : F → F → Bool)
    (s : NumberShape N F I P) (source : Shape N F I P) (h : ∀ ss, source ≠ .number ss) :
    NumberShape.Inherit ov lt s source =
      ⟨s, source, .error (typeMismatch s.toBaseShape source)⟩ := by
  cases source <;> first | rfl | exact absurd rfl (h _)

theorem StringShape_Inherit_mismatch (ov : List N → List N → Bool)
    (s : StringShape N I P) (source : Shape N F I P) (h : ∀ ss, source ≠ .string ss) :
    StringShape.Inherit ov s source =
      ⟨s, source, .error (typeMismatch s.toBaseShape source)⟩ := by
  cases source <;> first | rfl | exact absurd rfl (h _)

theorem FileShape_Inherit_mismatch
    (s : FileShape N I P) (source : Shape N F I P) (h : ∀ ss, source ≠ .file ss) :
    FileShape.Inherit s source =
      ⟨s, source, .error (typeMismatch s.toBaseShape source)⟩ := by
  cases source <;> first | rfl | exact absurd rfl (h _)

theorem BooleanShape_Inherit_mismatch (ov : List N → List N → Bool)
    (s : BooleanShape N I P) (source : Shape N F I P) (h : ∀ ss, source ≠ .boolean ss) :
    BooleanShape.Inherit ov s source =
      ⟨s, source, .error (typeMismatch s.toBaseShape source)⟩ := by
  cases source <;> first | rfl | exact absurd rfl (h _)

theorem DateTimeShape_Inherit_mismatch
    (s : DateTimeShape N I P) (source : Shape N F I P) (h : ∀ ss, source ≠ .dateTime ss) :
    DateTimeShape.Inherit s source =
      ⟨s, source, .error (typeMismatch s.toBaseShape source)⟩ := by
  cases source <;> first | rfl | exact absurd rfl (h _)


/-! ### Successful merges -/

theorem IntegerShape_Inherit_ok (ov : List N → List N → Bool) (s ss : IntegerShape N I P)
    (sh : Shape N F I P)
    (hok : (IntegerShape.Inherit ov s (Shape.integer ss : Shape N F I P)).ret = .ok sh) :
    IntegerShape.Inherit ov s (Shape.integer ss : Shape N F I P) =
      ⟨{ s with Minimum := s.Minimum.or ss.Minimum, Maximum := s.Maximum.or ss.Maximum,
                MultipleOf := s.MultipleOf.or ss.MultipleOf, Enum := s.Enum.or ss.Enum,
                Format := s.Format.or ss.Format }, .integer ss,
        .ok (.integer
          { s with Minimum := s.Minimum.or ss.Minimum, Maximum := s.Maximum.or ss.Maximum,
                   MultipleOf := s.MultipleOf.or ss.MultipleOf, Enum := s.Enum.or ss.Enum,
                   Format := s.Format.or ss.Format })⟩ := by
  rcases @IntegerShape_Inherit_cases N F I P ov s ss with
    ⟨a, b, h1, h2, h3, h⟩ | ⟨hmin, a, b, h1, h2, h3, h⟩ |
    ⟨hmin, hmax, ce, pe, h1, h2, h3, h⟩ | ⟨hmin, hmax, -, h⟩
  · rw [h] at hok; cases hok
  · rw [h] at hok; cases hok
  · rw [h] at hok; cases hok
  · exact h

theorem NumberShape_Inherit_ok (ov : List N → List N → Bool) (lt : F → F → Bool)
    (s ss : NumberShape N F I P) (sh : Shape N F I P)
    (hok : (NumberShape.Inherit ov lt s (.number ss)).ret = .ok sh) :
    NumberShape.Inherit ov lt s (.number ss) =
      ⟨{ s with Minimum := s.Minimum.or ss.Minimum, Maximum := s.Maximum.or ss.Maximum,
                MultipleOf := ss.MultipleOf.or s.MultipleOf, Enum := s.Enum.or ss.Enum,
                Format := s.Format.or ss.Format }, .number ss,
        .ok (.number
          { s with Minimum := s.Minimum.or ss.Minimum, Maximum := s.Maximum.or ss.Maximum,
                   MultipleOf := ss.MultipleOf.or s.MultipleOf, Enum := s.Enum.or ss.Enum,
                   Format := s.Format.or ss.Format })⟩ := by
  rcases NumberShape_Inherit_cases ov lt s ss with
    ⟨a, b, h1, h2, h3, h⟩ | ⟨hmin, a, b, h1, h2, h3, h⟩ |
    ⟨hmin, hmax, ce, pe, h1, h2, h3, h⟩ | ⟨hmin, hmax, -, h⟩
  · rw [h] at hok; cases hok
  · rw [h] at hok; cases hok
  · rw [h] at hok; cases hok
  · exact h

theorem StringShape_Inherit_ok (ov : List N → List N → Bool) (s ss : StringShape N I P)
    (sh : Shape N F I P)
    (hok : (StringShape.Inherit ov s (Shape.string ss : Shape N F I P)).ret = .ok sh) :
    StringShape.Inherit ov s (Shape.string ss : Shape N F I P) =
      ⟨{ s with MinLength := s.MinLength.or ss.MinLength,
                MaxLength := s.MaxLength.or ss.MaxLength,
                Pattern := s.Pattern.or ss.Pattern, Enum := s.Enum.or ss.Enum },
        .string ss,
        .ok (.string
          { s with MinLength := s.MinLength.or ss.MinLength,
                   MaxLength := s.MaxLength.or ss.MaxLength,
                   Pattern := s.Pattern.or ss.Pattern, Enum := s.Enum.or ss.Enum })⟩ := by
  rcases @StringShape_Inherit_cases N F I P ov s ss with
    ⟨a, b, h1, h2, h3, h⟩ | ⟨hmin, a, b, h1, h2, h3, h⟩ |
    ⟨hmin, hmax, ce, pe, h1, h2, h3, h⟩ | ⟨hmin, hmax, -, h⟩
  · rw [h] at hok; cases hok
  · rw [h] at hok; cases hok
  · rw [h] at hok; cases hok
  · exact h

theorem FileShape_Inherit_ok (s ss : FileShape N I P) (sh : Shape N F I P)
    (hok : (FileShape.Inherit s (Shape.file ss : Shape N F I P)).ret = .ok sh) :
    FileShape.Inherit s (Shape.file ss : Shape N F I P) =
      ⟨{ s with MinLength := s.MinLength.or ss.MinLength,
                MaxLength := s.MaxLength.or ss.MaxLength,
                FileTypes := s.FileTypes.or ss.FileTypes }, .file ss,
        .ok (.file
          { s with MinLength := s.MinLength.or ss.MinLength,
                   MaxLength := s.MaxLength.or ss.MaxLength,
                   FileTypes := s.FileTypes.or ss.FileTypes })⟩ := by
  rcases @FileShape_Inherit_cases N F I P s ss with
    ⟨a, b, h1, h2, h3, h⟩ | ⟨hmin, a, b, h1, h2, h3, h⟩ | ⟨hmin, hmax, h⟩
  · rw [h] at hok; cases hok
  · rw [h] at hok; cases hok
  · exact h

theorem BooleanShape_Inherit_ok (ov : List N → List N → Bool) (s ss : BooleanShape N I P)
    (sh : Shape N F I P)
    (hok : (BooleanShape.Inherit ov s (Shape.boolean ss : Shape N F I P)).ret = .ok sh) :
    BooleanShape.Inherit ov s (Shape.boolean ss : Shape N F I P) =
      ⟨{ s with Enum := s.Enum.or ss.Enum }, .boolean ss,
        .ok (.boolean { s with Enum := s.Enum.or ss.Enum })⟩ := by
  rcases @BooleanShape_Inherit_cases N F I P ov s ss with
    ⟨ce, pe, h1, h2, h3, h⟩ | ⟨-, h⟩
  · rw [h] at hok; cases hok
  · exact h

theorem IsOverridableEnum_iff (valueEq : N → N → Bool) (parent child : List N) :
    IsOverridableEnum valueEq parent child = true ↔
      ∀ c ∈ child, ∃ p ∈ parent, valueEq c p = true := by
  simp [IsOverridableEnum, List.all_eq_true, List.any_eq_true]


/-! ### Enum narrowing for an arbitrary overridability test -/

theorem IntegerShape_Inherit_enum (ov : List N → List N → Bool) (s ss : IntegerShape N I P)
    (ce pe : List N) (hce : s.Enum = some ce) (hpe : ss.Enum = some pe)
    (hmin : ∀ a b, s.Minimum = some a → ss.Minimum = some b → b ≤ a)
    (hmax : ∀ a b, s.Maximum = some a → ss.Maximum = some b → a ≤ b) :
    ((∃ sh, (IntegerShape.Inherit ov s (Shape.integer ss : Shape N F I P)).ret = .ok sh) ↔ ov pe ce = true) ∧
    ((∃ sh, (IntegerShape.Inherit ov s (Shape.integer ss : Shape N F I P)).ret = .ok sh) → (IntegerShape.Inherit ov s (Shape.integer ss : Shape N F I P)).recv.Enum = some ce) ∧
    (ov pe ce = false →
      (IntegerShape.Inherit ov s (Shape.integer ss : Shape N F I P)).ret =
        .error (NewError "enum constraint violation" s.Location s.Position
          [("source", .nodes (some pe)), ("target", .nodes (some ce))])) := by
  rcases @IntegerShape_Inherit_cases N F I P ov s ss with
    ⟨a, b, h1, h2, h3, h⟩ | ⟨-, a, b, h1, h2, h3, h⟩ |
    ⟨-, -, ce2, pe2, h1, h2, h3, h⟩ | ⟨-, -, henum, h⟩
  · exfalso
    have := hmin a b h1 h2
    omega
  · exfalso
    have := hmax a b h1 h2
    omega
  · rw [hce] at h1
    rw [hpe] at h2
    cases h1
    cases h2
    rw [h]
    simp [h3, hce, hpe]
  · have h4 := henum ce pe hce hpe
    rw [h]
    simp [h4, hce]

theorem NumberShape_Inherit_enum (ov : List N → List N → Bool) (lt : F → F → Bool)
    (s ss : NumberShape N F I P)
    (ce pe : List N) (hce : s.Enum = some ce) (hpe : ss.Enum = some pe)
    (hmin : ∀ a b, s.Minimum = some a → ss.Minimum = some b → lt a b = false)
    (hmax : ∀ a b, s.Maximum = some a → ss.Maximum = some b → lt b a = false) :
    ((∃ sh, (NumberShape.Inherit ov lt s (.number ss)).ret = .ok sh) ↔ ov pe ce = true) ∧
    ((∃ sh, (NumberShape.Inherit ov lt s (.number ss)).ret = .ok sh) → (NumberShape.Inherit ov lt s (.number ss)).recv.Enum = some ce) ∧
    (ov pe ce = false →
      (NumberShape.Inherit ov lt s (.number ss)).ret =
        .error (NewError "enum constraint violation" s.Location s.Position
          [("source", .nodes (some pe)), ("target", .nodes (some ce))])) := by
  rcases NumberShape_Inherit_cases ov lt s ss with
    ⟨a, b, h1, h2, h3, h⟩ | ⟨-, a, b, h1, h2, h3, h⟩ |
    ⟨-, -, ce2, pe2, h1, h2, h3, h⟩ | ⟨-, -, henum, h⟩
  · exfalso
    have := hmin a b h1 h2
    simp [h3] at this
  · exfalso
    have := hmax a b h1 h2
    simp [h3] at this
  · rw [hce] at h1
    rw [hpe] at h2
    cases h1
    cases h2
    rw [h]
    simp [h3, hce, hpe]
  · have h4 := henum ce pe hce hpe
    rw [h]
    simp [h4, hce]

theorem StringShape_Inherit_enum (ov : List N → List N → Bool) (s ss : StringShape N I P)
    (ce pe : List N) (hce : s.Enum = some ce) (hpe : ss.Enum = some pe)
    (hmin : ∀ a b, s.MinLength = some a → ss.MinLength = some b → b ≤ a)
    (hmax : ∀ a b, s.MaxLength = some a → ss.MaxLength = some b → a ≤ b) :
    ((∃ sh, (StringShape.Inherit ov s (Shape.string ss : Shape N F I P)).ret = .ok sh) ↔ ov pe ce = true) ∧
    ((∃ sh, (StringShape.Inherit ov s (Shape.string ss : Shape N F I P)).ret = .ok sh) → (StringShape.Inherit ov s (Shape.string ss : Shape N F I P)).recv.Enum = some ce) ∧
    (ov pe ce = false →
      (StringShape.Inherit ov s (Shape.string ss : Shape N F I P)).ret =
        .error (NewError "enum constraint violation" s.Location s.Position
          [("source", .nodes (some pe)), ("target", .nodes (some ce))])) := by
  rcases @StringShape_Inherit_cases N F I P ov s ss with
    ⟨a, b, h1, h2, h3, h⟩ | ⟨-, a, b, h1, h2, h3, h⟩ |
    ⟨-, -, ce2, pe2, h1, h2, h3, h⟩ | ⟨-, -, henum, h⟩
  · exfalso
    have := hmin a b h1 h2
    omega
  · exfalso
    have := hmax a b h1 h2
    omega
  · rw [hce] at h1
    rw [hpe] at h2
    cases h1
    cases h2
    rw [h]
    simp [h3, hce, hpe]
  · have h4 := henum ce pe hce hpe
    rw [h]
    simp [h4, hce]

theorem BooleanShape_Inherit_enum (ov : List N → List N → Bool) (s ss : BooleanShape N I P)
    (ce pe : List N) (hce : s.Enum = some ce) (hpe : ss.Enum = some pe) :
    ((∃ sh, (BooleanShape.Inherit ov s (Shape.boolean ss : Shape N F I P)).ret = .ok sh) ↔ ov pe ce = true) ∧
    ((∃ sh, (BooleanShape.Inherit ov s (Shape.boolean ss : Shape N F I P)).ret = .ok sh) → (BooleanShape.Inherit ov s (Shape.boolean ss : Shape N F I P)).recv.Enum = some ce) ∧
    (ov pe ce = false →
      (BooleanShape.Inherit ov s (Shape.boolean ss : Shape N F I P)).ret =
        .error (NewError "enum constraint violation" s.Location s.Position
          [("source", .nodes (some pe)), ("target", .nodes (some ce))])) := by
  rcases @BooleanShape_Inherit_cases N F I P ov s ss with
    ⟨ce2, pe2, h1, h2, h3, h⟩ | ⟨henum, h⟩
  · rw [hce] at h1
    rw [hpe] at h2
    cases h1
    cases h2
    rw [h]
    simp [h3, hce, hpe]
  · have h4 := henum ce pe hce hpe
    rw [h]
    simp [h4, hce]

/-! ### Repeated and chained merges -/

theorem IntegerShape_Inherit_again (ov : List N → List N → Bool) (s ss : IntegerShape N I P)
    (sh : Shape N F I P)
    (hok : (IntegerShape.Inherit ov s (Shape.integer ss : Shape N F I P)).ret = .ok sh)
    (hrefl : ∀ e, ss.Enum = some e → ov e e = true) :
    IntegerShape.Inherit ov
        (IntegerShape.Inherit ov s (Shape.integer ss : Shape N F I P)).recv
        (Shape.integer ss : Shape N F I P) =
      ⟨(IntegerShape.Inherit ov s (Shape.integer ss : Shape N F I P)).recv, .integer ss,
        .ok (.integer (IntegerShape.Inherit ov s (Shape.integer ss : Shape N F I P)).recv)⟩ := by
  rcases @IntegerShape_Inherit_cases N F I P ov s ss with
    ⟨a, b, h1, h2, h3, h⟩ | ⟨hmin, a, b, h1, h2, h3, h⟩ |
    ⟨hmin, hmax, ce, pe, h1, h2, h3, h⟩ | ⟨hmin, hmax, henum, h⟩
  · rw [h] at hok; cases hok
  · rw [h] at hok; cases hok
  · rw [h] at hok; cases hok
  rw [h]
  rcases @IntegerShape_Inherit_cases N F I P ov
      { s with Minimum := s.Minimum.or ss.Minimum, Maximum := s.Maximum.or ss.Maximum,
               MultipleOf := s.MultipleOf.or ss.MultipleOf, Enum := s.Enum.or ss.Enum,
               Format := s.Format.or ss.Format } ss with
    ⟨a, b, h1, h2, h3, -⟩ | ⟨-, a, b, h1, h2, h3, -⟩ |
    ⟨-, -, ce, pe, h1, h2, h3, -⟩ | ⟨-, -, -, h4⟩
  · exfalso
    cases hs : s.Minimum with
    | none =>
      simp only [hs, Option.none_or] at h1
      rw [h1] at h2
      cases h2
      omega
    | some c =>
      simp only [hs, Option.or_some] at h1
      cases h1
      have := hmin _ _ hs h2
      omega
  · exfalso
    cases hs : s.Maximum with
    | none =>
      simp only [hs, Option.none_or] at h1
      rw [h1] at h2
      cases h2
      omega
    | some c =>
      simp only [hs, Option.or_some] at h1
      cases h1
      have := hmax _ _ hs h2
      omega
  · exfalso
    cases hs : s.Enum with
    | none =>
      simp only [hs, Option.none_or] at h1
      rw [h1] at h2
      cases h2
      simp [hrefl _ h1] at h3
    | some c =>
      simp only [hs, Option.or_some] at h1
      cases h1
      simp [henum _ _ hs h2] at h3
  · rw [h4]
    simp [Option.or_assoc, Option.or_self]

theorem StringShape_Inherit_again (ov : List N → List N → Bool) (s ss : StringShape N I P)
    (sh : Shape N F I P)
    (hok : (StringShape.Inherit ov s (Shape.string ss : Shape N F I P)).ret = .ok sh)
    (hrefl : ∀ e, ss.Enum = some e → ov e e = true) :
    StringShape.Inherit ov
        (StringShape.Inherit ov s (Shape.string ss : Shape N F I P)).recv
        (Shape.string ss : Shape N F I P) =
      ⟨(StringShape.Inherit ov s (Shape.string ss : Shape N F I P)).recv, .string ss,
        .ok (.string (StringShape.Inherit ov s (Shape.string ss : Shape N F I P)).recv)⟩ := by
  rcases @StringShape_Inherit_cases N F I P ov s ss with
    ⟨a, b, h1, h2, h3, h⟩ | ⟨hmin, a, b, h1, h2, h3, h⟩ |
    ⟨hmin, hmax, ce, pe, h1, h2, h3, h⟩ | ⟨hmin, hmax, henum, h⟩
  · rw [h] at hok; cases hok
  · rw [h] at hok; cases hok
  · rw [h] at hok; cases hok
  rw [h]
  rcases @StringShape_Inherit_cases N F I P ov
      { s with MinLength := s.MinLength.or ss.MinLength,
               MaxLength := s.MaxLength.or ss.MaxLength,
               Pattern := s.Pattern.or ss.Pattern, Enum := s.Enum.or ss.Enum } ss with
    ⟨a, b, h1, h2, h3, -⟩ | ⟨-, a, b, h1, h2, h3, -⟩ |
    ⟨-, -, ce, pe, h1, h2, h3, -⟩ | ⟨-, -, -, h4⟩
  · exfalso
    cases hs : s.MinLength with
    | none =>
      simp only [hs, Option.none_or] at h1
      rw [h1] at h2
      cases h2
      omega
    | some c =>
      simp only [hs, Option.or_some] at h1
      cases h1
      have := hmin _ _ hs h2
      omega
  · exfalso
    cases hs : s.MaxLength with
    | none =>
      simp only [hs, Option.none_or] at h1
      rw [h1] at h2
      cases h2
      omega
    | some c =>
      simp only [hs, Option.or_some] at h1
      cases h1
      have := hmax _ _ hs h2
      omega
  · exfalso
    cases hs : s.Enum with
    | none =>
      simp only [hs, Option.none_or] at h1
      rw [h1] at h2
      cases h2
      simp [hrefl _ h1] at h3
    | some c =>
      simp only [hs, Option.or_some] at h1
      cases h1
      simp [henum _ _ hs h2] at h3
  · rw [h4]
    simp [Option.or_assoc, Option.or_self]

theorem FileShape_Inherit_again (s ss : FileShape N I P) (sh : Shape N F I P)
    (hok : (FileShape.Inherit s (Shape.file ss : Shape N F I P)).ret = .ok sh) :
    FileShape.Inherit (FileShape.Inherit s (Shape.file ss : Shape N F I P)).recv
        (Shape.file ss : Shape N F I P) =
      ⟨(FileShape.Inherit s (Shape.file ss : Shape N F I P)).recv, .file ss,
        .ok (.file (FileShape.Inherit s (Shape.file ss : Shape N F I P)).recv)⟩ := by
  rcases @FileShape_Inherit_cases N F I P s ss with
    ⟨a, b, h1, h2, h3, h⟩ | ⟨hmin, a, b, h1, h2, h3, h⟩ | ⟨hmin, hmax, h⟩
  · rw [h] at hok; cases hok
  · rw [h] at hok; cases hok
  rw [h]
  rcases @FileShape_Inherit_cases N F I P
      { s with MinLength := s.MinLength.or ss.MinLength,
               MaxLength := s.MaxLength.or ss.MaxLength,
               FileTypes := s.FileTypes.or ss.FileTypes } ss with
    ⟨a, b, h1, h2, h3, -⟩ | ⟨-, a, b, h1, h2, h3, -⟩ | ⟨-, -, h4⟩
  · exfalso
    cases hs : s.MinLength with
    | none =>
      simp only [hs, Option.none_or] at h1
      rw [h1] at h2
      cases h2
      omega
    | some c =>
      simp only [hs, Option.or_some] at h1
      cases h1
      have := hmin _ _ hs h2
      omega
  · exfalso
    cases hs : s.MaxLength with
    | none =>
      simp only [hs, Option.none_or] at h1
      rw [h1] at h2
      cases h2
      omega
    | some c =>
      simp only [hs, Option.or_some] at h1
      cases h1
      have := hmax _ _ hs h2
      omega
  · rw [h4]
    simp [Option.or_assoc, Option.or_self]

theorem BooleanShape_Inherit_again (ov : List N → List N → Bool)
    (s ss : BooleanShape N I P) (sh : Shape N F I P)
    (hok : (BooleanShape.Inherit ov s (Shape.boolean ss : Shape N F I P)).ret = .ok sh)
    (hrefl : ∀ e, ss.Enum = some e → ov e e = true) :
    BooleanShape.Inherit ov
        (BooleanShape.Inherit ov s (Shape.boolean ss : Shape N F I P)).recv
        (Shape.boolean ss : Shape N F I P) =
      ⟨(BooleanShape.Inherit ov s (Shape.boolean ss : Shape N F I P)).recv, .boolean ss,
        .ok (.boolean (BooleanShape.Inherit ov s (Shape.boolean ss : Shape N F I P)).recv)⟩ := by
  rcases @BooleanShape_Inherit_cases N F I P ov s ss with
    ⟨ce, pe, h1, h2, h3, h⟩ | ⟨henum, h⟩
  · rw [h] at hok; cases hok
  rw [h]
  rcases @BooleanShape_Inherit_cases N F I P ov { s with Enum := s.Enum.or ss.Enum } ss with
    ⟨ce, pe, h1, h2, h3, -⟩ | ⟨-, h4⟩
  · exfalso
    cases hs : s.Enum with
    | none =>
      simp only [hs, Option.none_or] at h1
      rw [h1] at h2
      cases h2
      simp [hrefl _ h1] at h3
    | some c =>
      simp only [hs, Option.or_some] at h1
      cases h1
      simp [henum _ _ hs h2] at h3
  · rw [h4]
    simp [Option.or_assoc, Option.or_self]

theorem DateTimeShape_Inherit_again (s ss : DateTimeShape N I P) :
    DateTimeShape.Inherit (DateTimeShape.Inherit s (Shape.dateTime ss : Shape N F I P)).recv
        (Shape.dateTime ss : Shape N F I P) =
      ⟨(DateTimeShape.Inherit s (Shape.dateTime ss : Shape N F I P)).recv, .dateTime ss,
        .ok (.dateTime (DateTimeShape.Inherit s (Shape.dateTime ss : Shape N F I P)).recv)⟩ := by
  rw [DateTimeShape_Inherit_eq, DateTimeShape_Inherit_eq]
  simp [Option.or_assoc, Option.or_self]

/-- Bounds after a successful `IntegerShape.Inherit`: a bound the ancestor specifies is
specified by the result and at least as tight, and a bound the child specified stands. -/
theorem IntegerShape_Inherit_bounds (ov : List N → List N → Bool) (s ss : IntegerShape N I P)
    (sh : Shape N F I P)
    (hok : (IntegerShape.Inherit ov s (Shape.integer ss : Shape N F I P)).ret = .ok sh) :
    (∀ pm, ss.Minimum = some pm →
      ∃ m, (IntegerShape.Inherit ov s (Shape.integer ss : Shape N F I P)).recv.Minimum = some m ∧
        pm ≤ m) ∧
    (∀ pm, ss.Maximum = some pm →
      ∃ m, (IntegerShape.Inherit ov s (Shape.integer ss : Shape N F I P)).recv.Maximum = some m ∧
        m ≤ pm) ∧
    (∀ m, s.Minimum = some m →
      (IntegerShape.Inherit ov s (Shape.integer ss : Shape N F I P)).recv.Minimum = some m) ∧
    (∀ m, s.Maximum = some m →
      (IntegerShape.Inherit ov s (Shape.integer ss : Shape N F I P)).recv.Maximum = some m) := by
  rcases @IntegerShape_Inherit_cases N F I P ov s ss with
    ⟨a, b, h1, h2, h3, h⟩ | ⟨hmin, a, b, h1, h2, h3, h⟩ |
    ⟨hmin, hmax, ce, pe, h1, h2, h3, h⟩ | ⟨hmin, hmax, -, h⟩
  · rw [h] at hok; cases hok
  · rw [h] at hok; cases hok
  · rw [h] at hok; cases hok
  rw [h]
  refine ⟨?_, ?_, fun m hm => by simp [hm], fun m hm => by simp [hm]⟩
  · intro pm hpm
    cases hs : s.Minimum with
    | none => exact ⟨pm, by simp [hs, hpm], le_refl _⟩
    | some a => exact ⟨a, by simp [hs], hmin a pm hs hpm⟩
  · intro pm hpm
    cases hs : s.Maximum with
    | none => exact ⟨pm, by simp [hs, hpm], le_refl _⟩
    | some a => exact ⟨a, by simp [hs], hmax a pm hs hpm⟩

/-! ### MakeEnum -/

theorem makeEnumElems_ok_iff (mk : YamlNode → String → Except X N) (location : String)
    (cs : List YamlNode) (ns : List N) :
    makeEnumElems mk location cs = .ok ns ↔
      List.Forall₂ (fun c n => mk c location = .ok n) cs ns := by
  induction cs generalizing ns with
  | nil =>
    cases ns <;> simp [makeEnumElems]
  | cons c cs ih =>
    cases hc : mk c location with
    | error e =>
      simp only [makeEnumElems, hc]
      constructor
      · intro h; cases h
      · intro h
        cases h with
        | cons h1 _ => rw [hc] at h1; cases h1
    | ok n =>
      cases hr : makeEnumElems mk location cs with
      | error e =>
        simp only [makeEnumElems, hc, hr]
        constructor
        · intro h; cases h
        · intro h
          cases h with
          | cons _ h2 => rw [← ih _, hr] at h2; cases h2
      | ok ms =>
        simp only [makeEnumElems, hc, hr]
        constructor
        · intro h
          cases h
          exact List.Forall₂.cons hc ((ih ms).1 hr)
        · intro h
          cases h with
          | cons h1 h2 =>
            rw [hc] at h1
            cases h1
            rw [← ih _, hr] at h2
            cases h2
            rfl

theorem makeEnumElems_error_of_mem (mk : YamlNode → String → Except X N) (location : String)
    (cs : List YamlNode) (h : ∃ c ∈ cs, ∃ e, mk c location = .error e) :
    ∃ e, makeEnumElems mk location cs = .error e := by
  induction cs with
  | nil => simp at h
  | cons c cs ih =>
    cases hc : mk c location with
    | error e =>
      exact ⟨.wrapped "make node enum" (.external e) location c, by
        simp only [makeEnumElems, hc]⟩
    | ok n =>
      obtain ⟨d, hd, e, he⟩ := h
      have hd2 : d ∈ cs := by
        rcases List.mem_cons.1 hd with rfl | h2
        · rw [hc] at he; cases he
        · exact h2
      obtain ⟨e2, he2⟩ := ih ⟨d, hd2, e, he⟩
      exact ⟨e2, by simp only [makeEnumElems, hc, he2]⟩

theorem makeEnumElems_ok_of_all (mk : YamlNode → String → Except X N) (location : String)
    (cs : List YamlNode) (h : ∀ c ∈ cs, ∃ n, mk c location = .ok n) :
    ∃ ns, makeEnumElems mk location cs = .ok ns := by
  induction cs with
  | nil => exact ⟨[], rfl⟩
  | cons c cs ih =>
    obtain ⟨n, hn⟩ := h c (List.mem_cons_self _ _)
    obtain ⟨ns, hns⟩ := ih fun d hd => h d (List.mem_cons_of_mem _ hd)
    exact ⟨n :: ns, by simp only [makeEnumElems, hn, hns]⟩

/-! ### The decoder loop -/

/-- The loop from index `i` on is the in-order run of the body over the pairs of the
rest of the list, followed by the end of the loop. -/
theorem unmarshalLoop_eq_runPairs {α : Type} (body : YamlNode → YamlNode → α → Step α X)
    (v : List YamlNode) (i : Nat) (s : α) (hi : i ≤ v.length) (hpar : i % 2 = 0) :
    unmarshalLoop body v i s = endOfLoop v.length (runPairs body (pairs (v.drop i)) s) := by
  induction i, s using unmarshalLoop.induct body v with
  | case1 s =>
    rw [unmarshalLoop]
    simp only [if_true, List.drop_length, pairs, runPairs, endOfLoop, hpar]
  | case2 i s hne h0 h1 s1 hb ih =>
    rw [unmarshalLoop]
    have hd : v.drop i = v[i] :: v[i + 1] :: v.drop (i + 2) := by
      rw [List.drop_eq_getElem_cons h0, List.drop_eq_getElem_cons h1]
    simp only [hne, h0, h1, if_false, dite_true, hb, hd, pairs, runPairs]
    exact ih (by omega) (by omega)
  | case3 i s hne h0 h1 r hb =>
    rw [unmarshalLoop]
    have hd : v.drop i = v[i] :: v[i + 1] :: v.drop (i + 2) := by
      rw [List.drop_eq_getElem_cons h0, List.drop_eq_getElem_cons h1]
    simp only [hne, h0, h1, if_false, dite_true, hb, hd, pairs, runPairs, endOfLoop]
  | case4 i s hne h0 h1 =>
    rw [unmarshalLoop]
    have hlen : i + 1 = v.length := by omega
    have hd : v.drop i = [v[i]] := by
      rw [List.drop_eq_getElem_cons h0, List.drop_eq_nil_of_le (by omega)]
    have hodd : ¬ v.length % 2 = 0 := by omega
    simp only [hne, h0, h1, if_false, dite_true, dite_false, hd, pairs, runPairs, endOfLoop,
      hodd]
    rw [hlen]
  | case5 i s hne h0 =>
    exact absurd hi (by omega)

theorem runPairs_append {α : Type} (body : YamlNode → YamlNode → α → Step α X)
    (ps qs : List (YamlNode × YamlNode)) (s r : α) :
    runPairs body (ps ++ qs) s = .next r ↔
      ∃ s0, runPairs body ps s = .next s0 ∧ runPairs body qs s0 = .next r := by
  induction ps generalizing s with
  | nil => simp [runPairs]
  | cons q ps ih =>
    simp only [List.cons_append, runPairs]
    cases hb : body q.1 q.2 s with
    | next s1 => exact ih s1
    | stop r0 => simp

theorem runPairs_frame {α β : Type} (proj : α → β) (K : YamlNode → Prop)
    (body : YamlNode → YamlNode → α → Step α X)
    (hframe : ∀ k val s s1, ¬ K k → body k val s = .next s1 → proj s1 = proj s)
    (ps : List (YamlNode × YamlNode)) (s r : α) (hrun : runPairs body ps s = .next r)
    (hK : ∀ q ∈ ps, ¬ K q.1) : proj r = proj s := by
  induction ps generalizing s with
  | nil =>
    simp only [runPairs, Step.next.injEq] at hrun
    rw [hrun]
  | cons q ps ih =>
    simp only [runPairs] at hrun
    cases hb : body q.1 q.2 s with
    | next s1 =>
      rw [hb] at hrun
      rw [ih s1 hrun fun p hp => hK p (List.mem_cons_of_mem _ hp)]
      exact hframe _ _ _ _ (hK q (List.mem_cons_self _ _)) hb
    | stop r0 =>
      rw [hb] at hrun
      cases hrun

/-- After a complete run the projection `proj` of the receiver is the one that the
iteration of the last pair with a key in `K` left. -/
theorem runPairs_last {α β : Type} (proj : α → β) (K : YamlNode → Prop)
    (body : YamlNode → YamlNode → α → Step α X)
    (hframe : ∀ k val s s1, ¬ K k → body k val s = .next s1 → proj s1 = proj s)
    (pre post : List (YamlNode × YamlNode)) (k val : YamlNode) (s r : α)
    (hrun : runPairs body (pre ++ (k, val) :: post) s = .next r)
    (hlast : ∀ q ∈ post, ¬ K q.1) :
    ∃ s0 s1, runPairs body pre s = .next s0 ∧ body k val s0 = .next s1 ∧
      proj r = proj s1 := by
  obtain ⟨s0, h0, h1⟩ := (runPairs_append body pre ((k, val) :: post) s r).1 hrun
  simp only [runPairs] at h1
  cases hb : body k val s0 with
  | next s1 =>
    rw [hb] at h1
    exact ⟨s0, s1, h0, hb, runPairs_frame proj K body hframe post s1 r h1 hlast⟩
  | stop r0 =>
    rw [hb] at h1
    cases h1

theorem runPairs_next_mem {α : Type} (body : YamlNode → YamlNode → α → Step α X)
    (ps : List (YamlNode × YamlNode)) (s r : α) (hrun : runPairs body ps s = .next r)
    (q : YamlNode × YamlNode) (hq : q ∈ ps) :
    ∃ pre post s0 s1, ps = pre ++ q :: post ∧ runPairs body pre s = .next s0 ∧
      body q.1 q.2 s0 = .next s1 := by
  obtain ⟨pre, post, rfl⟩ := List.append_of_mem hq
  obtain ⟨s0, h0, h1⟩ := (runPairs_append body pre (q :: post) s r).1 hrun
  simp only [runPairs] at h1
  cases hb : body q.1 q.2 s0 with
  | next s1 => exact ⟨pre, post, s0, s1, rfl, h0, hb⟩
  | stop r0 =>
    rw [hb] at h1
    cases h1

theorem setCustomFacet_cases (lib : Lib N F X) (b : BaseShape N I P) (node valueNode : YamlNode) :
    (∃ e, lib.MakeNode valueNode b.Location = .error e ∧
      setCustomFacet lib b node valueNode =
        .stop ⟨b, .err (.wrapped "make node" (.external e) b.Location valueNode)⟩) ∨
    (∃ n, lib.MakeNode valueNode b.Location = .ok n ∧ b.CustomShapeFacets = none ∧
      setCustomFacet lib b node valueNode = .stop ⟨b, .panic .nilMap⟩) ∨
    (∃ n m, lib.MakeNode valueNode b.Location = .ok n ∧ b.CustomShapeFacets = some m ∧
      setCustomFacet lib b node valueNode =
        .next { b with
          CustomShapeFacets := some fun k => if k = node.Value then some n else m k }) := by
  unfold setCustomFacet
  cases h1 : lib.MakeNode valueNode b.Location with
  | error e => exact Or.inl ⟨e, rfl, rfl⟩
  | ok n =>
    cases h2 : b.CustomShapeFacets with
    | none => exact Or.inr (Or.inl ⟨n, rfl, rfl, rfl⟩)
    | some m => exact Or.inr (Or.inr ⟨n, m, rfl, rfl, rfl⟩)

/-- An iteration of the integer decoder that ends the call returns an error or panics
on the nil map. -/
theorem IntegerShape_unmarshalPair_stop (lib : Lib N F X) (k val : YamlNode)
    (s : IntegerShape N I P) (r : UnmarshalResult (IntegerShape N I P) X)
    (h : IntegerShape.unmarshalPair lib k val s = .stop r) :
    (∃ e, r.ret = .err e) ∨ r.ret = .panic .nilMap := by
  unfold IntegerShape.unmarshalPair at h
  rcases setCustomFacet_cases lib s.toBaseShape k val with
    ⟨e, -, hc⟩ | ⟨n, -, -, hc⟩ | ⟨n, m, -, -, hc⟩ <;>
  simp only [hc] at h <;>
  (repeat' split at h) <;>
  first
    | (cases h; done)
    | (cases h; simp)

/-- An iteration of the integer decoder that completes keeps the location, keeps the
custom facets on a known key, and on any other key stores the node made of the value
under that key. -/
theorem IntegerShape_unmarshalPair_next (lib : Lib N F X) (k val : YamlNode)
    (s s1 : IntegerShape N I P)
    (h : IntegerShape.unmarshalPair lib k val s = .next s1) :
    s1.Location = s.Location ∧
    (k.Value ∈ IntegerShape.knownKeys → s1.CustomShapeFacets = s.CustomShapeFacets) ∧
    (k.Value ∉ IntegerShape.knownKeys →
      ∃ n m, lib.MakeNode val s.Location = .ok n ∧ s.CustomShapeFacets = some m ∧
        s1.CustomShapeFacets = some fun key => if key = k.Value then some n else m key) := by
  unfold IntegerShape.unmarshalPair at h
  rcases setCustomFacet_cases lib s.toBaseShape k val with
    ⟨e, -, hc⟩ | ⟨n, -, -, hc⟩ | ⟨n, m, hmk, hcsf, hc⟩ <;>
  simp only [hc] at h <;>
  (repeat' split at h) <;>
  first
    | (cases h; done)
    | (cases h; simp_all [IntegerShape.knownKeys])

theorem NumberShape_unmarshalPair_stop (lib : Lib N F X) (k val : YamlNode)
    (s : NumberShape N F I P) (r : UnmarshalResult (NumberShape N F I P) X)
    (h : NumberShape.unmarshalPair lib k val s = .stop r) :
    (∃ e, r.ret = .err e) ∨ r.ret = .panic .nilMap := by
  unfold NumberShape.unmarshalPair at h
  rcases setCustomFacet_cases lib s.toBaseShape k val with
    ⟨e, -, hc⟩ | ⟨n, -, -, hc⟩ | ⟨n, m, -, -, hc⟩ <;>
  simp only [hc] at h <;>
  (repeat' split at h) <;>
  first
    | (cases h; done)
    | (cases h; simp)

theorem NumberShape_unmarshalPair_next (lib : Lib N F X) (k val : YamlNode)
    (s s1 : NumberShape N F I P)
    (h : NumberShape.unmarshalPair lib k val s = .next s1) :
    s1.Location = s.Location ∧
    (k.Value ∈ NumberShape.knownKeys → s1.CustomShapeFacets = s.CustomShapeFacets) ∧
    (k.Value ∉ NumberShape.knownKeys →
      ∃ n m, lib.MakeNode val s.Location = .ok n ∧ s.CustomShapeFacets = some m ∧
        s1.CustomShapeFacets = some fun key => if key = k.Value then some n else m key) := by
  unfold NumberShape.unmarshalPair at h
  rcases setCustomFacet_cases lib s.toBaseShape k val with
    ⟨e, -, hc⟩ | ⟨n, -, -, hc⟩ | ⟨n, m, hmk, hcsf, hc⟩ <;>
  simp only [hc] at h <;>
  (repeat' split at h) <;>
  first
    | (cases h; done)
    | (cases h; simp_all [NumberShape.knownKeys])

theorem StringShape_unmarshalPair_stop (lib : Lib N F X) (k val : YamlNode)
    (s : StringShape N I P) (r : UnmarshalResult (StringShape N I P) X)
    (h : StringShape.unmarshalPair lib k val s = .stop r) :
    (∃ e, r.ret = .err e) ∨ r.ret = .panic .nilMap := by
  unfold StringShape.unmarshalPair at h
  rcases setCustomFacet_cases lib s.toBaseShape k val with
    ⟨e, -, hc⟩ | ⟨n, -, -, hc⟩ | ⟨n, m, -, -, hc⟩ <;>
  simp only [hc] at h <;>
  (repeat' split at h) <;>
  first
    | (cases h; done)
    | (cases h; simp)

theorem StringShape_unmarshalPair_next (lib : Lib N F X) (k val : YamlNode)
    (s s1 : StringShape N I P)
    (h : StringShape.unmarshalPair lib k val s = .next s1) :
    s1.Location = s.Location ∧
    (k.Value ∈ StringShape.knownKeys → s1.CustomShapeFacets = s.CustomShapeFacets) ∧
    (k.Value ∉ StringShape.knownKeys →
      ∃ n m, lib.MakeNode val s.Location = .ok n ∧ s.CustomShapeFacets = some m ∧
        s1.CustomShapeFacets = some fun key => if key = k.Value then some n else m key) := by
  unfold StringShape.unmarshalPair at h
  rcases setCustomFacet_cases lib s.toBaseShape k val with
    ⟨e, -, hc⟩ | ⟨n, -, -, hc⟩ | ⟨n, m, hmk, hcsf, hc⟩ <;>
  simp only [hc] at h <;>
  (repeat' split at h) <;>
  first
    | (cases h; done)
    | (cases h; simp_all [StringShape.knownKeys])

theorem FileShape_unmarshalPair_stop (lib : Lib N F X) (k val : YamlNode)
    (s : FileShape N I P) (r : UnmarshalResult (FileShape N I P) X)
    (h : FileShape.unmarshalPair lib k val s = .stop r) :
    (∃ e, r.ret = .err e) ∨ r.ret = .panic .nilMap := by
  unfold FileShape.unmarshalPair at h
  rcases setCustomFacet_cases lib s.toBaseShape k val with
    ⟨e, -, hc⟩ | ⟨n, -, -, hc⟩ | ⟨n, m, -, -, hc⟩ <;>
  simp only [hc] at h <;>
  (repeat' split at h) <;>
  first
    | (cases h; done)
    | (cases h; simp)

theorem FileShape_unmarshalPair_next (lib : Lib N F X) (k val : YamlNode)
    (s s1 : FileShape N I P)
    (h : FileShape.unmarshalPair lib k val s = .next s1) :
    s1.Location = s.Location ∧
    (k.Value ∈ FileShape.knownKeys → s1.CustomShapeFacets = s.CustomShapeFacets) ∧
    (k.Value ∉ FileShape.knownKeys →
      ∃ n m, lib.MakeNode val s.Location = .ok n ∧ s.CustomShapeFacets = some m ∧
        s1.CustomShapeFacets = some fun key => if key = k.Value then some n else m key) := by
  unfold FileShape.unmarshalPair at h
  rcases setCustomFacet_cases lib s.toBaseShape k val with
    ⟨e, -, hc⟩ | ⟨n, -, -, hc⟩ | ⟨n, m, hmk, hcsf, hc⟩ <;>
  simp only [hc] at h <;>
  (repeat' split at h) <;>
  first
    | (cases h; done)
    | (cases h; simp_all [FileShape.knownKeys])

theorem BooleanShape_unmarshalPair_stop (lib : Lib N F X) (k val : YamlNode)
    (s : BooleanShape N I P) (r : UnmarshalResult (BooleanShape N I P) X)
    (h : BooleanShape.unmarshalPair lib k val s = .stop r) :
    (∃ e, r.ret = .err e) ∨ r.ret = .panic .nilMap := by
  unfold BooleanShape.unmarshalPair at h
  rcases setCustomFacet_cases lib s.toBaseShape k val with
    ⟨e, -, hc⟩ | ⟨n, -, -, hc⟩ | ⟨n, m, -, -, hc⟩ <;>
  simp only [hc] at h <;>
  (repeat' split at h) <;>
  first
    | (cases h; done)
    | (cases h; simp)

theorem BooleanShape_unmarshalPair_next (lib : Lib N F X) (k val : YamlNode)
    (s s1 : BooleanShape N I P)
    (h : BooleanShape.unmarshalPair lib k val s = .next s1) :
    s1.Location = s.Location ∧
    (k.Value ∈ BooleanShape.knownKeys → s1.CustomShapeFacets = s.CustomShapeFacets) ∧
    (k.Value ∉ BooleanShape.knownKeys →
      ∃ n m, lib.MakeNode val s.Location = .ok n ∧ s.CustomShapeFacets = some m ∧
        s1.CustomShapeFacets = some fun key => if key = k.Value then some n else m key) := by
  unfold BooleanShape.unmarshalPair at h
  rcases setCustomFacet_cases lib s.toBaseShape k val with
    ⟨e, -, hc⟩ | ⟨n, -, -, hc⟩ | ⟨n, m, hmk, hcsf, hc⟩ <;>
  simp only [hc] at h <;>
  (repeat' split at h) <;>
  first
    | (cases h; done)
    | (cases h; simp_all [BooleanShape.knownKeys])

theorem DateTimeShape_unmarshalPair_stop (lib : Lib N F X) (k val : YamlNode)
    (s : DateTimeShape N I P) (r : UnmarshalResult (DateTimeShape N I P) X)
    (h : DateTimeShape.unmarshalPair lib k val s = .stop r) :
    (∃ e, r.ret = .err e) ∨ r.ret = .panic .nilMap := by
  unfold DateTimeShape.unmarshalPair at h
  rcases setCustomFacet_cases lib s.toBaseShape k val with
    ⟨e, -, hc⟩ | ⟨n, -, -, hc⟩ | ⟨n, m, -, -, hc⟩ <;>
  simp only [hc] at h <;>
  (repeat' split at h) <;>
  first
    | (cases h; done)
    | (cases h; simp)

theorem DateTimeShape_unmarshalPair_next (lib : Lib N F X) (k val : YamlNode)
    (s s1 : DateTimeShape N I P)
    (h : DateTimeShape.unmarshalPair lib k val s = .next s1) :
    s1.Location = s.Location ∧
    (k.Value ∈ DateTimeShape.knownKeys → s1.CustomShapeFacets = s.CustomShapeFacets) ∧
    (k.Value ∉ DateTimeShape.knownKeys →
      ∃ n m, lib.MakeNode val s.Location = .ok n ∧ s.CustomShapeFacets = some m ∧
        s1.CustomShapeFacets = some fun key => if key = k.Value then some n else m key) := by
  unfold DateTimeShape.unmarshalPair at h
  rcases setCustomFacet_cases lib s.toBaseShape k val with
    ⟨e, -, hc⟩ | ⟨n, -, -, hc⟩ | ⟨n, m, hmk, hcsf, hc⟩ <;>
  simp only [hc] at h <;>
  (repeat' split at h) <;>
  first
    | (cases h; done)
    | (cases h; simp_all [DateTimeShape.knownKeys])

/-- A decoder loop started at index 0 is the in-order run of its body over the pairs of
the list, followed by the end of the loop. -/
theorem unmarshalLoop_zero {α : Type} (body : YamlNode → YamlNode → α → Step α X)
    (v : List YamlNode) (s : α) :
    unmarshalLoop body v 0 s = endOfLoop v.length (runPairs body (pairs v) s) := by
  have h := unmarshalLoop_eq_runPairs body v 0 s (Nat.zero_le _) rfl
  rwa [List.drop_zero] at h

theorem runPairs_stop {α : Type} (body : YamlNode → YamlNode → α → Step α X)
    (ps : List (YamlNode × YamlNode)) (s : α) (r0 : UnmarshalResult α X)
    (hr : runPairs body ps s = .stop r0) : ∃ k val s0, body k val s0 = .stop r0 := by
  induction ps generalizing s with
  | nil => simp [runPairs] at hr
  | cons q ps ih =>
    simp only [runPairs] at hr
    cases hb : body q.1 q.2 s with
    | next s1 =>
      rw [hb] at hr
      exact ih s1 hr
    | stop r1 =>
      rw [hb] at hr
      cases hr
      exact ⟨_, _, _, hb⟩

/-- If the call returns nil, every iteration completed and the list has even length. -/
theorem endOfLoop_nil {α : Type} (body : YamlNode → YamlNode → α → Step α X)
    (hstop : ∀ k val s r, body k val s = .stop r →
      (∃ e, r.ret = .err e) ∨ r.ret = .panic .nilMap)
    (len : Nat) (ps : List (YamlNode × YamlNode)) (s r : α)
    (h : endOfLoop len (runPairs body ps s) = ⟨r, .nil⟩) :
    runPairs body ps s = .next r ∧ len % 2 = 0 := by
  cases hr : runPairs body ps s with
  | next s1 =>
    rw [hr] at h
    simp only [endOfLoop] at h
    split at h
    · cases h
      exact ⟨rfl, by assumption⟩
    · cases h
  | stop r0 =>
    exfalso
    rw [hr] at h
    simp only [endOfLoop] at h
    obtain ⟨k, val, s0, hb⟩ := runPairs_stop body ps s r0 hr
    rcases hstop k val s0 r0 hb with ⟨e, he⟩ | he <;> rw [h] at he <;> cases he

theorem IntegerShape_unmarshalPair_minimum (lib : Lib N F X) (k val : YamlNode)
    (s : IntegerShape N I P) (hk : k.Value = "minimum") :
    (val.Tag ≠ "!!int" →
      IntegerShape.unmarshalPair lib k val s =
        .stop ⟨s, .err (.new "minimum must be integer" s.Location val)⟩) ∧
    (val.Tag = "!!int" → lib.SetString val.Value = none →
      IntegerShape.unmarshalPair lib k val s =
        .stop ⟨s, .err (.new "invalid minimum value" s.Location val)⟩) ∧
    (val.Tag = "!!int" → ∀ n, lib.SetString val.Value = some n →
      IntegerShape.unmarshalPair lib k val s = .next { s with Minimum := some n }) := by
  refine ⟨fun h => ?_, fun h h2 => ?_, fun h n h2 => ?_⟩
  · simp [IntegerShape.unmarshalPair, hk, h]
  · simp [IntegerShape.unmarshalPair, hk, h, h2]
  · simp [IntegerShape.unmarshalPair, hk, h, h2]

theorem IntegerShape_unmarshalPair_maximum (lib : Lib N F X) (k val : YamlNode)
    (s : IntegerShape N I P) (hk : k.Value = "maximum") :
    (val.Tag ≠ "!!int" →
      IntegerShape.unmarshalPair lib k val s =
        .stop ⟨s, .err (.new "maximum must be integer" s.Location val)⟩) ∧
    (val.Tag = "!!int" → lib.SetString val.Value = none →
      IntegerShape.unmarshalPair lib k val s =
        .stop ⟨s, .err (.new "invalid maximum value" s.Location val)⟩) ∧
    (val.Tag = "!!int" → ∀ n, lib.SetString val.Value = some n →
      IntegerShape.unmarshalPair lib k val s = .next { s with Maximum := some n }) := by
  refine ⟨fun h => ?_, fun h h2 => ?_, fun h n h2 => ?_⟩
  · simp [IntegerShape.unmarshalPair, hk, h]
  · simp [IntegerShape.unmarshalPair, hk, h, h2]
  · simp [IntegerShape.unmarshalPair, hk, h, h2]

/-- An iteration of the integer decoder on another key than `minimum` leaves the
minimum, and on another key than `maximum` the maximum. -/
theorem IntegerShape_unmarshalPair_bounds_frame (lib : Lib N F X) (k val : YamlNode)
    (s s1 : IntegerShape N I P)
    (h : IntegerShape.unmarshalPair lib k val s = .next s1) :
    (k.Value ≠ "minimum" → s1.Minimum = s.Minimum) ∧
    (k.Value ≠ "maximum" → s1.Maximum = s.Maximum) := by
  unfold IntegerShape.unmarshalPair at h
  rcases setCustomFacet_cases lib s.toBaseShape k val with
    ⟨e, -, hc⟩ | ⟨n, -, -, hc⟩ | ⟨n, m, -, -, hc⟩ <;>
  simp only [hc] at h <;>
  (repeat' split at h) <;>
  first
    | (cases h; done)
    | (cases h; simp_all)

/-- An iteration of the integer decoder on the key `minimum` or `maximum` that
completes had an integer-tagged value with a valid literal and stored its value. -/
theorem IntegerShape_unmarshalPair_bounds_next (lib : Lib N F X) (k val : YamlNode)
    (s s1 : IntegerShape N I P)
    (h : IntegerShape.unmarshalPair lib k val s = .next s1) :
    (k.Value = "minimum" →
      val.Tag = "!!int" ∧ s1.Minimum = lib.SetString val.Value ∧ s1.Minimum ≠ none) ∧
    (k.Value = "maximum" →
      val.Tag = "!!int" ∧ s1.Maximum = lib.SetString val.Value ∧ s1.Maximum ≠ none) := by
  constructor
  · intro hk
    obtain ⟨h1, h2, h3⟩ := IntegerShape_unmarshalPair_minimum lib k val s hk
    by_cases ht : val.Tag = "!!int"
    · cases hs : lib.SetString val.Value with
      | none => rw [h2 ht hs] at h; cases h
      | some n =>
        rw [h3 ht n hs] at h
        cases h
        exact ⟨ht, rfl, by simp⟩
    · rw [h1 ht] at h; cases h
  · intro hk
    obtain ⟨h1, h2, h3⟩ := IntegerShape_unmarshalPair_maximum lib k val s hk
    by_cases ht : val.Tag = "!!int"
    · cases hs : lib.SetString val.Value with
      | none => rw [h2 ht hs] at h; cases h
      | some n =>
        rw [h3 ht n hs] at h
        cases h
        exact ⟨ht, rfl, by simp⟩
    · rw [h1 ht] at h; cases h

/-! ### Decoding of fileTypes -/

theorem makeFileTypes_ok_iff (mk : YamlNode → String → Except X N) (location : String)
    (cs : List YamlNode) (ns : List N) :
    FileShape.makeFileTypes mk location cs = .ok ns ↔
      List.Forall₂ (fun c n => c.Tag = "!!str" ∧ mk c location = .ok n) cs ns := by
  induction cs generalizing ns with
  | nil =>
    cases ns <;> simp [FileShape.makeFileTypes]
  | cons c cs ih =>
    by_cases ht : c.Tag = "!!str"
    · cases hc : mk c location with
      | error e =>
        simp only [FileShape.makeFileTypes, ht, ne_eq, not_true_eq_false, if_false, hc]
        constructor
        · intro h; cases h
        · intro h
          cases h with
          | cons h1 _ => rw [hc] at h1; cases h1.2
      | ok n =>
        cases hr : FileShape.makeFileTypes mk location cs with
        | error e =>
          simp only [FileShape.makeFileTypes, ht, ne_eq, not_true_eq_false, if_false, hc, hr]
          constructor
          · intro h; cases h
          · intro h
            cases h with
            | cons _ h2 => rw [← ih _, hr] at h2; cases h2
        | ok ms =>
          simp only [FileShape.makeFileTypes, ht, ne_eq, not_true_eq_false, if_false, hc, hr]
          constructor
          · intro h
            cases h
            exact List.Forall₂.cons ⟨ht, hc⟩ ((ih ms).1 hr)
          · intro h
            cases h with
            | cons h1 h2 =>
              rw [hc] at h1
              cases h1.2
              rw [← ih _, hr] at h2
              cases h2
              rfl
    · simp only [FileShape.makeFileTypes, ne_eq, ht, not_false_eq_true, if_true]
      constructor
      · intro h; cases h
      · intro h
        cases h with
        | cons h1 _ => exact absurd h1.1 ht

theorem forall₂_left_of_mem {α β : Type} (A : α → Prop) (R : α → β → Prop)
    (cs : List α) (ns : List β) (h : List.Forall₂ (fun c n => A c ∧ R c n) cs ns)
    (c : α) (hc : c ∈ cs) : A c := by
  induction h with
  | nil => simp at hc
  | cons h1 _ ih =>
    rcases List.mem_cons.1 hc with rfl | h2
    · exact h1.1
    · exact ih h2

theorem makeFileTypes_error_of_tag (mk : YamlNode → String → Except X N) (location : String)
    (cs : List YamlNode) (h : ∃ c ∈ cs, c.Tag ≠ "!!str") :
    ∃ e, FileShape.makeFileTypes mk location cs = .error e := by
  cases hr : FileShape.makeFileTypes mk location cs with
  | error e => exact ⟨e, rfl⟩
  | ok ns =>
    exfalso
    have hf := (makeFileTypes_ok_iff mk location cs ns).1 hr
    obtain ⟨c, hc, ht⟩ := h
    exact ht (forall₂_left_of_mem _ _ cs ns hf c hc)

/-- The iteration of the file decoder for the key `fileTypes`. -/
theorem FileShape_unmarshalPair_fileTypes (lib : Lib N F X) (k val : YamlNode)
    (s : FileShape N I P) (hk : k.Value = "fileTypes") :
    (val.Kind ≠ SequenceNode →
      FileShape.unmarshalPair lib k val s =
        .stop ⟨s, .err (.new "fileTypes must be sequence node" s.Location val)⟩) ∧
    (val.Kind = SequenceNode →
      ∀ e, FileShape.makeFileTypes lib.MakeNode s.Location val.Content = .error e →
      FileShape.unmarshalPair lib k val s = .stop ⟨s, .err e⟩) ∧
    (val.Kind = SequenceNode →
      ∀ ns, FileShape.makeFileTypes lib.MakeNode s.Location val.Content = .ok ns →
      FileShape.unmarshalPair lib k val s = .next { s with FileTypes := some ns }) := by
  refine ⟨fun h => ?_, fun h e h2 => ?_, fun h ns h2 => ?_⟩
  · simp [FileShape.unmarshalPair, hk, h]
  · simp [FileShape.unmarshalPair, hk, h, h2]
  · simp [FileShape.unmarshalPair, hk, h, h2]

/-- An iteration of the file decoder on another key than `fileTypes` leaves the file
types. -/
theorem FileShape_unmarshalPair_fileTypes_frame (lib : Lib N F X) (k val : YamlNode)
    (s s1 : FileShape N I P)
    (h : FileShape.unmarshalPair lib k val s = .next s1) (hk : k.Value ≠ "fileTypes") :
    s1.FileTypes = s.FileTypes := by
  unfold FileShape.unmarshalPair at h
  rcases setCustomFacet_cases lib s.toBaseShape k val with
    ⟨e, -, hc⟩ | ⟨n, -, -, hc⟩ | ⟨n, m, -, -, hc⟩ <;>
  simp only [hc] at h <;>
  (repeat' split at h) <;>
  first
    | (cases h; done)
    | (cases h; simp_all)

/-- An iteration of the file decoder on the key `fileTypes` that completes had a
sequence of string-tagged elements and stored the nodes made of them, in order. -/
theorem FileShape_unmarshalPair_fileTypes_next (lib : Lib N F X) (k val : YamlNode)
    (s s1 : FileShape N I P)
    (h : FileShape.unmarshalPair lib k val s = .next s1) (hk : k.Value = "fileTypes") :
    val.Kind = SequenceNode ∧
    ∃ ns, s1.FileTypes = some ns ∧
      List.Forall₂ (fun c n => c.Tag = "!!str" ∧ lib.MakeNode c s.Location = .ok n)
        val.Content ns := by
  obtain ⟨h1, h2, h3⟩ := FileShape_unmarshalPair_fileTypes lib k val s hk
  by_cases hkind : val.Kind = SequenceNode
  · cases hm : FileShape.makeFileTypes lib.MakeNode s.Location val.Content with
    | error e => rw [h2 hkind e hm] at h; cases h
    | ok ns =>
      rw [h3 hkind ns hm] at h
      cases h
      exact ⟨hkind, ns, rfl, (makeFileTypes_ok_iff _ _ _ _).1 hm⟩
  · rw [h1 hkind] at h
    cases h

/-! ### Custom facets -/

theorem exists_last_split {α : Type} (A : α → Prop) (l : List α) (h : ∃ q ∈ l, A q) :
    ∃ pre post q, l = pre ++ q :: post ∧ A q ∧ ∀ x ∈ post, ¬ A x := by
  induction l with
  | nil => simp at h
  | cons a l ih =>
    by_cases hl : ∃ q ∈ l, A q
    · obtain ⟨pre, post, q, h1, h2, h3⟩ := ih hl
      exact ⟨a :: pre, post, q, by rw [h1]; rfl, h2, h3⟩
    · obtain ⟨q, hq, hA⟩ := h
      rcases List.mem_cons.1 hq with rfl | h2
      · exact ⟨[], l, q, rfl, hA, fun x hx hAx => hl ⟨x, hx, hAx⟩⟩
      · exact absurd ⟨q, h2, hA⟩ hl

/-- After a decoder loop that returns nil, the custom facets hold, under the key of the
last pair with a given unknown key, the node made of that pair's value. -/
theorem unmarshalLoop_custom_last {α : Type} (lib : Lib N F X) (base : α → BaseShape N I P)
    (known : List String) (body : YamlNode → YamlNode → α → Step α X)
    (hstop : ∀ k val s r, body k val s = .stop r →
      (∃ e, r.ret = .err e) ∨ r.ret = .panic .nilMap)
    (hnext : ∀ k val s s1, body k val s = .next s1 →
      (base s1).Location = (base s).Location ∧
      (k.Value ∈ known → (base s1).CustomShapeFacets = (base s).CustomShapeFacets) ∧
      (k.Value ∉ known →
        ∃ n m, lib.MakeNode val (base s).Location = .ok n ∧
          (base s).CustomShapeFacets = some m ∧
          (base s1).CustomShapeFacets =
            some fun key => if key = k.Value then some n else m key))
    (s r : α) (v : List YamlNode) (pre post : List (YamlNode × YamlNode)) (k val : YamlNode)
    (hres : unmarshalLoop body v 0 s = ⟨r, .nil⟩)
    (hpairs : pairs v = pre ++ (k, val) :: post)
    (hk : k.Value ∉ known) (hlast : ∀ q ∈ post, q.1.Value ≠ k.Value) :
    ∃ n m, lib.MakeNode val (base s).Location = .ok n ∧
      (base r).CustomShapeFacets = some m ∧ m k.Value = some n := by
  rw [unmarshalLoop_zero] at hres
  obtain ⟨hrun, -⟩ := endOfLoop_nil body hstop _ _ _ _ hres
  rw [hpairs] at hrun
  have hframe : ∀ q w (s s1 : α), ¬ q.Value = k.Value → body q w s = .next s1 →
      (base s1).CustomShapeFacets.bind (fun m => m k.Value) =
        (base s).CustomShapeFacets.bind (fun m => m k.Value) := by
    intro q w s s1 hq hb
    obtain ⟨-, h1, h2⟩ := hnext q w s s1 hb
    by_cases hkn : q.Value ∈ known
    · rw [h1 hkn]
    · obtain ⟨n, m, -, h3, h4⟩ := h2 hkn
      rw [h3, h4]
      simp only [Option.some_bind]
      rw [if_neg fun h => hq h.symm]
  obtain ⟨s0, s1, hpre, hb, hproj⟩ := runPairs_last
    (fun x : α => (base x).CustomShapeFacets.bind (fun m => m k.Value))
    (fun q => q.Value = k.Value) body hframe pre post k val s r hrun hlast
  have hloc : (base s0).Location = (base s).Location :=
    runPairs_frame (fun x : α => (base x).Location) (fun _ => False) body
      (fun k val s s1 _ hb => (hnext k val s s1 hb).1) pre s s0 hpre (fun _ _ h => h)
  obtain ⟨n, m, h1, -, h3⟩ := (hnext k val s0 s1 hb).2.2 hk
  rw [hloc] at h1
  simp only [h3, Option.some_bind, if_true] at hproj
  cases hr : (base r).CustomShapeFacets with
  | none => rw [hr] at hproj; cases hproj
  | some m2 =>
    rw [hr] at hproj
    exact ⟨n, m2, h1, rfl, hproj⟩

/-! ## Claims -/

/-- C1. IntegerShape.Inherit narrowing rule: when child and ancestor both specify
minimum and maximum and the enums do not conflict, the merge succeeds iff the child
minimum is at least the ancestor's and the child maximum at most the ancestor's (exact
integer order); a child minimum below the ancestor's gives the minimum constraint
violation, otherwise a child maximum above the ancestor's gives the maximum one. -/
theorem C1_IntegerShape_Inherit_narrowing (ov : List N → List N → Bool)
    (s ss : IntegerShape N I P) (cmin pmin cmax pmax : Int)
    (hcmin : s.Minimum = some cmin) (hpmin : ss.Minimum = some pmin)
    (hcmax : s.Maximum = some cmax) (hpmax : ss.Maximum = some pmax)
    (henum : s.Enum = none ∨ ss.Enum = none ∨
      ∃ ce pe, s.Enum = some ce ∧ ss.Enum = some pe ∧ ov pe ce = true) :
    ((∃ sh, (IntegerShape.Inherit ov s (Shape.integer ss : Shape N F I P)).ret = .ok sh) ↔
        (pmin ≤ cmin ∧ cmax ≤ pmax)) ∧
    (cmin < pmin →
      (IntegerShape.Inherit ov s (Shape.integer ss : Shape N F I P)).ret =
        .error (NewError "minimum constraint violation" s.Location s.Position
          [("source", .bigInt pmin), ("target", .bigInt cmin)])) ∧
    (pmin ≤ cmin → pmax < cmax →
      (IntegerShape.Inherit ov s (Shape.integer ss : Shape N F I P)).ret =
        .error (NewError "maximum constraint violation" s.Location s.Position
          [("source", .bigInt pmax), ("target", .bigInt cmax)])) := by
  rcases @IntegerShape_Inherit_cases N F I P ov s ss with
    ⟨a, b, h1, h2, h3, h⟩ | ⟨hmin, a, b, h1, h2, h3, h⟩ |
    ⟨hmin, hmax, ce, pe, h1, h2, h3, h⟩ | ⟨hmin, hmax, -, h⟩
  · obtain rfl : a = cmin := by simpa [hcmin] using h1.symm
    obtain rfl : b = pmin := by simpa [hpmin] using h2.symm
    rw [h]
    refine ⟨by simp; omega, fun _ => rfl, fun h4 => by omega⟩
  · obtain rfl : a = cmax := by simpa [hcmax] using h1.symm
    obtain rfl : b = pmax := by simpa [hpmax] using h2.symm
    rw [h]
    refine ⟨by simp; omega, fun h4 => ?_, fun _ _ => rfl⟩
    have := hmin _ _ hcmin hpmin
    omega
  · exfalso
    rcases henum with he | he | ⟨ce2, pe2, he1, he2, he3⟩
    · simp [he] at h1
    · simp [he] at h2
    · rw [h1] at he1
      rw [h2] at he2
      cases he1
      cases he2
      simp [h3] at he3
  · have h5 := hmin _ _ hcmin hpmin
    have h6 := hmax _ _ hcmax hpmax
    rw [h]
    refine ⟨by simp; omega, fun h4 => by omega, fun _ h4 => by omega⟩

/-- C1 (witness): child (5, 10) against ancestor (0, 20), no enums, with the
scenario of the child minimum -5 against the ancestor minimum 0 as second instance. -/
theorem C1_IntegerShape_Inherit_narrowing_witness :
    ((∃ sh, (IntegerShape.Inherit (fun _ _ => false)
        (⟨⟨0, "integer", "a.raml", 0, none⟩, ⟨none⟩, ⟨none⟩, ⟨some 5, some 10, none⟩⟩ :
          IntegerShape Nat Nat Nat)
        (Shape.integer ⟨⟨1, "integer", "a.raml", 0, none⟩, ⟨none⟩, ⟨none⟩,
          ⟨some 0, some 20, none⟩⟩ : Shape Nat Int Nat Nat)).ret = .ok sh) ↔
      ((0 : Int) ≤ 5 ∧ (10 : Int) ≤ 20)) ∧
    (IntegerShape.Inherit (fun _ _ => false)
        (⟨⟨0, "integer", "a.raml", 0, none⟩, ⟨none⟩, ⟨none⟩, ⟨some (-5), some 10, none⟩⟩ :
          IntegerShape Nat Nat Nat)
        (Shape.integer ⟨⟨1, "integer", "a.raml", 0, none⟩, ⟨none⟩, ⟨none⟩,
          ⟨some 0, some 20, none⟩⟩ : Shape Nat Int Nat Nat)).ret =
      .error (NewError "minimum constraint violation" "a.raml" 0
        [("source", .bigInt 0), ("target", .bigInt (-5))]) :=
  ⟨(C1_IntegerShape_Inherit_narrowing (fun _ _ => false) _ _ 5 0 10 20 rfl rfl rfl rfl
      (Or.inl rfl)).1,
   (C1_IntegerShape_Inherit_narrowing (fun _ _ => false)
      (⟨⟨0, "integer", "a.raml", 0, none⟩, ⟨none⟩, ⟨none⟩, ⟨some (-5), some 10, none⟩⟩ :
          IntegerShape Nat Nat Nat)
      ⟨⟨1, "integer", "a.raml", 0, none⟩, ⟨none⟩, ⟨none⟩, ⟨some 0, some 20, none⟩⟩
      (-5) 0 10 20 rfl rfl rfl rfl (Or.inl rfl)).2.1 (by decide)⟩

/-- C2. Subtype safety of IntegerShape.Inherit: if the merge succeeds then for each of
minimum and maximum that the ancestor specifies the resulting shape specifies it too,
with a minimum at least and a maximum at most the ancestor's; hence every integer
within the resulting shape's bounds is within the ancestor's bounds.  The shape
returned is the receiver after the call. -/
theorem C2_IntegerShape_Inherit_subtype_safety (ov : List N → List N → Bool)
    (s ss : IntegerShape N I P) (sh : Shape N F I P)
    (hok : (IntegerShape.Inherit ov s (Shape.integer ss : Shape N F I P)).ret = .ok sh) :
    sh = .integer (IntegerShape.Inherit ov s (Shape.integer ss : Shape N F I P)).recv ∧
    (∀ pm, ss.Minimum = some pm →
      ∃ m, (IntegerShape.Inherit ov s (Shape.integer ss : Shape N F I P)).recv.Minimum = some m ∧
        pm ≤ m) ∧
    (∀ pm, ss.Maximum = some pm →
      ∃ m, (IntegerShape.Inherit ov s (Shape.integer ss : Shape N F I P)).recv.Maximum = some m ∧
        m ≤ pm) ∧
    (∀ v, (IntegerShape.Inherit ov s (Shape.integer ss : Shape N F I P)).recv.satisfiesBounds v →
      ss.satisfiesBounds v) := by
  rcases @IntegerShape_Inherit_cases N F I P ov s ss with
    ⟨a, b, h1, h2, h3, h⟩ | ⟨hmin, a, b, h1, h2, h3, h⟩ |
    ⟨hmin, hmax, ce, pe, h1, h2, h3, h⟩ | ⟨hmin, hmax, -, h⟩
  · rw [h] at hok; cases hok
  · rw [h] at hok; cases hok
  · rw [h] at hok; cases hok
  · rw [h] at hok ⊢
    have hmin2 : ∀ pm, ss.Minimum = some pm →
        ∃ m, s.Minimum.or ss.Minimum = some m ∧ pm ≤ m := by
      intro pm hpm
      cases hs : s.Minimum with
      | none => exact ⟨pm, by simp [hpm], le_refl _⟩
      | some a => exact ⟨a, by simp, hmin a pm hs hpm⟩
    have hmax2 : ∀ pm, ss.Maximum = some pm →
        ∃ m, s.Maximum.or ss.Maximum = some m ∧ m ≤ pm := by
      intro pm hpm
      cases hs : s.Maximum with
      | none => exact ⟨pm, by simp [hpm], le_refl _⟩
      | some a => exact ⟨a, by simp, hmax a pm hs hpm⟩
    refine ⟨by cases hok; rfl, hmin2, hmax2, ?_⟩
    intro v hv
    constructor
    · intro pm hpm
      obtain ⟨m, hm, hle⟩ := hmin2 pm hpm
      exact le_trans hle (hv.1 m hm)
    · intro pm hpm
      obtain ⟨m, hm, hle⟩ := hmax2 pm hpm
      exact le_trans (hv.2 m hm) hle

/-- C2 (witness): a child with no bounds inheriting from the ancestor (0, 20). -/
theorem C2_IntegerShape_Inherit_subtype_safety_witness :
    (IntegerShape.Inherit (fun _ _ => false)
        (⟨⟨0, "integer", "a.raml", 0, none⟩, ⟨none⟩, ⟨none⟩, ⟨none, none, none⟩⟩ :
          IntegerShape Nat Nat Nat)
        (Shape.integer ⟨⟨1, "integer", "a.raml", 0, none⟩, ⟨none⟩, ⟨none⟩,
          ⟨some 0, some 20, none⟩⟩ : Shape Nat Int Nat Nat)).ret =
      .ok (.integer ⟨⟨0, "integer", "a.raml", 0, none⟩, ⟨none⟩, ⟨none⟩,
          ⟨some 0, some 20, none⟩⟩) ∧
    ∃ m, (IntegerShape.Inherit (fun _ _ => false)
        (⟨⟨0, "integer", "a.raml", 0, none⟩, ⟨none⟩, ⟨none⟩, ⟨none, none, none⟩⟩ :
          IntegerShape Nat Nat Nat)
        (Shape.integer ⟨⟨1, "integer", "a.raml", 0, none⟩, ⟨none⟩, ⟨none⟩,
          ⟨some 0, some 20, none⟩⟩ : Shape Nat Int Nat Nat)).recv.Minimum = some m ∧
      (0 : Int) ≤ m :=
  ⟨rfl, (C2_IntegerShape_Inherit_subtype_safety (fun _ _ => false)
    (⟨⟨0, "integer", "a.raml", 0, none⟩, ⟨none⟩, ⟨none⟩, ⟨none, none, none⟩⟩ :
          IntegerShape Nat Nat Nat)
    ⟨⟨1, "integer", "a.raml", 0, none⟩, ⟨none⟩, ⟨none⟩, ⟨some 0, some 20, none⟩⟩
    _ rfl).2.1 0 rfl⟩

/-- C3 (counterexample): an integer child with no minimum and maximum 10 against the
ancestor (0, 5): the merge fails on the maximum, yet the child's minimum, unset before
the call, is 0 after it. -/
theorem C3_Inherit_failure_not_atomic :
    (IntegerShape.Inherit (fun _ _ => false)
        (⟨⟨0, "integer", "a.raml", 0, none⟩, ⟨none⟩, ⟨none⟩, ⟨none, some 10, none⟩⟩ :
          IntegerShape Nat Nat Nat)
        (Shape.integer ⟨⟨1, "integer", "a.raml", 0, none⟩, ⟨none⟩, ⟨none⟩,
          ⟨some 0, some 5, none⟩⟩ : Shape Nat Int Nat Nat)).ret =
      .error (NewError "maximum constraint violation" "a.raml" 0
        [("source", .bigInt 5), ("target", .bigInt 10)]) ∧
    (IntegerShape.Inherit (fun _ _ => false)
        (⟨⟨0, "integer", "a.raml", 0, none⟩, ⟨none⟩, ⟨none⟩, ⟨none, some 10, none⟩⟩ :
          IntegerShape Nat Nat Nat)
        (Shape.integer ⟨⟨1, "integer", "a.raml", 0, none⟩, ⟨none⟩, ⟨none⟩,
          ⟨some 0, some 5, none⟩⟩ : Shape Nat Int Nat Nat)).recv.Minimum = some 0 ∧
    (⟨⟨0, "integer", "a.raml", 0, none⟩, ⟨none⟩, ⟨none⟩, ⟨none, some 10, none⟩⟩ :
          IntegerShape Nat Nat Nat).Minimum = none :=
  ⟨rfl, rfl, rfl⟩

/-- C3 (amended). State of the receiver after a failed Inherit.  After a type mismatch
the receiver is unchanged.  After a constraint violation the base fields are
unchanged and every facet field is either what it was before the call or, if it was
unset before, the ancestor's value (a NumberShape multipleOf may hold the ancestor's
value even if it was set); enum and format, and the pattern of a string shape and the
fileTypes of a file shape, are unchanged.  A boolean shape is unchanged by any failed
call, a datetime shape fails only on a type mismatch, and the five variants without
facets never fail. -/
theorem C3_Inherit_failure_state :
    (∀ (ov : List N → List N → Bool) (s : IntegerShape N I P) (source : Shape N F I P)
        (e : Error N F P), (IntegerShape.Inherit ov s source).ret = .error e →
      ((∀ ss, source ≠ .integer ss) → (IntegerShape.Inherit ov s source).recv = s) ∧
      (∀ ss, source = .integer ss →
        (IntegerShape.Inherit ov s source).recv.toBaseShape = s.toBaseShape ∧
        keptOrFilled s.Minimum (IntegerShape.Inherit ov s source).recv.Minimum ss.Minimum ∧
        keptOrFilled s.Maximum (IntegerShape.Inherit ov s source).recv.Maximum ss.Maximum ∧
        keptOrFilled s.MultipleOf (IntegerShape.Inherit ov s source).recv.MultipleOf
          ss.MultipleOf ∧
        (IntegerShape.Inherit ov s source).recv.Enum = s.Enum ∧
        (IntegerShape.Inherit ov s source).recv.Format = s.Format)) ∧
    (∀ (ov : List N → List N → Bool) (lt : F → F → Bool) (s : NumberShape N F I P)
        (source : Shape N F I P) (e : Error N F P),
        (NumberShape.Inherit ov lt s source).ret = .error e →
      ((∀ ss, source ≠ .number ss) → (NumberShape.Inherit ov lt s source).recv = s) ∧
      (∀ ss, source = .number ss →
        (NumberShape.Inherit ov lt s source).recv.toBaseShape = s.toBaseShape ∧
        keptOrFilled s.Minimum (NumberShape.Inherit ov lt s source).recv.Minimum ss.Minimum ∧
        keptOrFilled s.Maximum (NumberShape.Inherit ov lt s source).recv.Maximum ss.Maximum ∧
        ((NumberShape.Inherit ov lt s source).recv.MultipleOf = s.MultipleOf ∨
          (NumberShape.Inherit ov lt s source).recv.MultipleOf = ss.MultipleOf) ∧
        (NumberShape.Inherit ov lt s source).recv.Enum = s.Enum ∧
        (NumberShape.Inherit ov lt s source).recv.Format = s.Format)) ∧
    (∀ (ov : List N → List N → Bool) (s : StringShape N I P) (source : Shape N F I P)
        (e : Error N F P), (StringShape.Inherit ov s source).ret = .error e →
      ((∀ ss, source ≠ .string ss) → (StringShape.Inherit ov s source).recv = s) ∧
      (∀ ss, source = .string ss →
        (StringShape.Inherit ov s source).recv.toBaseShape = s.toBaseShape ∧
        keptOrFilled s.MinLength (StringShape.Inherit ov s source).recv.MinLength
          ss.MinLength ∧
        keptOrFilled s.MaxLength (StringShape.Inherit ov s source).recv.MaxLength
          ss.MaxLength ∧
        keptOrFilled s.Pattern (StringShape.Inherit ov s source).recv.Pattern ss.Pattern ∧
        (StringShape.Inherit ov s source).recv.Enum = s.Enum)) ∧
    (∀ (s : FileShape N I P) (source : Shape N F I P) (e : Error N F P),
        (FileShape.Inherit s source).ret = .error e →
      ((∀ ss, source ≠ .file ss) → (FileShape.Inherit s source).recv = s) ∧
      (∀ ss, source = .file ss →
        (FileShape.Inherit s source).recv.toBaseShape = s.toBaseShape ∧
        keptOrFilled s.MinLength (FileShape.Inherit s source).recv.MinLength ss.MinLength ∧
        (FileShape.Inherit s source).recv.MaxLength = s.MaxLength ∧
        (FileShape.Inherit s source).recv.FileTypes = s.FileTypes)) ∧
    (∀ (ov : List N → List N → Bool) (s : BooleanShape N I P) (source : Shape N F I P)
        (e : Error N F P), (BooleanShape.Inherit ov s source).ret = .error e →
      (BooleanShape.Inherit ov s source).recv = s) ∧
    (∀ (s : DateTimeShape N I P) (source : Shape N F I P) (e : Error N F P),
        (DateTimeShape.Inherit s source).ret = .error e →
      (∀ ss, source ≠ .dateTime ss) ∧ (DateTimeShape.Inherit s source).recv = s) ∧
    (∀ (source : Shape N F I P) (e : Error N F P),
      (∀ s : DateTimeOnlyShape N I P, (s.Inherit source).ret ≠ .error e) ∧
      (∀ s : DateOnlyShape N I P, (s.Inherit source).ret ≠ .error e) ∧
      (∀ s : TimeOnlyShape N I P, (s.Inherit source).ret ≠ .error e) ∧
      (∀ s : AnyShape N I P, (s.Inherit source).ret ≠ .error e) ∧
      (∀ s : NilShape N I P, (s.Inherit source).ret ≠ .error e)) := by
  refine ⟨?_, ?_, ?_, ?_, ?_, ?_, ?_⟩
  · intro ov s source e he
    refine ⟨fun h => by rw [IntegerShape_Inherit_mismatch ov s source h], ?_⟩
    rintro ss rfl
    rcases @IntegerShape_Inherit_cases N F I P ov s ss with
      ⟨a, b, h1, h2, h3, h⟩ | ⟨hmin, a, b, h1, h2, h3, h⟩ |
      ⟨hmin, hmax, ce, pe, h1, h2, h3, h⟩ | ⟨hmin, hmax, -, h⟩
    · rw [h]; simp [keptOrFilled_refl]
    · rw [h]; simp [keptOrFilled_or, keptOrFilled_refl]
    · rw [h]; simp [keptOrFilled_or, keptOrFilled_refl]
    · rw [h] at he; cases he
  · intro ov lt s source e he
    refine ⟨fun h => by rw [NumberShape_Inherit_mismatch ov lt s source h], ?_⟩
    rintro ss rfl
    rcases NumberShape_Inherit_cases ov lt s ss with
      ⟨a, b, h1, h2, h3, h⟩ | ⟨hmin, a, b, h1, h2, h3, h⟩ |
      ⟨hmin, hmax, ce, pe, h1, h2, h3, h⟩ | ⟨hmin, hmax, -, h⟩
    · rw [h]; simp [keptOrFilled_refl]
    · rw [h]; simp [keptOrFilled_or, keptOrFilled_refl]
    · rw [h]; simp [keptOrFilled_or, keptOrFilled_refl]
      cases ss.MultipleOf <;> simp
    · rw [h] at he; cases he
  · intro ov s source e he
    refine ⟨fun h => by rw [StringShape_Inherit_mismatch ov s source h], ?_⟩
    rintro ss rfl
    rcases @StringShape_Inherit_cases N F I P ov s ss with
      ⟨a, b, h1, h2, h3, h⟩ | ⟨hmin, a, b, h1, h2, h3, h⟩ |
      ⟨hmin, hmax, ce, pe, h1, h2, h3, h⟩ | ⟨hmin, hmax, -, h⟩
    · rw [h]; simp [keptOrFilled_refl]
    · rw [h]; simp [keptOrFilled_or, keptOrFilled_refl]
    · rw [h]; simp [keptOrFilled_or, keptOrFilled_refl]
    · rw [h] at he; cases he
  · intro s source e he
    refine ⟨fun h => by rw [FileShape_Inherit_mismatch s source h], ?_⟩
    rintro ss rfl
    rcases @FileShape_Inherit_cases N F I P s ss with
      ⟨a, b, h1, h2, h3, h⟩ | ⟨hmin, a, b, h1, h2, h3, h⟩ | ⟨hmin, hmax, h⟩
    · rw [h]; simp [keptOrFilled_refl]
    · rw [h]; simp [keptOrFilled_or, keptOrFilled_refl]
    · rw [h] at he; cases he
  · intro ov s source e he
    by_cases hs : ∃ ss, source = .boolean ss
    · obtain ⟨ss, rfl⟩ := hs
      rcases @BooleanShape_Inherit_cases N F I P ov s ss with
        ⟨ce, pe, h1, h2, h3, h⟩ | ⟨-, h⟩
      · rw [h]
      · rw [h] at he; cases he
    · rw [BooleanShape_Inherit_mismatch ov s source (fun ss h => hs ⟨ss, h⟩)]
  · intro s source e he
    have hs : ∀ ss, source ≠ .dateTime ss := by
      rintro ss rfl
      rw [DateTimeShape_Inherit_eq] at he
      cases he
    exact ⟨hs, by rw [DateTimeShape_Inherit_mismatch s source hs]⟩
  · intro source e
    refine ⟨?_, ?_, ?_, ?_, ?_⟩ <;> intro s h <;> cases h

/-- C3 (witness): the failed merge of the child (no minimum, maximum 10) into the
ancestor (0, 5). -/
theorem C3_Inherit_failure_state_witness :
    (IntegerShape.Inherit (fun _ _ => false)
        (⟨⟨0, "integer", "a.raml", 0, none⟩, ⟨none⟩, ⟨none⟩, ⟨none, some 10, none⟩⟩ :
          IntegerShape Nat Nat Nat)
        (Shape.integer ⟨⟨1, "integer", "a.raml", 0, none⟩, ⟨none⟩, ⟨none⟩,
          ⟨some 0, some 5, none⟩⟩ : Shape Nat Int Nat Nat)).ret =
      .error (NewError "maximum constraint violation" "a.raml" 0
        [("source", .bigInt 5), ("target", .bigInt 10)]) ∧
    keptOrFilled none
      (IntegerShape.Inherit (fun _ _ => false)
        (⟨⟨0, "integer", "a.raml", 0, none⟩, ⟨none⟩, ⟨none⟩, ⟨none, some 10, none⟩⟩ :
          IntegerShape Nat Nat Nat)
        (Shape.integer ⟨⟨1, "integer", "a.raml", 0, none⟩, ⟨none⟩, ⟨none⟩,
          ⟨some 0, some 5, none⟩⟩ : Shape Nat Int Nat Nat)).recv.Minimum
      (some 0) :=
  ⟨rfl, (((@C3_Inherit_failure_state Nat Int Nat Nat).1 (fun _ _ => false)
      (⟨⟨0, "integer", "a.raml", 0, none⟩, ⟨none⟩, ⟨none⟩, ⟨none, some 10, none⟩⟩ :
          IntegerShape Nat Nat Nat)
      (Shape.integer ⟨⟨1, "integer", "a.raml", 0, none⟩, ⟨none⟩, ⟨none⟩,
          ⟨some 0, some 5, none⟩⟩) _ rfl).2 _ rfl).2.1⟩

/-- C4 (counterexample): an AnyShape receiver with an IntegerShape ancestor: the
variants differ, yet Inherit returns the receiver and no error. -/
theorem C4_AnyShape_Inherit_no_type_check :
    (∀ ss, (Shape.integer ⟨⟨1, "integer", "a.raml", 0, none⟩, ⟨none⟩, ⟨none⟩,
          ⟨some 0, some 5, none⟩⟩ : Shape Nat Int Nat Nat) ≠ .any ss) ∧
    (AnyShape.Inherit (⟨⟨0, "any", "a.raml", 0, none⟩⟩ : AnyShape Nat Nat Nat)
        (Shape.integer ⟨⟨1, "integer", "a.raml", 0, none⟩, ⟨none⟩, ⟨none⟩,
          ⟨some 0, some 5, none⟩⟩ : Shape Nat Int Nat Nat)).ret =
      .ok (.any ⟨⟨0, "any", "a.raml", 0, none⟩⟩) ∧
    ∀ e, (AnyShape.Inherit (⟨⟨0, "any", "a.raml", 0, none⟩⟩ : AnyShape Nat Nat Nat)
        (Shape.integer ⟨⟨1, "integer", "a.raml", 0, none⟩, ⟨none⟩, ⟨none⟩,
          ⟨some 0, some 5, none⟩⟩ : Shape Nat Int Nat Nat)).ret ≠ .error e :=
  ⟨fun _ h => (nomatch h), rfl, fun _ h => (nomatch h)⟩

/-- C4 (amended). Type-mismatch rule: for IntegerShape, NumberShape, StringShape,
FileShape, BooleanShape and DateTimeShape as receiver and every ancestor whose concrete
variant differs from the receiver's, Inherit returns the type-mismatch error and leaves
receiver and ancestor unchanged.  DateTimeOnlyShape, DateOnlyShape, TimeOnlyShape,
AnyShape and NilShape make no type check: for every ancestor they return the receiver
with no error, leaving receiver and ancestor unchanged. -/
theorem C4_Inherit_type_mismatch :
    (∀ (ov : List N → List N → Bool) (s : IntegerShape N I P) (source : Shape N F I P),
      (∀ ss, source ≠ .integer ss) →
      (IntegerShape.Inherit ov s source).ret = .error (typeMismatch s.toBaseShape source) ∧
      (IntegerShape.Inherit ov s source).recv = s ∧
      (IntegerShape.Inherit ov s source).source = source) ∧
    (∀ (ov : List N → List N → Bool) (lt : F → F → Bool) (s : NumberShape N F I P)
        (source : Shape N F I P),
      (∀ ss, source ≠ .number ss) →
      (NumberShape.Inherit ov lt s source).ret = .error (typeMismatch s.toBaseShape source) ∧
      (NumberShape.Inherit ov lt s source).recv = s ∧
      (NumberShape.Inherit ov lt s source).source = source) ∧
    (∀ (ov : List N → List N → Bool) (s : StringShape N I P) (source : Shape N F I P),
      (∀ ss, source ≠ .string ss) →
      (StringShape.Inherit ov s source).ret = .error (typeMismatch s.toBaseShape source) ∧
      (StringShape.Inherit ov s source).recv = s ∧
      (StringShape.Inherit ov s source).source = source) ∧
    (∀ (s : FileShape N I P) (source : Shape N F I P),
      (∀ ss, source ≠ .file ss) →
      (FileShape.Inherit s source).ret = .error (typeMismatch s.toBaseShape source) ∧
      (FileShape.Inherit s source).recv = s ∧
      (FileShape.Inherit s source).source = source) ∧
    (∀ (ov : List N → List N → Bool) (s : BooleanShape N I P) (source : Shape N F I P),
      (∀ ss, source ≠ .boolean ss) →
      (BooleanShape.Inherit ov s source).ret = .error (typeMismatch s.toBaseShape source) ∧
      (BooleanShape.Inherit ov s source).recv = s ∧
      (BooleanShape.Inherit ov s source).source = source) ∧
    (∀ (s : DateTimeShape N I P) (source : Shape N F I P),
      (∀ ss, source ≠ .dateTime ss) →
      (DateTimeShape.Inherit s source).ret = .error (typeMismatch s.toBaseShape source) ∧
      (DateTimeShape.Inherit s source).recv = s ∧
      (DateTimeShape.Inherit s source).source = source) ∧
    (∀ (source : Shape N F I P),
      (∀ s : DateTimeOnlyShape N I P, (s.Inherit source).ret = .ok (.dateTimeOnly s) ∧
        (s.Inherit source).recv = s ∧ (s.Inherit source).source = source) ∧
      (∀ s : DateOnlyShape N I P, (s.Inherit source).ret = .ok (.dateOnly s) ∧
        (s.Inherit source).recv = s ∧ (s.Inherit source).source = source) ∧
      (∀ s : TimeOnlyShape N I P, (s.Inherit source).ret = .ok (.timeOnly s) ∧
        (s.Inherit source).recv = s ∧ (s.Inherit source).source = source) ∧
      (∀ s : AnyShape N I P, (s.Inherit source).ret = .ok (.any s) ∧
        (s.Inherit source).recv = s ∧ (s.Inherit source).source = source) ∧
      (∀ s : NilShape N I P, (s.Inherit source).ret = .ok (.nil s) ∧
        (s.Inherit source).recv = s ∧ (s.Inherit source).source = source)) := by
  refine ⟨?_, ?_, ?_, ?_, ?_, ?_, ?_⟩
  · intro ov s source h
    rw [IntegerShape_Inherit_mismatch ov s source h]
    exact ⟨rfl, rfl, rfl⟩
  · intro ov lt s source h
    rw [NumberShape_Inherit_mismatch ov lt s source h]
    exact ⟨rfl, rfl, rfl⟩
  · intro ov s source h
    rw [StringShape_Inherit_mismatch ov s source h]
    exact ⟨rfl, rfl, rfl⟩
  · intro s source h
    rw [FileShape_Inherit_mismatch s source h]
    exact ⟨rfl, rfl, rfl⟩
  · intro ov s source h
    rw [BooleanShape_Inherit_mismatch ov s source h]
    exact ⟨rfl, rfl, rfl⟩
  · intro s source h
    rw [DateTimeShape_Inherit_mismatch s source h]
    exact ⟨rfl, rfl, rfl⟩
  · intro source
    exact ⟨fun _ => ⟨rfl, rfl, rfl⟩, fun _ => ⟨rfl, rfl, rfl⟩, fun _ => ⟨rfl, rfl, rfl⟩,
      fun _ => ⟨rfl, rfl, rfl⟩, fun _ => ⟨rfl, rfl, rfl⟩⟩

/-- C4 (witness): an IntegerShape receiver with a StringShape ancestor. -/
theorem C4_Inherit_type_mismatch_witness :
    (∀ ss, (Shape.string ⟨⟨1, "string", "a.raml", 7, none⟩, ⟨none⟩, ⟨⟨none, none⟩, none⟩⟩ :
        Shape Nat Int Nat Nat) ≠ .integer ss) ∧
    (IntegerShape.Inherit (fun _ _ => true)
        (⟨⟨0, "integer", "a.raml", 3, none⟩, ⟨none⟩, ⟨none⟩, ⟨none, some 10, none⟩⟩ :
          IntegerShape Nat Nat Nat)
        (Shape.string ⟨⟨1, "string", "a.raml", 7, none⟩, ⟨none⟩, ⟨⟨none, none⟩, none⟩⟩ :
          Shape Nat Int Nat Nat)).ret =
      .error (NewError "merge shape type mismatch" "a.raml" 3
        [("source", .str "string"), ("target", .str "integer")]) :=
  ⟨fun _ h => (nomatch h),
   ((@C4_Inherit_type_mismatch Nat Int Nat Nat).1 (fun _ _ => true)
      (⟨⟨0, "integer", "a.raml", 3, none⟩, ⟨none⟩, ⟨none⟩, ⟨none, some 10, none⟩⟩ :
          IntegerShape Nat Nat Nat)
      (Shape.string ⟨⟨1, "string", "a.raml", 7, none⟩, ⟨none⟩, ⟨⟨none, none⟩, none⟩⟩)
      (fun _ h => nomatch h)).1⟩

/-- C5. Gap filling: for IntegerShape, NumberShape, StringShape, FileShape, BooleanShape
and DateTimeShape, whenever the child leaves a facet field unset, the ancestor sets it
and Inherit succeeds, the child's field afterwards equals the ancestor's field. -/
theorem C5_Inherit_gap_filling :
    (∀ (ov : List N → List N → Bool) (s ss : IntegerShape N I P) (sh : Shape N F I P),
      (IntegerShape.Inherit ov s (.integer ss)).ret = .ok sh →
      (s.Minimum = none → ss.Minimum ≠ none →
        (IntegerShape.Inherit ov s (Shape.integer ss : Shape N F I P)).recv.Minimum
          = ss.Minimum) ∧
      (s.Maximum = none → ss.Maximum ≠ none →
        (IntegerShape.Inherit ov s (Shape.integer ss : Shape N F I P)).recv.Maximum
          = ss.Maximum) ∧
      (s.MultipleOf = none → ss.MultipleOf ≠ none →
        (IntegerShape.Inherit ov s (Shape.integer ss : Shape N F I P)).recv.MultipleOf
          = ss.MultipleOf) ∧
      (s.Enum = none → ss.Enum ≠ none →
        (IntegerShape.Inherit ov s (Shape.integer ss : Shape N F I P)).recv.Enum = ss.Enum) ∧
      (s.Format = none → ss.Format ≠ none →
        (IntegerShape.Inherit ov s (Shape.integer ss : Shape N F I P)).recv.Format
          = ss.Format)) ∧
    (∀ (ov : List N → List N → Bool) (lt : F → F → Bool) (s ss : NumberShape N F I P)
        (sh : Shape N F I P),
      (NumberShape.Inherit ov lt s (.number ss)).ret = .ok sh →
      (s.Minimum = none → ss.Minimum ≠ none →
        (NumberShape.Inherit ov lt s (.number ss)).recv.Minimum = ss.Minimum) ∧
      (s.Maximum = none → ss.Maximum ≠ none →
        (NumberShape.Inherit ov lt s (.number ss)).recv.Maximum = ss.Maximum) ∧
      (s.MultipleOf = none → ss.MultipleOf ≠ none →
        (NumberShape.Inherit ov lt s (.number ss)).recv.MultipleOf = ss.MultipleOf) ∧
      (s.Enum = none → ss.Enum ≠ none →
        (NumberShape.Inherit ov lt s (.number ss)).recv.Enum = ss.Enum) ∧
      (s.Format = none → ss.Format ≠ none →
        (NumberShape.Inherit ov lt s (.number ss)).recv.Format = ss.Format)) ∧
    (∀ (ov : List N → List N → Bool) (s ss : StringShape N I P) (sh : Shape N F I P),
      (StringShape.Inherit ov s (.string ss)).ret = .ok sh →
      (s.MinLength = none → ss.MinLength ≠ none →
        (StringShape.Inherit ov s (Shape.string ss : Shape N F I P)).recv.MinLength
          = ss.MinLength) ∧
      (s.MaxLength = none → ss.MaxLength ≠ none →
        (StringShape.Inherit ov s (Shape.string ss : Shape N F I P)).recv.MaxLength
          = ss.MaxLength) ∧
      (s.Pattern = none → ss.Pattern ≠ none →
        (StringShape.Inherit ov s (Shape.string ss : Shape N F I P)).recv.Pattern
          = ss.Pattern) ∧
      (s.Enum = none → ss.Enum ≠ none →
        (StringShape.Inherit ov s (Shape.string ss : Shape N F I P)).recv.Enum = ss.Enum)) ∧
    (∀ (s ss : FileShape N I P) (sh : Shape N F I P),
      (FileShape.Inherit s (.file ss)).ret = .ok sh →
      (s.MinLength = none → ss.MinLength ≠ none →
        (FileShape.Inherit s (Shape.file ss : Shape N F I P)).recv.MinLength
          = ss.MinLength) ∧
      (s.MaxLength = none → ss.MaxLength ≠ none →
        (FileShape.Inherit s (Shape.file ss : Shape N F I P)).recv.MaxLength
          = ss.MaxLength) ∧
      (s.FileTypes = none → ss.FileTypes ≠ none →
        (FileShape.Inherit s (Shape.file ss : Shape N F I P)).recv.FileTypes
          = ss.FileTypes)) ∧
    (∀ (ov : List N → List N → Bool) (s ss : BooleanShape N I P) (sh : Shape N F I P),
      (BooleanShape.Inherit ov s (.boolean ss)).ret = .ok sh →
      s.Enum = none → ss.Enum ≠ none →
        (BooleanShape.Inherit ov s (Shape.boolean ss : Shape N F I P)).recv.Enum = ss.Enum) ∧
    (∀ (s ss : DateTimeShape N I P) (sh : Shape N F I P),
      (DateTimeShape.Inherit s (.dateTime ss)).ret = .ok sh →
      s.Format = none → ss.Format ≠ none →
        (DateTimeShape.Inherit s (Shape.dateTime ss : Shape N F I P)).recv.Format
          = ss.Format) := by
  refine ⟨?_, ?_, ?_, ?_, ?_, ?_⟩
  · intro ov s ss sh hok
    rw [IntegerShape_Inherit_ok ov s ss sh hok]
    refine ⟨?_, ?_, ?_, ?_, ?_⟩ <;> intro h _ <;> simp [h]
  · intro ov lt s ss sh hok
    rw [NumberShape_Inherit_ok ov lt s ss sh hok]
    refine ⟨?_, ?_, ?_, ?_, ?_⟩ <;> intro h _ <;> simp [h, Option.or_none]
  · intro ov s ss sh hok
    rw [StringShape_Inherit_ok ov s ss sh hok]
    refine ⟨?_, ?_, ?_, ?_⟩ <;> intro h _ <;> simp [h]
  · intro s ss sh hok
    rw [FileShape_Inherit_ok s ss sh hok]
    refine ⟨?_, ?_, ?_⟩ <;> intro h _ <;> simp [h]
  · intro ov s ss sh hok h _
    rw [BooleanShape_Inherit_ok ov s ss sh hok]
    simp [h]
  · intro s ss sh _ h _
    rw [DateTimeShape_Inherit_eq]
    simp [h]

/-- C5 (witness): a BooleanShape with no enum inheriting from a parent with enum
`[true]` ends with enum `[true]`. -/
theorem C5_Inherit_gap_filling_witness :
    (BooleanShape.Inherit (fun _ _ => false)
        (⟨⟨0, "boolean", "a.raml", 0, none⟩, ⟨none⟩⟩ : BooleanShape Bool Nat Nat)
        (Shape.boolean ⟨⟨1, "boolean", "a.raml", 0, none⟩, ⟨some [true]⟩⟩ :
          Shape Bool Int Nat Nat)).ret =
      .ok (.boolean ⟨⟨0, "boolean", "a.raml", 0, none⟩, ⟨some [true]⟩⟩) ∧
    (BooleanShape.Inherit (fun _ _ => false)
        (⟨⟨0, "boolean", "a.raml", 0, none⟩, ⟨none⟩⟩ : BooleanShape Bool Nat Nat)
        (Shape.boolean ⟨⟨1, "boolean", "a.raml", 0, none⟩, ⟨some [true]⟩⟩ :
          Shape Bool Int Nat Nat)).recv.Enum = some [true] :=
  ⟨rfl, (@C5_Inherit_gap_filling Bool Int Nat Nat).2.2.2.2.1 (fun _ _ => false)
      (⟨⟨0, "boolean", "a.raml", 0, none⟩, ⟨none⟩⟩ : BooleanShape Bool Nat Nat)
      ⟨⟨1, "boolean", "a.raml", 0, none⟩, ⟨some [true]⟩⟩ _ rfl rfl (by simp)⟩

/-- C6. Child values stand: for IntegerShape, StringShape, FileShape, BooleanShape and
DateTimeShape, every facet field that the child specifies before the call is unchanged
after a successful Inherit, whatever the ancestor specifies. -/
theorem C6_Inherit_child_values_stand :
    (∀ (ov : List N → List N → Bool) (s ss : IntegerShape N I P) (sh : Shape N F I P),
      (IntegerShape.Inherit ov s (Shape.integer ss : Shape N F I P)).ret = .ok sh →
      (∀ x, s.Minimum = some x → (IntegerShape.Inherit ov s (Shape.integer ss : Shape N F I P)).recv.Minimum = some x) ∧
      (∀ x, s.Maximum = some x → (IntegerShape.Inherit ov s (Shape.integer ss : Shape N F I P)).recv.Maximum = some x) ∧
      (∀ x, s.MultipleOf = some x → (IntegerShape.Inherit ov s (Shape.integer ss : Shape N F I P)).recv.MultipleOf = some x) ∧
      (∀ x, s.Enum = some x → (IntegerShape.Inherit ov s (Shape.integer ss : Shape N F I P)).recv.Enum = some x) ∧
      (∀ x, s.Format = some x → (IntegerShape.Inherit ov s (Shape.integer ss : Shape N F I P)).recv.Format = some x)) ∧
    (∀ (ov : List N → List N → Bool) (s ss : StringShape N I P) (sh : Shape N F I P),
      (StringShape.Inherit ov s (Shape.string ss : Shape N F I P)).ret = .ok sh →
      (∀ x, s.MinLength = some x → (StringShape.Inherit ov s (Shape.string ss : Shape N F I P)).recv.MinLength = some x) ∧
      (∀ x, s.MaxLength = some x → (StringShape.Inherit ov s (Shape.string ss : Shape N F I P)).recv.MaxLength = some x) ∧
      (∀ x, s.Pattern = some x → (StringShape.Inherit ov s (Shape.string ss : Shape N F I P)).recv.Pattern = some x) ∧
      (∀ x, s.Enum = some x → (StringShape.Inherit ov s (Shape.string ss : Shape N F I P)).recv.Enum = some x)) ∧
    (∀ (s ss : FileShape N I P) (sh : Shape N F I P),
      (FileShape.Inherit s (Shape.file ss : Shape N F I P)).ret = .ok sh →
      (∀ x, s.MinLength = some x → (FileShape.Inherit s (Shape.file ss : Shape N F I P)).recv.MinLength = some x) ∧
      (∀ x, s.MaxLength = some x → (FileShape.Inherit s (Shape.file ss : Shape N F I P)).recv.MaxLength = some x) ∧
      (∀ x, s.FileTypes = some x → (FileShape.Inherit s (Shape.file ss : Shape N F I P)).recv.FileTypes = some x)) ∧
    (∀ (ov : List N → List N → Bool) (s ss : BooleanShape N I P) (sh : Shape N F I P),
      (BooleanShape.Inherit ov s (Shape.boolean ss : Shape N F I P)).ret = .ok sh →
      (∀ x, s.Enum = some x → (BooleanShape.Inherit ov s (Shape.boolean ss : Shape N F I P)).recv.Enum = some x)) ∧
    (∀ (s ss : DateTimeShape N I P) (sh : Shape N F I P),
      (DateTimeShape.Inherit s (Shape.dateTime ss : Shape N F I P)).ret = .ok sh →
      (∀ x, s.Format = some x → (DateTimeShape.Inherit s (Shape.dateTime ss : Shape N F I P)).recv.Format = some x)) := by
  refine ⟨?_, ?_, ?_, ?_, ?_⟩
  · intro ov s ss sh hok
    rw [IntegerShape_Inherit_ok ov s ss sh hok]
    refine ⟨?_, ?_, ?_, ?_, ?_⟩ <;> intro x h <;> simp [h]
  · intro ov s ss sh hok
    rw [StringShape_Inherit_ok ov s ss sh hok]
    refine ⟨?_, ?_, ?_, ?_⟩ <;> intro x h <;> simp [h]
  · intro s ss sh hok
    rw [FileShape_Inherit_ok s ss sh hok]
    refine ⟨?_, ?_, ?_⟩ <;> intro x h <;> simp [h]
  · intro ov s ss sh hok x h
    rw [BooleanShape_Inherit_ok ov s ss sh hok]
    simp [h]
  · intro s ss sh _ x h
    rw [DateTimeShape_Inherit_eq]
    simp [h]

/-- C6 (witness): the child (minimum 5, maximum 10) inheriting from (0, 20) stays
(5, 10). -/
theorem C6_Inherit_child_values_stand_witness :
    (IntegerShape.Inherit (fun _ _ => false)
        (⟨⟨0, "integer", "a.raml", 0, none⟩, ⟨none⟩, ⟨none⟩, ⟨some 5, some 10, none⟩⟩ :
          IntegerShape Nat Nat Nat)
        (Shape.integer ⟨⟨1, "integer", "a.raml", 0, none⟩, ⟨none⟩, ⟨none⟩,
          ⟨some 0, some 20, none⟩⟩ : Shape Nat Int Nat Nat)).ret =
      .ok (.integer ⟨⟨0, "integer", "a.raml", 0, none⟩, ⟨none⟩, ⟨none⟩,
          ⟨some 5, some 10, none⟩⟩) ∧
    (IntegerShape.Inherit (fun _ _ => false)
        (⟨⟨0, "integer", "a.raml", 0, none⟩, ⟨none⟩, ⟨none⟩, ⟨some 5, some 10, none⟩⟩ :
          IntegerShape Nat Nat Nat)
        (Shape.integer ⟨⟨1, "integer", "a.raml", 0, none⟩, ⟨none⟩, ⟨none⟩,
          ⟨some 0, some 20, none⟩⟩ : Shape Nat Int Nat Nat)).recv.Minimum = some 5 ∧
    (IntegerShape.Inherit (fun _ _ => false)
        (⟨⟨0, "integer", "a.raml", 0, none⟩, ⟨none⟩, ⟨none⟩, ⟨some 5, some 10, none⟩⟩ :
          IntegerShape Nat Nat Nat)
        (Shape.integer ⟨⟨1, "integer", "a.raml", 0, none⟩, ⟨none⟩, ⟨none⟩,
          ⟨some 0, some 20, none⟩⟩ : Shape Nat Int Nat Nat)).recv.Maximum = some 10 :=
  ⟨rfl,
   ((@C6_Inherit_child_values_stand Nat Int Nat Nat).1 (fun _ _ => false)
      (⟨⟨0, "integer", "a.raml", 0, none⟩, ⟨none⟩, ⟨none⟩, ⟨some 5, some 10, none⟩⟩ :
          IntegerShape Nat Nat Nat)
      ⟨⟨1, "integer", "a.raml", 0, none⟩, ⟨none⟩, ⟨none⟩, ⟨some 0, some 20, none⟩⟩
      _ rfl).1 5 rfl,
   ((@C6_Inherit_child_values_stand Nat Int Nat Nat).1 (fun _ _ => false)
      (⟨⟨0, "integer", "a.raml", 0, none⟩, ⟨none⟩, ⟨none⟩, ⟨some 5, some 10, none⟩⟩ :
          IntegerShape Nat Nat Nat)
      ⟨⟨1, "integer", "a.raml", 0, none⟩, ⟨none⟩, ⟨none⟩, ⟨some 0, some 20, none⟩⟩
      _ rfl).2.1 10 rfl⟩

/-- C7. Enum narrowing in Inherit: for IntegerShape, NumberShape, StringShape and
BooleanShape, when child and ancestor both specify an enum and the other facets do not
conflict, Inherit succeeds iff every element of the child's enum is value-equal to some
element of the ancestor's enum; on success the child's enum is left as it was, and
otherwise the enum constraint violation is returned. -/
theorem C7_Inherit_enum_narrowing :
    (∀ (valueEq : N → N → Bool) (s ss : IntegerShape N I P) (ce pe : List N),
      s.Enum = some ce → ss.Enum = some pe →
      (∀ a b, s.Minimum = some a → ss.Minimum = some b → b ≤ a) →
      (∀ a b, s.Maximum = some a → ss.Maximum = some b → a ≤ b) →
      ((∃ sh, (IntegerShape.Inherit (IsOverridableEnum valueEq) s (Shape.integer ss : Shape N F I P)).ret = .ok sh) ↔ ∀ c ∈ ce, ∃ p ∈ pe, valueEq c p = true) ∧
      ((∃ sh, (IntegerShape.Inherit (IsOverridableEnum valueEq) s (Shape.integer ss : Shape N F I P)).ret = .ok sh) → (IntegerShape.Inherit (IsOverridableEnum valueEq) s (Shape.integer ss : Shape N F I P)).recv.Enum = some ce) ∧
      (¬ (∀ c ∈ ce, ∃ p ∈ pe, valueEq c p = true) →
        (IntegerShape.Inherit (IsOverridableEnum valueEq) s (Shape.integer ss : Shape N F I P)).ret =
          .error (NewError "enum constraint violation" s.Location s.Position
            [("source", .nodes (some pe)), ("target", .nodes (some ce))]))) ∧
    (∀ (valueEq : N → N → Bool) (lt : F → F → Bool) (s ss : NumberShape N F I P) (ce pe : List N),
      s.Enum = some ce → ss.Enum = some pe →
      (∀ a b, s.Minimum = some a → ss.Minimum = some b → lt a b = false) →
      (∀ a b, s.Maximum = some a → ss.Maximum = some b → lt b a = false) →
      ((∃ sh, (NumberShape.Inherit (IsOverridableEnum valueEq) lt s (.number ss)).ret = .ok sh) ↔ ∀ c ∈ ce, ∃ p ∈ pe, valueEq c p = true) ∧
      ((∃ sh, (NumberShape.Inherit (IsOverridableEnum valueEq) lt s (.number ss)).ret = .ok sh) → (NumberShape.Inherit (IsOverridableEnum valueEq) lt s (.number ss)).recv.Enum = some ce) ∧
      (¬ (∀ c ∈ ce, ∃ p ∈ pe, valueEq c p = true) →
        (NumberShape.Inherit (IsOverridableEnum valueEq) lt s (.number ss)).ret =
          .error (NewError "enum constraint violation" s.Location s.Position
            [("source", .nodes (some pe)), ("target", .nodes (some ce))]))) ∧
    (∀ (valueEq : N → N → Bool) (s ss : StringShape N I P) (ce pe : List N),
      s.Enum = some ce → ss.Enum = some pe →
      (∀ a b, s.MinLength = some a → ss.MinLength = some b → b ≤ a) →
      (∀ a b, s.MaxLength = some a → ss.MaxLength = some b → a ≤ b) →
      ((∃ sh, (StringShape.Inherit (IsOverridableEnum valueEq) s (Shape.string ss : Shape N F I P)).ret = .ok sh) ↔ ∀ c ∈ ce, ∃ p ∈ pe, valueEq c p = true) ∧
      ((∃ sh, (StringShape.Inherit (IsOverridableEnum valueEq) s (Shape.string ss : Shape N F I P)).ret = .ok sh) → (StringShape.Inherit (IsOverridableEnum valueEq) s (Shape.string ss : Shape N F I P)).recv.Enum = some ce) ∧
      (¬ (∀ c ∈ ce, ∃ p ∈ pe, valueEq c p = true) →
        (StringShape.Inherit (IsOverridableEnum valueEq) s (Shape.string ss : Shape N F I P)).ret =
          .error (NewError "enum constraint violation" s.Location s.Position
            [("source", .nodes (some pe)), ("target", .nodes (some ce))]))) ∧
    (∀ (valueEq : N → N → Bool) (s ss : BooleanShape N I P) (ce pe : List N),
      s.Enum = some ce → ss.Enum = some pe →
      ((∃ sh, (BooleanShape.Inherit (IsOverridableEnum valueEq) s (Shape.boolean ss : Shape N F I P)).ret = .ok sh) ↔ ∀ c ∈ ce, ∃ p ∈ pe, valueEq c p = true) ∧
      ((∃ sh, (BooleanShape.Inherit (IsOverridableEnum valueEq) s (Shape.boolean ss : Shape N F I P)).ret = .ok sh) → (BooleanShape.Inherit (IsOverridableEnum valueEq) s (Shape.boolean ss : Shape N F I P)).recv.Enum = some ce) ∧
      (¬ (∀ c ∈ ce, ∃ p ∈ pe, valueEq c p = true) →
        (BooleanShape.Inherit (IsOverridableEnum valueEq) s (Shape.boolean ss : Shape N F I P)).ret =
          .error (NewError "enum constraint violation" s.Location s.Position
            [("source", .nodes (some pe)), ("target", .nodes (some ce))]))) := by
  refine ⟨?_, ?_, ?_, ?_⟩
  · intro valueEq s ss ce pe hce hpe hmin hmax
    obtain ⟨h1, h2, h3⟩ := @IntegerShape_Inherit_enum N F I P (IsOverridableEnum valueEq)
      s ss ce pe hce hpe hmin hmax
    refine ⟨h1.trans (IsOverridableEnum_iff valueEq pe ce), h2, fun hn => h3 ?_⟩
    cases hb : IsOverridableEnum valueEq pe ce
    · rfl
    · exact absurd ((IsOverridableEnum_iff valueEq pe ce).1 hb) hn
  · intro valueEq lt s ss ce pe hce hpe hmin hmax
    obtain ⟨h1, h2, h3⟩ := NumberShape_Inherit_enum (IsOverridableEnum valueEq) lt
      s ss ce pe hce hpe hmin hmax
    refine ⟨h1.trans (IsOverridableEnum_iff valueEq pe ce), h2, fun hn => h3 ?_⟩
    cases hb : IsOverridableEnum valueEq pe ce
    · rfl
    · exact absurd ((IsOverridableEnum_iff valueEq pe ce).1 hb) hn
  · intro valueEq s ss ce pe hce hpe hmin hmax
    obtain ⟨h1, h2, h3⟩ := @StringShape_Inherit_enum N F I P (IsOverridableEnum valueEq)
      s ss ce pe hce hpe hmin hmax
    refine ⟨h1.trans (IsOverridableEnum_iff valueEq pe ce), h2, fun hn => h3 ?_⟩
    cases hb : IsOverridableEnum valueEq pe ce
    · rfl
    · exact absurd ((IsOverridableEnum_iff valueEq pe ce).1 hb) hn
  · intro valueEq s ss ce pe hce hpe
    obtain ⟨h1, h2, h3⟩ := @BooleanShape_Inherit_enum N F I P (IsOverridableEnum valueEq)
      s ss ce pe hce hpe
    refine ⟨h1.trans (IsOverridableEnum_iff valueEq pe ce), h2, fun hn => h3 ?_⟩
    cases hb : IsOverridableEnum valueEq pe ce
    · rfl
    · exact absurd ((IsOverridableEnum_iff valueEq pe ce).1 hb) hn

/-- C7 (witness): the string child with enum `["a", "b"]` against the parent with enum
`["a", "b", "c"]` succeeds and keeps `["a", "b"]`; the child with enum `["a", "z"]`
fails with the enum constraint violation. -/
theorem C7_Inherit_enum_narrowing_witness :
    (StringShape.Inherit (IsOverridableEnum fun x y => decide (x = y))
        (⟨⟨0, "string", "a.raml", 0, none⟩, ⟨some ["a", "b"]⟩, ⟨⟨none, none⟩, none⟩⟩ :
          StringShape String Nat Nat)
        (Shape.string ⟨⟨1, "string", "a.raml", 0, none⟩, ⟨some ["a", "b", "c"]⟩,
          ⟨⟨none, none⟩, none⟩⟩ : Shape String Int Nat Nat)).recv.Enum = some ["a", "b"] ∧
    (StringShape.Inherit (IsOverridableEnum fun x y => decide (x = y))
        (⟨⟨0, "string", "a.raml", 0, none⟩, ⟨some ["a", "z"]⟩, ⟨⟨none, none⟩, none⟩⟩ :
          StringShape String Nat Nat)
        (Shape.string ⟨⟨1, "string", "a.raml", 0, none⟩, ⟨some ["a", "b", "c"]⟩,
          ⟨⟨none, none⟩, none⟩⟩ : Shape String Int Nat Nat)).ret =
      .error (NewError "enum constraint violation" "a.raml" 0
        [("source", .nodes (some ["a", "b", "c"])), ("target", .nodes (some ["a", "z"]))]) :=
  ⟨((@C7_Inherit_enum_narrowing String Int Nat Nat).2.2.1 (fun x y => decide (x = y))
      (⟨⟨0, "string", "a.raml", 0, none⟩, ⟨some ["a", "b"]⟩, ⟨⟨none, none⟩, none⟩⟩ :
          StringShape String Nat Nat)
      ⟨⟨1, "string", "a.raml", 0, none⟩, ⟨some ["a", "b", "c"]⟩, ⟨⟨none, none⟩, none⟩⟩
      ["a", "b"] ["a", "b", "c"] rfl rfl (by simp) (by simp)).2.1 ⟨_, rfl⟩,
   ((@C7_Inherit_enum_narrowing String Int Nat Nat).2.2.1 (fun x y => decide (x = y))
      (⟨⟨0, "string", "a.raml", 0, none⟩, ⟨some ["a", "z"]⟩, ⟨⟨none, none⟩, none⟩⟩ :
          StringShape String Nat Nat)
      ⟨⟨1, "string", "a.raml", 0, none⟩, ⟨some ["a", "b", "c"]⟩, ⟨⟨none, none⟩, none⟩⟩
      ["a", "z"] ["a", "b", "c"] rfl rfl (by simp) (by simp)).2.2 (by simp)⟩

/-- C8. Length narrowing rule: for StringShape and FileShape, when child and ancestor
both specify minLength and maxLength (and, for StringShape, the enums do not conflict),
Inherit succeeds iff the child minLength is at least the ancestor's and the child
maxLength at most the ancestor's; a child minLength below the ancestor's gives the
minLength constraint violation, otherwise a child maxLength above the ancestor's gives
the maxLength one. -/
theorem C8_Inherit_length_narrowing :
    (∀ (ov : List N → List N → Bool) (s ss : StringShape N I P) (cmin pmin cmax pmax : Nat),
      s.MinLength = some cmin → ss.MinLength = some pmin →
      s.MaxLength = some cmax → ss.MaxLength = some pmax →
      (s.Enum = none ∨ ss.Enum = none ∨
        ∃ ce pe, s.Enum = some ce ∧ ss.Enum = some pe ∧ ov pe ce = true) →
      ((∃ sh, (StringShape.Inherit ov s (Shape.string ss : Shape N F I P)).ret = .ok sh) ↔ (pmin ≤ cmin ∧ cmax ≤ pmax)) ∧
      (cmin < pmin →
        (StringShape.Inherit ov s (Shape.string ss : Shape N F I P)).ret =
          .error (NewError "minLength constraint violation" s.Location s.Position
            [("source", .uint pmin), ("target", .uint cmin)])) ∧
      (pmin ≤ cmin → pmax < cmax →
        (StringShape.Inherit ov s (Shape.string ss : Shape N F I P)).ret =
          .error (NewError "maxLength constraint violation" s.Location s.Position
            [("source", .uint pmax), ("target", .uint cmax)]))) ∧
    (∀ (s ss : FileShape N I P) (cmin pmin cmax pmax : Nat),
      s.MinLength = some cmin → ss.MinLength = some pmin →
      s.MaxLength = some cmax → ss.MaxLength = some pmax →
      ((∃ sh, (FileShape.Inherit s (Shape.file ss : Shape N F I P)).ret = .ok sh) ↔ (pmin ≤ cmin ∧ cmax ≤ pmax)) ∧
      (cmin < pmin →
        (FileShape.Inherit s (Shape.file ss : Shape N F I P)).ret =
          .error (NewError "minLength constraint violation" s.Location s.Position
            [("source", .uint pmin), ("target", .uint cmin)])) ∧
      (pmin ≤ cmin → pmax < cmax →
        (FileShape.Inherit s (Shape.file ss : Shape N F I P)).ret =
          .error (NewError "maxLength constraint violation" s.Location s.Position
            [("source", .uint pmax), ("target", .uint cmax)]))) := by
  refine ⟨?_, ?_⟩
  · intro ov s ss cmin pmin cmax pmax hcmin hpmin hcmax hpmax henum
    rcases @StringShape_Inherit_cases N F I P ov s ss with
      ⟨a, b, h1, h2, h3, h⟩ | ⟨hmin, a, b, h1, h2, h3, h⟩ |
      ⟨hmin, hmax, ce, pe, h1, h2, h3, h⟩ | ⟨hmin, hmax, -, h⟩
    · obtain rfl : a = cmin := by simpa [hcmin] using h1.symm
      obtain rfl : b = pmin := by simpa [hpmin] using h2.symm
      rw [h]
      refine ⟨by simp; omega, fun _ => rfl, fun h4 => by omega⟩
    · obtain rfl : a = cmax := by simpa [hcmax] using h1.symm
      obtain rfl : b = pmax := by simpa [hpmax] using h2.symm
      rw [h]
      refine ⟨by simp; omega, fun h4 => ?_, fun _ _ => rfl⟩
      have := hmin _ _ hcmin hpmin
      omega
    · exfalso
      rcases henum with he | he | ⟨ce2, pe2, he1, he2, he3⟩
      · simp [he] at h1
      · simp [he] at h2
      · rw [h1] at he1
        rw [h2] at he2
        cases he1
        cases he2
        simp [h3] at he3
    · have h5 := hmin _ _ hcmin hpmin
      have h6 := hmax _ _ hcmax hpmax
      rw [h]
      refine ⟨by simp; omega, fun h4 => by omega, fun _ h4 => by omega⟩
  · intro s ss cmin pmin cmax pmax hcmin hpmin hcmax hpmax
    rcases @FileShape_Inherit_cases N F I P s ss with
      ⟨a, b, h1, h2, h3, h⟩ | ⟨hmin, a, b, h1, h2, h3, h⟩ | ⟨hmin, hmax, h⟩
    · obtain rfl : a = cmin := by simpa [hcmin] using h1.symm
      obtain rfl : b = pmin := by simpa [hpmin] using h2.symm
      rw [h]
      refine ⟨by simp; omega, fun _ => rfl, fun h4 => by omega⟩
    · obtain rfl : a = cmax := by simpa [hcmax] using h1.symm
      obtain rfl : b = pmax := by simpa [hpmax] using h2.symm
      rw [h]
      refine ⟨by simp; omega, fun h4 => ?_, fun _ _ => rfl⟩
      have := hmin _ _ hcmin hpmin
      omega
    · have h5 := hmin _ _ hcmin hpmin
      have h6 := hmax _ _ hcmax hpmax
      rw [h]
      refine ⟨by simp; omega, fun h4 => by omega, fun _ h4 => by omega⟩

/-- C8 (witness): a file child with lengths (2, 50) against the ancestor (1, 10): the
bounds are not nested and the maxLength constraint violation is returned. -/
theorem C8_Inherit_length_narrowing_witness :
    (¬ ∃ sh, (FileShape.Inherit
        (⟨⟨0, "file", "a.raml", 0, none⟩, ⟨some 50, some 2⟩, ⟨none⟩⟩ : FileShape Nat Nat Nat)
        (Shape.file ⟨⟨1, "file", "a.raml", 0, none⟩, ⟨some 10, some 1⟩, ⟨none⟩⟩ :
          Shape Nat Int Nat Nat)).ret = .ok sh) ∧
    (FileShape.Inherit
        (⟨⟨0, "file", "a.raml", 0, none⟩, ⟨some 50, some 2⟩, ⟨none⟩⟩ : FileShape Nat Nat Nat)
        (Shape.file ⟨⟨1, "file", "a.raml", 0, none⟩, ⟨some 10, some 1⟩, ⟨none⟩⟩ :
          Shape Nat Int Nat Nat)).ret =
      .error (NewError "maxLength constraint violation" "a.raml" 0
        [("source", .uint 10), ("target", .uint 50)]) :=
  ⟨fun h => absurd (((@C8_Inherit_length_narrowing Nat Int Nat Nat).2
      (⟨⟨0, "file", "a.raml", 0, none⟩, ⟨some 50, some 2⟩, ⟨none⟩⟩ : FileShape Nat Nat Nat)
      ⟨⟨1, "file", "a.raml", 0, none⟩, ⟨some 10, some 1⟩, ⟨none⟩⟩
      2 1 50 10 rfl rfl rfl rfl).1.1 h).2 (by decide),
   ((@C8_Inherit_length_narrowing Nat Int Nat Nat).2
      (⟨⟨0, "file", "a.raml", 0, none⟩, ⟨some 50, some 2⟩, ⟨none⟩⟩ : FileShape Nat Nat Nat)
      ⟨⟨1, "file", "a.raml", 0, none⟩, ⟨some 10, some 1⟩, ⟨none⟩⟩
      2 1 50 10 rfl rfl rfl rfl).2.2 (by decide) (by decide)⟩

/-- C9. NumberShape multipleOf asymmetry: after a successful NumberShape.Inherit the
resulting MultipleOf is the ancestor's whenever the ancestor specifies one, whether or
not the child had its own, and the child's original one when the ancestor specifies
none; after a successful IntegerShape.Inherit the resulting MultipleOf is the child's
original value whenever the child specified one. -/
theorem C9_multipleOf_asymmetry :
    (∀ (ov : List N → List N → Bool) (lt : F → F → Bool) (s ss : NumberShape N F I P)
        (sh : Shape N F I P),
      (NumberShape.Inherit ov lt s (.number ss)).ret = .ok sh →
      (∀ m, ss.MultipleOf = some m → (NumberShape.Inherit ov lt s (.number ss)).recv.MultipleOf = some m) ∧
      (ss.MultipleOf = none → (NumberShape.Inherit ov lt s (.number ss)).recv.MultipleOf = s.MultipleOf)) ∧
    (∀ (ov : List N → List N → Bool) (s ss : IntegerShape N I P) (sh : Shape N F I P),
      (IntegerShape.Inherit ov s (Shape.integer ss : Shape N F I P)).ret = .ok sh →
      ∀ m, s.MultipleOf = some m → (IntegerShape.Inherit ov s (Shape.integer ss : Shape N F I P)).recv.MultipleOf = some m) := by
  refine ⟨?_, ?_⟩
  · intro ov lt s ss sh hok
    rw [NumberShape_Inherit_ok ov lt s ss sh hok]
    exact ⟨fun m h => by simp [h], fun h => by simp [h]⟩
  · intro ov s ss sh hok m h
    rw [IntegerShape_Inherit_ok ov s ss sh hok]
    simp [h]

/-- C9 (witness): a number child with multipleOf 3 inheriting from an ancestor with
multipleOf 2 ends with 2; an integer child with multipleOf 3 inheriting from an
ancestor with multipleOf 2 keeps 3. -/
theorem C9_multipleOf_asymmetry_witness :
    (NumberShape.Inherit (fun _ _ => false) (fun a b => decide (a < b))
        (⟨⟨0, "number", "a.raml", 0, none⟩, ⟨none⟩, ⟨none⟩, ⟨none, none, some 3⟩⟩ :
          NumberShape Nat Int Nat Nat)
        (Shape.number ⟨⟨1, "number", "a.raml", 0, none⟩, ⟨none⟩, ⟨none⟩,
          ⟨none, none, some 2⟩⟩)).recv.MultipleOf = some 2 ∧
    (IntegerShape.Inherit (fun _ _ => false)
        (⟨⟨0, "integer", "a.raml", 0, none⟩, ⟨none⟩, ⟨none⟩, ⟨none, none, some 3⟩⟩ :
          IntegerShape Nat Nat Nat)
        (Shape.integer ⟨⟨1, "integer", "a.raml", 0, none⟩, ⟨none⟩, ⟨none⟩,
          ⟨none, none, some 2⟩⟩ : Shape Nat Int Nat Nat)).recv.MultipleOf = some 3 :=
  ⟨((@C9_multipleOf_asymmetry Nat Int Nat Nat).1 (fun _ _ => false)
      (fun a b => decide (a < b))
      (⟨⟨0, "number", "a.raml", 0, none⟩, ⟨none⟩, ⟨none⟩, ⟨none, none, some 3⟩⟩ :
          NumberShape Nat Int Nat Nat)
      ⟨⟨1, "number", "a.raml", 0, none⟩, ⟨none⟩, ⟨none⟩, ⟨none, none, some 2⟩⟩
      _ rfl).1 2 rfl,
   (@C9_multipleOf_asymmetry Nat Int Nat Nat).2 (fun _ _ => false)
      (⟨⟨0, "integer", "a.raml", 0, none⟩, ⟨none⟩, ⟨none⟩, ⟨none, none, some 3⟩⟩ :
          IntegerShape Nat Nat Nat)
      ⟨⟨1, "integer", "a.raml", 0, none⟩, ⟨none⟩, ⟨none⟩, ⟨none, none, some 2⟩⟩
      _ rfl 3 rfl⟩

/-- C10. No-op variants: for DateTimeOnlyShape, DateOnlyShape, TimeOnlyShape, AnyShape
and NilShape as receiver and every ancestor shape, Inherit returns the receiver itself
with no error, and leaves receiver and ancestor unchanged. -/
theorem C10_noop_variants_Inherit :
    (∀ (s : DateTimeOnlyShape N I P) (source : Shape N F I P),
      (s.Inherit source).ret = .ok (.dateTimeOnly s) ∧
      (s.Inherit source).recv = s ∧ (s.Inherit source).source = source) ∧
    (∀ (s : DateOnlyShape N I P) (source : Shape N F I P),
      (s.Inherit source).ret = .ok (.dateOnly s) ∧
      (s.Inherit source).recv = s ∧ (s.Inherit source).source = source) ∧
    (∀ (s : TimeOnlyShape N I P) (source : Shape N F I P),
      (s.Inherit source).ret = .ok (.timeOnly s) ∧
      (s.Inherit source).recv = s ∧ (s.Inherit source).source = source) ∧
    (∀ (s : AnyShape N I P) (source : Shape N F I P),
      (s.Inherit source).ret = .ok (.any s) ∧
      (s.Inherit source).recv = s ∧ (s.Inherit source).source = source) ∧
    (∀ (s : NilShape N I P) (source : Shape N F I P),
      (s.Inherit source).ret = .ok (.nil s) ∧
      (s.Inherit source).recv = s ∧ (s.Inherit source).source = source) :=
  ⟨fun _ _ => ⟨rfl, rfl, rfl⟩, fun _ _ => ⟨rfl, rfl, rfl⟩, fun _ _ => ⟨rfl, rfl, rfl⟩,
    fun _ _ => ⟨rfl, rfl, rfl⟩, fun _ _ => ⟨rfl, rfl, rfl⟩⟩

/-- A repeated custom key: a boolean shape decoding `x: a, x: b` returns nil, and the
custom facet `x` is the node made of `b`, the value of the last pair with that key, not
the one made of `a`. -/
theorem custom_key_repeated_example :
    BooleanShape.UnmarshalYAMLNodes exampleLib
        (⟨⟨0, "boolean", "a.raml", 0, some fun _ => none⟩, ⟨none⟩⟩ :
          BooleanShape String Nat Nat)
        [⟨8, "!!str", "x", [], 1, 1⟩, ⟨8, "!!str", "a", [], 1, 4⟩,
          ⟨8, "!!str", "x", [], 2, 1⟩, ⟨8, "!!str", "b", [], 2, 4⟩] =
      ⟨⟨⟨0, "boolean", "a.raml", 0,
          some fun k => if k = "x" then some "b" else if k = "x" then some "a" else none⟩,
        ⟨none⟩⟩, .nil⟩ ∧
    "x" ∉ BooleanShape.knownKeys ∧
    exampleLib.MakeNode ⟨8, "!!str", "a", [], 1, 4⟩ "a.raml" = .ok "a" ∧
    (fun k => if k = "x" then some "b" else if k = "x" then some "a" else none) "x" ≠
      some "a" := by
  refine ⟨?_, by decide, rfl, by decide⟩
  rw [BooleanShape.UnmarshalYAMLNodes, unmarshalLoop_zero]
  rfl

/-- Custom facets of the six decoders with a loop: for IntegerShape, NumberShape,
StringShape, FileShape, BooleanShape and DateTimeShape, when UnmarshalYAMLNodes returns
nil, MakeNode succeeded on the value of the last pair with a given key that is not
among the variant's known keys, and CustomShapeFacets holds that node under that key;
so every unknown key of the list is a key of CustomShapeFacets afterwards.  Keys are
compared by string equality. -/
theorem custom_facets_of_last_pair (lib : Lib N F X) :
    (∀ (s r : IntegerShape N I P) (v : List YamlNode),
      IntegerShape.UnmarshalYAMLNodes lib s v = ⟨r, .nil⟩ →
      (∀ (pre post : List (YamlNode × YamlNode)) (k val : YamlNode),
        pairs v = pre ++ (k, val) :: post → k.Value ∉ IntegerShape.knownKeys →
        (∀ q ∈ post, q.1.Value ≠ k.Value) →
        ∃ n m, lib.MakeNode val s.Location = .ok n ∧ r.CustomShapeFacets = some m ∧
          m k.Value = some n) ∧
      (∀ q ∈ pairs v, q.1.Value ∉ IntegerShape.knownKeys →
        ∃ n m, r.CustomShapeFacets = some m ∧ m q.1.Value = some n)) ∧
    (∀ (s r : NumberShape N F I P) (v : List YamlNode),
      NumberShape.UnmarshalYAMLNodes lib s v = ⟨r, .nil⟩ →
      (∀ (pre post : List (YamlNode × YamlNode)) (k val : YamlNode),
        pairs v = pre ++ (k, val) :: post → k.Value ∉ NumberShape.knownKeys →
        (∀ q ∈ post, q.1.Value ≠ k.Value) →
        ∃ n m, lib.MakeNode val s.Location = .ok n ∧ r.CustomShapeFacets = some m ∧
          m k.Value = some n) ∧
      (∀ q ∈ pairs v, q.1.Value ∉ NumberShape.knownKeys →
        ∃ n m, r.CustomShapeFacets = some m ∧ m q.1.Value = some n)) ∧
    (∀ (s r : StringShape N I P) (v : List YamlNode),
      StringShape.UnmarshalYAMLNodes lib s v = ⟨r, .nil⟩ →
      (∀ (pre post : List (YamlNode × YamlNode)) (k val : YamlNode),
        pairs v = pre ++ (k, val) :: post → k.Value ∉ StringShape.knownKeys →
        (∀ q ∈ post, q.1.Value ≠ k.Value) →
        ∃ n m, lib.MakeNode val s.Location = .ok n ∧ r.CustomShapeFacets = some m ∧
          m k.Value = some n) ∧
      (∀ q ∈ pairs v, q.1.Value ∉ StringShape.knownKeys →
        ∃ n m, r.CustomShapeFacets = some m ∧ m q.1.Value = some n)) ∧
    (∀ (s r : FileShape N I P) (v : List YamlNode),
      FileShape.UnmarshalYAMLNodes lib s v = ⟨r, .nil⟩ →
      (∀ (pre post : List (YamlNode × YamlNode)) (k val : YamlNode),
        pairs v = pre ++ (k, val) :: post → k.Value ∉ FileShape.knownKeys →
        (∀ q ∈ post, q.1.Value ≠ k.Value) →
        ∃ n m, lib.MakeNode val s.Location = .ok n ∧ r.CustomShapeFacets = some m ∧
          m k.Value = some n) ∧
      (∀ q ∈ pairs v, q.1.Value ∉ FileShape.knownKeys →
        ∃ n m, r.CustomShapeFacets = some m ∧ m q.1.Value = some n)) ∧
    (∀ (s r : BooleanShape N I P) (v : List YamlNode),
      BooleanShape.UnmarshalYAMLNodes lib s v = ⟨r, .nil⟩ →
      (∀ (pre post : List (YamlNode × YamlNode)) (k val : YamlNode),
        pairs v = pre ++ (k, val) :: post → k.Value ∉ BooleanShape.knownKeys →
        (∀ q ∈ post, q.1.Value ≠ k.Value) →
        ∃ n m, lib.MakeNode val s.Location = .ok n ∧ r.CustomShapeFacets = some m ∧
          m k.Value = some n) ∧
      (∀ q ∈ pairs v, q.1.Value ∉ BooleanShape.knownKeys →
        ∃ n m, r.CustomShapeFacets = some m ∧ m q.1.Value = some n)) ∧
    (∀ (s r : DateTimeShape N I P) (v : List YamlNode),
      DateTimeShape.UnmarshalYAMLNodes lib s v = ⟨r, .nil⟩ →
      (∀ (pre post : List (YamlNode × YamlNode)) (k val : YamlNode),
        pairs v = pre ++ (k, val) :: post → k.Value ∉ DateTimeShape.knownKeys →
        (∀ q ∈ post, q.1.Value ≠ k.Value) →
        ∃ n m, lib.MakeNode val s.Location = .ok n ∧ r.CustomShapeFacets = some m ∧
          m k.Value = some n) ∧
      (∀ q ∈ pairs v, q.1.Value ∉ DateTimeShape.knownKeys →
        ∃ n m, r.CustomShapeFacets = some m ∧ m q.1.Value = some n)) := by
  refine ⟨?_, ?_, ?_, ?_, ?_, ?_⟩
  · intro s r v hres
    have hlast : ∀ (pre post : List (YamlNode × YamlNode)) (k val : YamlNode),
        pairs v = pre ++ (k, val) :: post → k.Value ∉ IntegerShape.knownKeys →
        (∀ q ∈ post, q.1.Value ≠ k.Value) →
        ∃ n m, lib.MakeNode val s.Location = .ok n ∧ r.CustomShapeFacets = some m ∧
          m k.Value = some n := by
      intro pre post k val hpairs hk hl
      exact unmarshalLoop_custom_last lib (fun x : IntegerShape N I P => x.toBaseShape)
        IntegerShape.knownKeys (IntegerShape.unmarshalPair lib) (IntegerShape_unmarshalPair_stop lib)
        (IntegerShape_unmarshalPair_next lib) s r v pre post k val hres hpairs hk hl
    refine ⟨hlast, ?_⟩
    intro q hq hk
    obtain ⟨pre, post, q2, h1, h2, h3⟩ :=
      exists_last_split (fun x : YamlNode × YamlNode => x.1.Value = q.1.Value) (pairs v)
        ⟨q, hq, rfl⟩
    obtain ⟨n, m, -, h4, h5⟩ := hlast pre post q2.1 q2.2 h1 (by rw [h2]; exact hk)
      (fun x hx => by rw [h2]; exact h3 x hx)
    exact ⟨n, m, h4, by rw [← h2]; exact h5⟩
  · intro s r v hres
    have hlast : ∀ (pre post : List (YamlNode × YamlNode)) (k val : YamlNode),
        pairs v = pre ++ (k, val) :: post → k.Value ∉ NumberShape.knownKeys →
        (∀ q ∈ post, q.1.Value ≠ k.Value) →
        ∃ n m, lib.MakeNode val s.Location = .ok n ∧ r.CustomShapeFacets = some m ∧
          m k.Value = some n := by
      intro pre post k val hpairs hk hl
      exact unmarshalLoop_custom_last lib (fun x : NumberShape N F I P => x.toBaseShape)
        NumberShape.knownKeys (NumberShape.unmarshalPair lib) (NumberShape_unmarshalPair_stop lib)
        (NumberShape_unmarshalPair_next lib) s r v pre post k val hres hpairs hk hl
    refine ⟨hlast, ?_⟩
    intro q hq hk
    obtain ⟨pre, post, q2, h1, h2, h3⟩ :=
      exists_last_split (fun x : YamlNode × YamlNode => x.1.Value = q.1.Value) (pairs v)
        ⟨q, hq, rfl⟩
    obtain ⟨n, m, -, h4, h5⟩ := hlast pre post q2.1 q2.2 h1 (by rw [h2]; exact hk)
      (fun x hx => by rw [h2]; exact h3 x hx)
    exact ⟨n, m, h4, by rw [← h2]; exact h5⟩
  · intro s r v hres
    have hlast : ∀ (pre post : List (YamlNode × YamlNode)) (k val : YamlNode),
        pairs v = pre ++ (k, val) :: post → k.Value ∉ StringShape.knownKeys →
        (∀ q ∈ post, q.1.Value ≠ k.Value) →
        ∃ n m, lib.MakeNode val s.Location = .ok n ∧ r.CustomShapeFacets = some m ∧
          m k.Value = some n := by
      intro pre post k val hpairs hk hl
      exact unmarshalLoop_custom_last lib (fun x : StringShape N I P => x.toBaseShape)
        StringShape.knownKeys (StringShape.unmarshalPair lib) (StringShape_unmarshalPair_stop lib)
        (StringShape_unmarshalPair_next lib) s r v pre post k val hres hpairs hk hl
    refine ⟨hlast, ?_⟩
    intro q hq hk
    obtain ⟨pre, post, q2, h1, h2, h3⟩ :=
      exists_last_split (fun x : YamlNode × YamlNode => x.1.Value = q.1.Value) (pairs v)
        ⟨q, hq, rfl⟩
    obtain ⟨n, m, -, h4, h5⟩ := hlast pre post q2.1 q2.2 h1 (by rw [h2]; exact hk)
      (fun x hx => by rw [h2]; exact h3 x hx)
    exact ⟨n, m, h4, by rw [← h2]; exact h5⟩
  · intro s r v hres
    have hlast : ∀ (pre post : List (YamlNode × YamlNode)) (k val : YamlNode),
        pairs v = pre ++ (k, val) :: post → k.Value ∉ FileShape.knownKeys →
        (∀ q ∈ post, q.1.Value ≠ k.Value) →
        ∃ n m, lib.MakeNode val s.Location = .ok n ∧ r.CustomShapeFacets = some m ∧
          m k.Value = some n := by
      intro pre post k val hpairs hk hl
      exact unmarshalLoop_custom_last lib (fun x : FileShape N I P => x.toBaseShape)
        FileShape.knownKeys (FileShape.unmarshalPair lib) (FileShape_unmarshalPair_stop lib)
        (FileShape_unmarshalPair_next lib) s r v pre post k val hres hpairs hk hl
    refine ⟨hlast, ?_⟩
    intro q hq hk
    obtain ⟨pre, post, q2, h1, h2, h3⟩ :=
      exists_last_split (fun x : YamlNode × YamlNode => x.1.Value = q.1.Value) (pairs v)
        ⟨q, hq, rfl⟩
    obtain ⟨n, m, -, h4, h5⟩ := hlast pre post q2.1 q2.2 h1 (by rw [h2]; exact hk)
      (fun x hx => by rw [h2]; exact h3 x hx)
    exact ⟨n, m, h4, by rw [← h2]; exact h5⟩
  · intro s r v hres
    have hlast : ∀ (pre post : List (YamlNode × YamlNode)) (k val : YamlNode),
        pairs v = pre ++ (k, val) :: post → k.Value ∉ BooleanShape.knownKeys →
        (∀ q ∈ post, q.1.Value ≠ k.Value) →
        ∃ n m, lib.MakeNode val s.Location = .ok n ∧ r.CustomShapeFacets = some m ∧
          m k.Value = some n := by
      intro pre post k val hpairs hk hl
      exact unmarshalLoop_custom_last lib (fun x : BooleanShape N I P => x.toBaseShape)
        BooleanShape.knownKeys (BooleanShape.unmarshalPair lib) (BooleanShape_unmarshalPair_stop lib)
        (BooleanShape_unmarshalPair_next lib) s r v pre post k val hres hpairs hk hl
    refine ⟨hlast, ?_⟩
    intro q hq hk
    obtain ⟨pre, post, q2, h1, h2, h3⟩ :=
      exists_last_split (fun x : YamlNode × YamlNode => x.1.Value = q.1.Value) (pairs v)
        ⟨q, hq, rfl⟩
    obtain ⟨n, m, -, h4, h5⟩ := hlast pre post q2.1 q2.2 h1 (by rw [h2]; exact hk)
      (fun x hx => by rw [h2]; exact h3 x hx)
    exact ⟨n, m, h4, by rw [← h2]; exact h5⟩
  · intro s r v hres
    have hlast : ∀ (pre post : List (YamlNode × YamlNode)) (k val : YamlNode),
        pairs v = pre ++ (k, val) :: post → k.Value ∉ DateTimeShape.knownKeys →
        (∀ q ∈ post, q.1.Value ≠ k.Value) →
        ∃ n m, lib.MakeNode val s.Location = .ok n ∧ r.CustomShapeFacets = some m ∧
          m k.Value = some n := by
      intro pre post k val hpairs hk hl
      exact unmarshalLoop_custom_last lib (fun x : DateTimeShape N I P => x.toBaseShape)
        DateTimeShape.knownKeys (DateTimeShape.unmarshalPair lib) (DateTimeShape_unmarshalPair_stop lib)
        (DateTimeShape_unmarshalPair_next lib) s r v pre post k val hres hpairs hk hl
    refine ⟨hlast, ?_⟩
    intro q hq hk
    obtain ⟨pre, post, q2, h1, h2, h3⟩ :=
      exists_last_split (fun x : YamlNode × YamlNode => x.1.Value = q.1.Value) (pairs v)
        ⟨q, hq, rfl⟩
    obtain ⟨n, m, -, h4, h5⟩ := hlast pre post q2.1 q2.2 h1 (by rw [h2]; exact hk)
      (fun x hx => by rw [h2]; exact h3 x hx)
    exact ⟨n, m, h4, by rw [← h2]; exact h5⟩

/-- Keys are case-sensitive: an integer shape decoding `Minimum: 7`: the key differs
from `minimum` in case, so it is a custom facet and Minimum stays unset. -/
theorem custom_facets_of_last_pair_example :
    IntegerShape.UnmarshalYAMLNodes exampleLib
        (⟨⟨0, "integer", "a.raml", 0, some fun _ => none⟩, ⟨none⟩, ⟨none⟩,
          ⟨none, none, none⟩⟩ : IntegerShape String Nat Nat)
        [⟨8, "!!str", "Minimum", [], 1, 1⟩, ⟨8, "!!int", "7", [], 1, 10⟩] =
      ⟨⟨⟨0, "integer", "a.raml", 0, some fun k => if k = "Minimum" then some "7" else none⟩,
          ⟨none⟩, ⟨none⟩, ⟨none, none, none⟩⟩, .nil⟩ ∧
    ∃ n m, exampleLib.MakeNode ⟨8, "!!int", "7", [], 1, 10⟩ "a.raml" = .ok n ∧
      (some fun k => if k = "Minimum" then some "7" else none) = some m ∧
      m "Minimum" = some n :=
  ⟨by rw [IntegerShape.UnmarshalYAMLNodes, unmarshalLoop_zero]; rfl,
   ((@custom_facets_of_last_pair String Int Nat Nat String exampleLib).1
      (⟨⟨0, "integer", "a.raml", 0, some fun _ => none⟩, ⟨none⟩, ⟨none⟩,
          ⟨none, none, none⟩⟩ : IntegerShape String Nat Nat)
      ⟨⟨0, "integer", "a.raml", 0, some fun k => if k = "Minimum" then some "7" else none⟩,
          ⟨none⟩, ⟨none⟩, ⟨none, none, none⟩⟩
      [⟨8, "!!str", "Minimum", [], 1, 1⟩, ⟨8, "!!int", "7", [], 1, 10⟩]
      (by rw [IntegerShape.UnmarshalYAMLNodes, unmarshalLoop_zero]; rfl)).1
      [] [] ⟨8, "!!str", "Minimum", [], 1, 1⟩ ⟨8, "!!int", "7", [], 1, 10⟩ rfl
      (by decide) (fun _ h => nomatch h)⟩

/-- C11 (the code at the failing input). The decoders of DateTimeOnlyShape,
DateOnlyShape, TimeOnlyShape, AnyShape and NilShape return nil on every list and leave
the receiver as it was, so they store no custom facet.  On the list `x: a`, on whose
value MakeNode succeeds with the node `a`, each of them returns nil with no entry for
`x` in CustomShapeFacets, while the BooleanShape decoder, for which `x` is not a known
key either, returns nil with the node `a` under `x`. -/
theorem C11_facetless_decoders_drop_custom_facets :
    (∀ (s : DateTimeOnlyShape N I P) (v : List YamlNode),
      (DateTimeOnlyShape.UnmarshalYAMLNodes s v : UnmarshalResult _ X) = ⟨s, .nil⟩) ∧
    (∀ (s : DateOnlyShape N I P) (v : List YamlNode),
      (DateOnlyShape.UnmarshalYAMLNodes s v : UnmarshalResult _ X) = ⟨s, .nil⟩) ∧
    (∀ (s : TimeOnlyShape N I P) (v : List YamlNode),
      (TimeOnlyShape.UnmarshalYAMLNodes s v : UnmarshalResult _ X) = ⟨s, .nil⟩) ∧
    (∀ (s : AnyShape N I P) (v : List YamlNode),
      (AnyShape.UnmarshalYAMLNodes s v : UnmarshalResult _ X) = ⟨s, .nil⟩) ∧
    (∀ (s : NilShape N I P) (v : List YamlNode),
      (NilShape.UnmarshalYAMLNodes s v : UnmarshalResult _ X) = ⟨s, .nil⟩) ∧
    exampleLib.MakeNode ⟨8, "!!str", "a", [], 1, 4⟩ "a.raml" = .ok "a" ∧
    (DateTimeOnlyShape.UnmarshalYAMLNodes
        (⟨⟨0, "datetime-only", "a.raml", 0, some fun _ => none⟩⟩ : DateTimeOnlyShape String Nat Nat)
        [⟨8, "!!str", "x", [], 1, 1⟩, ⟨8, "!!str", "a", [], 1, 4⟩] :
      UnmarshalResult _ String).ret = .nil ∧
    (DateTimeOnlyShape.UnmarshalYAMLNodes
        (⟨⟨0, "datetime-only", "a.raml", 0, some fun _ => none⟩⟩ : DateTimeOnlyShape String Nat Nat)
        [⟨8, "!!str", "x", [], 1, 1⟩, ⟨8, "!!str", "a", [], 1, 4⟩] :
      UnmarshalResult _ String).recv.CustomShapeFacets.bind (fun m => m "x") = none ∧
    (DateOnlyShape.UnmarshalYAMLNodes
        (⟨⟨0, "date-only", "a.raml", 0, some fun _ => none⟩⟩ : DateOnlyShape String Nat Nat)
        [⟨8, "!!str", "x", [], 1, 1⟩, ⟨8, "!!str", "a", [], 1, 4⟩] :
      UnmarshalResult _ String).ret = .nil ∧
    (DateOnlyShape.UnmarshalYAMLNodes
        (⟨⟨0, "date-only", "a.raml", 0, some fun _ => none⟩⟩ : DateOnlyShape String Nat Nat)
        [⟨8, "!!str", "x", [], 1, 1⟩, ⟨8, "!!str", "a", [], 1, 4⟩] :
      UnmarshalResult _ String).recv.CustomShapeFacets.bind (fun m => m "x") = none ∧
    (TimeOnlyShape.UnmarshalYAMLNodes
        (⟨⟨0, "time-only", "a.raml", 0, some fun _ => none⟩⟩ : TimeOnlyShape String Nat Nat)
        [⟨8, "!!str", "x", [], 1, 1⟩, ⟨8, "!!str", "a", [], 1, 4⟩] :
      UnmarshalResult _ String).ret = .nil ∧
    (TimeOnlyShape.UnmarshalYAMLNodes
        (⟨⟨0, "time-only", "a.raml", 0, some fun _ => none⟩⟩ : TimeOnlyShape String Nat Nat)
        [⟨8, "!!str", "x", [], 1, 1⟩, ⟨8, "!!str", "a", [], 1, 4⟩] :
      UnmarshalResult _ String).recv.CustomShapeFacets.bind (fun m => m "x") = none ∧
    (AnyShape.UnmarshalYAMLNodes
        (⟨⟨0, "any", "a.raml", 0, some fun _ => none⟩⟩ : AnyShape String Nat Nat)
        [⟨8, "!!str", "x", [], 1, 1⟩, ⟨8, "!!str", "a", [], 1, 4⟩] :
      UnmarshalResult _ String).ret = .nil ∧
    (AnyShape.UnmarshalYAMLNodes
        (⟨⟨0, "any", "a.raml", 0, some fun _ => none⟩⟩ : AnyShape String Nat Nat)
        [⟨8, "!!str", "x", [], 1, 1⟩, ⟨8, "!!str", "a", [], 1, 4⟩] :
      UnmarshalResult _ String).recv.CustomShapeFacets.bind (fun m => m "x") = none ∧
    (NilShape.UnmarshalYAMLNodes
        (⟨⟨0, "nil", "a.raml", 0, some fun _ => none⟩⟩ : NilShape String Nat Nat)
        [⟨8, "!!str", "x", [], 1, 1⟩, ⟨8, "!!str", "a", [], 1, 4⟩] :
      UnmarshalResult _ String).ret = .nil ∧
    (NilShape.UnmarshalYAMLNodes
        (⟨⟨0, "nil", "a.raml", 0, some fun _ => none⟩⟩ : NilShape String Nat Nat)
        [⟨8, "!!str", "x", [], 1, 1⟩, ⟨8, "!!str", "a", [], 1, 4⟩] :
      UnmarshalResult _ String).recv.CustomShapeFacets.bind (fun m => m "x") = none ∧
    "x" ∉ BooleanShape.knownKeys ∧
    BooleanShape.UnmarshalYAMLNodes exampleLib
        (⟨⟨0, "boolean", "a.raml", 0, some fun _ => none⟩, ⟨none⟩⟩ :
          BooleanShape String Nat Nat)
        [⟨8, "!!str", "x", [], 1, 1⟩, ⟨8, "!!str", "a", [], 1, 4⟩] =
      ⟨⟨⟨0, "boolean", "a.raml", 0, some fun k => if k = "x" then some "a" else none⟩,
        ⟨none⟩⟩, .nil⟩ := by
  refine ⟨fun _ _ => rfl, fun _ _ => rfl, fun _ _ => rfl, fun _ _ => rfl, fun _ _ => rfl,
    rfl, rfl, rfl, rfl, rfl, rfl, rfl, rfl, rfl, rfl, rfl, by decide, ?_⟩
  rw [BooleanShape.UnmarshalYAMLNodes, unmarshalLoop_zero]
  rfl

/-- C14. FileShape fileTypes decoding.  The iteration for a pair with key `fileTypes`
returns an error and leaves the receiver, FileTypes included, as it was if the value is
not a sequence node or if some element is not tagged `!!str`; when it completes,
FileTypes holds one node per element of the sequence, in order, each made by MakeNode
of a string-tagged element.  Hence UnmarshalYAMLNodes does not return nil on a list with
such an invalid pair, and when it returns nil the FileTypes are those of the last
`fileTypes` pair. -/
theorem C14_FileShape_fileTypes_decoding (lib : Lib N F X) :
    (∀ (k val : YamlNode) (s : FileShape N I P), k.Value = "fileTypes" →
      (val.Kind ≠ SequenceNode →
        FileShape.unmarshalPair lib k val s =
          .stop ⟨s, .err (.new "fileTypes must be sequence node" s.Location val)⟩) ∧
      (val.Kind = SequenceNode → (∃ c ∈ val.Content, c.Tag ≠ "!!str") →
        ∃ e, FileShape.unmarshalPair lib k val s = .stop ⟨s, .err e⟩) ∧
      (∀ s1, FileShape.unmarshalPair lib k val s = .next s1 →
        val.Kind = SequenceNode ∧
        ∃ ns, s1.FileTypes = some ns ∧ ns.length = val.Content.length ∧
          List.Forall₂ (fun c n => c.Tag = "!!str" ∧ lib.MakeNode c s.Location = .ok n)
            val.Content ns)) ∧
    (∀ (s : FileShape N I P) (v : List YamlNode),
      (∃ q ∈ pairs v, q.1.Value = "fileTypes" ∧
        (q.2.Kind ≠ SequenceNode ∨ ∃ c ∈ q.2.Content, c.Tag ≠ "!!str")) →
      (FileShape.UnmarshalYAMLNodes lib s v).ret ≠ .nil) ∧
    (∀ (s r : FileShape N I P) (v : List YamlNode)
        (pre post : List (YamlNode × YamlNode)) (k val : YamlNode),
      FileShape.UnmarshalYAMLNodes lib s v = ⟨r, .nil⟩ →
      pairs v = pre ++ (k, val) :: post →
      k.Value = "fileTypes" → (∀ q ∈ post, q.1.Value ≠ "fileTypes") →
      ∃ ns, r.FileTypes = some ns ∧ ns.length = val.Content.length ∧
        List.Forall₂ (fun c n => c.Tag = "!!str" ∧ lib.MakeNode c s.Location = .ok n)
          val.Content ns) := by
  refine ⟨?_, ?_, ?_⟩
  · intro k val s hk
    refine ⟨fun hkind => ?_, fun hkind htag => ?_, fun s1 h => ?_⟩
    · exact (FileShape_unmarshalPair_fileTypes lib k val s hk).1 hkind
    · obtain ⟨e, he⟩ := makeFileTypes_error_of_tag lib.MakeNode s.Location val.Content htag
      exact ⟨e, (FileShape_unmarshalPair_fileTypes lib k val s hk).2.1 hkind e he⟩
    · obtain ⟨h1, ns, h2, h3⟩ := FileShape_unmarshalPair_fileTypes_next lib k val s s1 h hk
      exact ⟨h1, ns, h2, h3.length_eq.symm, h3⟩
  · rintro s v ⟨q, hq, hkey, hbad⟩ hnil
    have hres : FileShape.UnmarshalYAMLNodes lib s v =
        ⟨(FileShape.UnmarshalYAMLNodes lib s v).recv, .nil⟩ := by
      rw [← hnil]
    rw [FileShape.UnmarshalYAMLNodes, unmarshalLoop_zero] at hres
    obtain ⟨hrun, -⟩ := endOfLoop_nil _ (FileShape_unmarshalPair_stop lib) _ _ _ _ hres
    obtain ⟨pre, post, s0, s1, -, -, hb⟩ := runPairs_next_mem _ _ _ _ hrun q hq
    obtain ⟨h1, ns, -, h3⟩ := FileShape_unmarshalPair_fileTypes_next lib q.1 q.2 s0 s1 hb hkey
    rcases hbad with hb1 | ⟨c, hc, ht⟩
    · exact hb1 h1
    · exact ht (forall₂_left_of_mem _ _ _ _ h3 c hc)
  · intro s r v pre post k val hres hpairs hk hlast
    rw [FileShape.UnmarshalYAMLNodes, unmarshalLoop_zero] at hres
    obtain ⟨hrun, -⟩ := endOfLoop_nil _ (FileShape_unmarshalPair_stop lib) _ _ _ _ hres
    rw [hpairs] at hrun
    obtain ⟨s0, s1, hpre, hb, hproj⟩ := runPairs_last (fun x : FileShape N I P => x.FileTypes)
      (fun q => q.Value = "fileTypes") _
      (fun k val s s1 hK hb => FileShape_unmarshalPair_fileTypes_frame lib k val s s1 hb hK)
      pre post k val s r hrun hlast
    have hloc : s0.Location = s.Location :=
      runPairs_frame (fun x : FileShape N I P => x.Location) (fun _ => False) _
        (fun k val s s1 _ hb => (FileShape_unmarshalPair_next lib k val s s1 hb).1)
        pre s s0 hpre (fun _ _ h => h)
    obtain ⟨-, ns, h2, h3⟩ := FileShape_unmarshalPair_fileTypes_next lib k val s0 s1 hb hk
    rw [hloc] at h3
    exact ⟨ns, by rw [hproj]; exact h2, h3.length_eq.symm, h3⟩

/-- C14 (witness): `fileTypes: ["image/png", 42]` is rejected with the "member of
fileTypes must be string" error and FileTypes stays unset, while
`fileTypes: ["image/png"]` gives FileTypes `["image/png"]`. -/
theorem C14_FileShape_fileTypes_decoding_witness :
    FileShape.UnmarshalYAMLNodes exampleLib
        (⟨⟨0, "file", "a.raml", 0, some fun _ => none⟩, ⟨none, none⟩, ⟨none⟩⟩ :
          FileShape String Nat Nat)
        [⟨8, "!!str", "fileTypes", [], 1, 1⟩,
          ⟨2, "!!seq", "", [⟨8, "!!str", "image/png", [], 1, 13⟩,
            ⟨8, "!!int", "42", [], 1, 26⟩], 1, 12⟩] =
      ⟨⟨⟨0, "file", "a.raml", 0, some fun _ => none⟩, ⟨none, none⟩, ⟨none⟩⟩,
        .err (.new "member of fileTypes must be string" "a.raml"
          ⟨8, "!!int", "42", [], 1, 26⟩)⟩ ∧
    (∃ e, FileShape.unmarshalPair exampleLib ⟨8, "!!str", "fileTypes", [], 1, 1⟩
        ⟨2, "!!seq", "", [⟨8, "!!str", "image/png", [], 1, 13⟩,
            ⟨8, "!!int", "42", [], 1, 26⟩], 1, 12⟩
        (⟨⟨0, "file", "a.raml", 0, some fun _ => none⟩, ⟨none, none⟩, ⟨none⟩⟩ :
          FileShape String Nat Nat) =
      .stop ⟨⟨⟨0, "file", "a.raml", 0, some fun _ => none⟩, ⟨none, none⟩, ⟨none⟩⟩,
        .err e⟩) ∧
    FileShape.UnmarshalYAMLNodes exampleLib
        (⟨⟨0, "file", "a.raml", 0, some fun _ => none⟩, ⟨none, none⟩, ⟨none⟩⟩ :
          FileShape String Nat Nat)
        [⟨8, "!!str", "fileTypes", [], 1, 1⟩,
          ⟨2, "!!seq", "", [⟨8, "!!str", "image/png", [], 1, 13⟩], 1, 12⟩] =
      ⟨⟨⟨0, "file", "a.raml", 0, some fun _ => none⟩, ⟨none, none⟩,
        ⟨some ["image/png"]⟩⟩, .nil⟩ :=
  ⟨by rw [FileShape.UnmarshalYAMLNodes, unmarshalLoop_zero]; rfl,
   ((@C14_FileShape_fileTypes_decoding String Int Nat Nat String exampleLib).1
      ⟨8, "!!str", "fileTypes", [], 1, 1⟩
      ⟨2, "!!seq", "", [⟨8, "!!str", "image/png", [], 1, 13⟩,
            ⟨8, "!!int", "42", [], 1, 26⟩], 1, 12⟩
      (⟨⟨0, "file", "a.raml", 0, some fun _ => none⟩, ⟨none, none⟩, ⟨none⟩⟩ :
          FileShape String Nat Nat) rfl).2.1 rfl
      ⟨⟨8, "!!int", "42", [], 1, 26⟩, by simp, by decide⟩,
   by rw [FileShape.UnmarshalYAMLNodes, unmarshalLoop_zero]; rfl⟩

/-- C15. IntegerShape minimum/maximum decoding.  The iteration for a pair with key
`minimum` (resp. `maximum`) returns the "must be integer" error if the value's tag is
not `!!int`, the "invalid value" error if SetString rejects the text, and otherwise
sets Minimum (resp. Maximum) to the integer SetString returns, an unbounded integer.
Hence UnmarshalYAMLNodes does not return nil on a list with such a pair whose value is
not integer-tagged or not a valid literal, and when it returns nil the Minimum (resp.
Maximum) is the integer of the last such pair. -/
theorem C15_IntegerShape_bounds_decoding (lib : Lib N F X) :
    (∀ (k val : YamlNode) (s : IntegerShape N I P), k.Value = "minimum" →
      (val.Tag ≠ "!!int" →
        IntegerShape.unmarshalPair lib k val s =
          .stop ⟨s, .err (.new "minimum must be integer" s.Location val)⟩) ∧
      (val.Tag = "!!int" → lib.SetString val.Value = none →
        IntegerShape.unmarshalPair lib k val s =
          .stop ⟨s, .err (.new "invalid minimum value" s.Location val)⟩) ∧
      (val.Tag = "!!int" → ∀ n, lib.SetString val.Value = some n →
        IntegerShape.unmarshalPair lib k val s = .next { s with Minimum := some n })) ∧
    (∀ (k val : YamlNode) (s : IntegerShape N I P), k.Value = "maximum" →
      (val.Tag ≠ "!!int" →
        IntegerShape.unmarshalPair lib k val s =
          .stop ⟨s, .err (.new "maximum must be integer" s.Location val)⟩) ∧
      (val.Tag = "!!int" → lib.SetString val.Value = none →
        IntegerShape.unmarshalPair lib k val s =
          .stop ⟨s, .err (.new "invalid maximum value" s.Location val)⟩) ∧
      (val.Tag = "!!int" → ∀ n, lib.SetString val.Value = some n →
        IntegerShape.unmarshalPair lib k val s = .next { s with Maximum := some n })) ∧
    (∀ (s : IntegerShape N I P) (v : List YamlNode),
      (∃ q ∈ pairs v, (q.1.Value = "minimum" ∨ q.1.Value = "maximum") ∧
        (q.2.Tag ≠ "!!int" ∨ lib.SetString q.2.Value = none)) →
      (IntegerShape.UnmarshalYAMLNodes lib s v).ret ≠ .nil) ∧
    (∀ (s r : IntegerShape N I P) (v : List YamlNode)
        (pre post : List (YamlNode × YamlNode)) (k val : YamlNode),
      IntegerShape.UnmarshalYAMLNodes lib s v = ⟨r, .nil⟩ →
      pairs v = pre ++ (k, val) :: post →
      (k.Value = "minimum" → (∀ q ∈ post, q.1.Value ≠ "minimum") →
        val.Tag = "!!int" ∧ r.Minimum = lib.SetString val.Value ∧ r.Minimum ≠ none) ∧
      (k.Value = "maximum" → (∀ q ∈ post, q.1.Value ≠ "maximum") →
        val.Tag = "!!int" ∧ r.Maximum = lib.SetString val.Value ∧ r.Maximum ≠ none)) := by
  refine ⟨fun k val s hk => IntegerShape_unmarshalPair_minimum lib k val s hk,
    fun k val s hk => IntegerShape_unmarshalPair_maximum lib k val s hk, ?_, ?_⟩
  · rintro s v ⟨q, hq, hkey, hbad⟩ hnil
    have hres : IntegerShape.UnmarshalYAMLNodes lib s v =
        ⟨(IntegerShape.UnmarshalYAMLNodes lib s v).recv, .nil⟩ := by
      rw [← hnil]
    rw [IntegerShape.UnmarshalYAMLNodes, unmarshalLoop_zero] at hres
    obtain ⟨hrun, -⟩ := endOfLoop_nil _ (IntegerShape_unmarshalPair_stop lib) _ _ _ _ hres
    obtain ⟨pre, post, s0, s1, -, -, hb⟩ := runPairs_next_mem _ _ _ _ hrun q hq
    obtain ⟨h1, h2⟩ := IntegerShape_unmarshalPair_bounds_next lib q.1 q.2 s0 s1 hb
    rcases hkey with hk | hk
    · obtain ⟨ht, hv, hne⟩ := h1 hk
      rcases hbad with hb1 | hb2
      · exact hb1 ht
      · rw [hv, hb2] at hne
        exact hne rfl
    · obtain ⟨ht, hv, hne⟩ := h2 hk
      rcases hbad with hb1 | hb2
      · exact hb1 ht
      · rw [hv, hb2] at hne
        exact hne rfl
  · intro s r v pre post k val hres hpairs
    rw [IntegerShape.UnmarshalYAMLNodes, unmarshalLoop_zero] at hres
    obtain ⟨hrun, -⟩ := endOfLoop_nil _ (IntegerShape_unmarshalPair_stop lib) _ _ _ _ hres
    rw [hpairs] at hrun
    constructor
    · intro hk hlast
      obtain ⟨s0, s1, -, hb, hproj⟩ := runPairs_last (fun x : IntegerShape N I P => x.Minimum)
        (fun q => q.Value = "minimum") _
        (fun k val s s1 hK hb =>
          (IntegerShape_unmarshalPair_bounds_frame lib k val s s1 hb).1 hK)
        pre post k val s r hrun hlast
      rw [hproj]
      exact (IntegerShape_unmarshalPair_bounds_next lib k val s0 s1 hb).1 hk
    · intro hk hlast
      obtain ⟨s0, s1, -, hb, hproj⟩ := runPairs_last (fun x : IntegerShape N I P => x.Maximum)
        (fun q => q.Value = "maximum") _
        (fun k val s s1 hK hb =>
          (IntegerShape_unmarshalPair_bounds_frame lib k val s s1 hb).2 hK)
        pre post k val s r hrun hlast
      rw [hproj]
      exact (IntegerShape_unmarshalPair_bounds_next lib k val s0 s1 hb).2 hk

/-- C15 (witness): decoding `minimum: 5, maximum: 10` gives Minimum 5 and Maximum 10,
and the iteration for `minimum: 123456789012345678901234567890` stores that integer,
which exceeds 64 bits. -/
theorem C15_IntegerShape_bounds_decoding_witness :
    IntegerShape.UnmarshalYAMLNodes exampleLib
        (⟨⟨0, "integer", "a.raml", 0, some fun _ => none⟩, ⟨none⟩, ⟨none⟩,
          ⟨none, none, none⟩⟩ : IntegerShape String Nat Nat)
        [⟨8, "!!str", "minimum", [], 1, 1⟩, ⟨8, "!!int", "5", [], 1, 10⟩,
          ⟨8, "!!str", "maximum", [], 2, 1⟩, ⟨8, "!!int", "10", [], 2, 10⟩] =
      ⟨⟨⟨0, "integer", "a.raml", 0, some fun _ => none⟩, ⟨none⟩, ⟨none⟩,
          ⟨some 5, some 10, none⟩⟩, .nil⟩ ∧
    IntegerShape.unmarshalPair exampleLib ⟨8, "!!str", "minimum", [], 1, 1⟩
        ⟨8, "!!int", "123456789012345678901234567890", [], 1, 10⟩
        (⟨⟨0, "integer", "a.raml", 0, some fun _ => none⟩, ⟨none⟩, ⟨none⟩,
          ⟨none, none, none⟩⟩ : IntegerShape String Nat Nat) =
      .next ⟨⟨0, "integer", "a.raml", 0, some fun _ => none⟩, ⟨none⟩, ⟨none⟩,
          ⟨some 123456789012345678901234567890, none, none⟩⟩ :=
  ⟨by rw [IntegerShape.UnmarshalYAMLNodes, unmarshalLoop_zero]; rfl,
   ((@C15_IntegerShape_bounds_decoding String Int Nat Nat String exampleLib).1
      ⟨8, "!!str", "minimum", [], 1, 1⟩
      ⟨8, "!!int", "123456789012345678901234567890", [], 1, 10⟩
      (⟨⟨0, "integer", "a.raml", 0, some fun _ => none⟩, ⟨none⟩, ⟨none⟩,
          ⟨none, none, none⟩⟩ : IntegerShape String Nat Nat) rfl).2.2 rfl
      123456789012345678901234567890 (by decide)⟩

/-- C16. Idempotence of Inherit: for FileShape and DateTimeShape unconditionally, and for
IntegerShape, StringShape and BooleanShape whenever the overridability test holds of
the ancestor's enum against itself, if the merge into an ancestor succeeds then merging
the result into the same ancestor again succeeds and returns the result with every
field unchanged. -/
theorem C16_Inherit_idempotent :
    (∀ (ov : List N → List N → Bool) (s ss : IntegerShape N I P) (sh : Shape N F I P),
      (IntegerShape.Inherit ov s (Shape.integer ss : Shape N F I P)).ret = .ok sh →
      (∀ e, ss.Enum = some e → ov e e = true) →
      (IntegerShape.Inherit ov (IntegerShape.Inherit ov s (Shape.integer ss : Shape N F I P)).recv
          (Shape.integer ss : Shape N F I P)).ret =
          .ok (.integer (IntegerShape.Inherit ov s (Shape.integer ss : Shape N F I P)).recv) ∧
      (IntegerShape.Inherit ov (IntegerShape.Inherit ov s (Shape.integer ss : Shape N F I P)).recv
          (Shape.integer ss : Shape N F I P)).recv =
          (IntegerShape.Inherit ov s (Shape.integer ss : Shape N F I P)).recv) ∧
    (∀ (ov : List N → List N → Bool) (s ss : StringShape N I P) (sh : Shape N F I P),
      (StringShape.Inherit ov s (Shape.string ss : Shape N F I P)).ret = .ok sh →
      (∀ e, ss.Enum = some e → ov e e = true) →
      (StringShape.Inherit ov (StringShape.Inherit ov s (Shape.string ss : Shape N F I P)).recv
          (Shape.string ss : Shape N F I P)).ret =
          .ok (.string (StringShape.Inherit ov s (Shape.string ss : Shape N F I P)).recv) ∧
      (StringShape.Inherit ov (StringShape.Inherit ov s (Shape.string ss : Shape N F I P)).recv
          (Shape.string ss : Shape N F I P)).recv =
          (StringShape.Inherit ov s (Shape.string ss : Shape N F I P)).recv) ∧
    (∀ (ov : List N → List N → Bool) (s ss : BooleanShape N I P) (sh : Shape N F I P),
      (BooleanShape.Inherit ov s (Shape.boolean ss : Shape N F I P)).ret = .ok sh →
      (∀ e, ss.Enum = some e → ov e e = true) →
      (BooleanShape.Inherit ov (BooleanShape.Inherit ov s (Shape.boolean ss : Shape N F I P)).recv
          (Shape.boolean ss : Shape N F I P)).ret =
          .ok (.boolean (BooleanShape.Inherit ov s (Shape.boolean ss : Shape N F I P)).recv) ∧
      (BooleanShape.Inherit ov (BooleanShape.Inherit ov s (Shape.boolean ss : Shape N F I P)).recv
          (Shape.boolean ss : Shape N F I P)).recv =
          (BooleanShape.Inherit ov s (Shape.boolean ss : Shape N F I P)).recv) ∧
    (∀ (s ss : FileShape N I P) (sh : Shape N F I P),
      (FileShape.Inherit s (Shape.file ss : Shape N F I P)).ret = .ok sh →
      (FileShape.Inherit (FileShape.Inherit s (Shape.file ss : Shape N F I P)).recv
          (Shape.file ss : Shape N F I P)).ret =
          .ok (.file (FileShape.Inherit s (Shape.file ss : Shape N F I P)).recv) ∧
      (FileShape.Inherit (FileShape.Inherit s (Shape.file ss : Shape N F I P)).recv
          (Shape.file ss : Shape N F I P)).recv =
          (FileShape.Inherit s (Shape.file ss : Shape N F I P)).recv) ∧
    (∀ (s ss : DateTimeShape N I P) (sh : Shape N F I P),
      (DateTimeShape.Inherit s (Shape.dateTime ss : Shape N F I P)).ret = .ok sh →
      (DateTimeShape.Inherit (DateTimeShape.Inherit s (Shape.dateTime ss : Shape N F I P)).recv
          (Shape.dateTime ss : Shape N F I P)).ret =
          .ok (.dateTime (DateTimeShape.Inherit s (Shape.dateTime ss : Shape N F I P)).recv) ∧
      (DateTimeShape.Inherit (DateTimeShape.Inherit s (Shape.dateTime ss : Shape N F I P)).recv
          (Shape.dateTime ss : Shape N F I P)).recv =
          (DateTimeShape.Inherit s (Shape.dateTime ss : Shape N F I P)).recv) := by
  refine ⟨?_, ?_, ?_, ?_, ?_⟩
  · intro ov s ss sh hok hrefl
    rw [IntegerShape_Inherit_again ov s ss sh hok hrefl]
    exact ⟨rfl, rfl⟩
  · intro ov s ss sh hok hrefl
    rw [StringShape_Inherit_again ov s ss sh hok hrefl]
    exact ⟨rfl, rfl⟩
  · intro ov s ss sh hok hrefl
    rw [BooleanShape_Inherit_again ov s ss sh hok hrefl]
    exact ⟨rfl, rfl⟩
  · intro s ss sh hok
    rw [FileShape_Inherit_again s ss sh hok]
    exact ⟨rfl, rfl⟩
  · intro s ss sh _
    rw [DateTimeShape_Inherit_again]
    exact ⟨rfl, rfl⟩

/-- C16 (witness): an integer child without facets merged twice into the ancestor
(minimum 0, enum `[1]`). -/
theorem C16_Inherit_idempotent_witness :
    (IntegerShape.Inherit (fun _ _ => true)
        (IntegerShape.Inherit (fun _ _ => true)
          (⟨⟨0, "integer", "a.raml", 0, none⟩, ⟨none⟩, ⟨none⟩, ⟨none, none, none⟩⟩ :
            IntegerShape Nat Nat Nat)
          (Shape.integer ⟨⟨1, "integer", "a.raml", 0, none⟩, ⟨some [1]⟩, ⟨none⟩,
            ⟨some 0, none, none⟩⟩ : Shape Nat Int Nat Nat)).recv
        (Shape.integer ⟨⟨1, "integer", "a.raml", 0, none⟩, ⟨some [1]⟩, ⟨none⟩,
            ⟨some 0, none, none⟩⟩ : Shape Nat Int Nat Nat)).recv =
      (IntegerShape.Inherit (fun _ _ => true)
          (⟨⟨0, "integer", "a.raml", 0, none⟩, ⟨none⟩, ⟨none⟩, ⟨none, none, none⟩⟩ :
            IntegerShape Nat Nat Nat)
          (Shape.integer ⟨⟨1, "integer", "a.raml", 0, none⟩, ⟨some [1]⟩, ⟨none⟩,
            ⟨some 0, none, none⟩⟩ : Shape Nat Int Nat Nat)).recv :=
  ((@C16_Inherit_idempotent Nat Int Nat Nat).1 (fun _ _ => true)
      (⟨⟨0, "integer", "a.raml", 0, none⟩, ⟨none⟩, ⟨none⟩, ⟨none, none, none⟩⟩ :
            IntegerShape Nat Nat Nat)
      ⟨⟨1, "integer", "a.raml", 0, none⟩, ⟨some [1]⟩, ⟨none⟩, ⟨some 0, none, none⟩⟩
      _ rfl (fun _ _ => rfl)).2

/-- C17. Chained inheritance keeps every ancestor's bounds: if an integer child is
merged into P1 and the result into P2, both with success, then the final shape
specifies every minimum that P1 or P2 specifies, with a value at least as large, and
every maximum that P1 or P2 specifies, with a value at most as large. -/
theorem C17_IntegerShape_Inherit_chain (ov : List N → List N → Bool)
    (s p1 p2 : IntegerShape N I P) (sh1 sh2 : Shape N F I P)
    (hok1 : (IntegerShape.Inherit ov s (Shape.integer p1 : Shape N F I P)).ret = .ok sh1)
    (hok2 : (IntegerShape.Inherit ov
        (IntegerShape.Inherit ov s (Shape.integer p1 : Shape N F I P)).recv
        (Shape.integer p2 : Shape N F I P)).ret = .ok sh2) :
    (∀ pm, p1.Minimum = some pm ∨ p2.Minimum = some pm →
      ∃ m, (IntegerShape.Inherit ov
          (IntegerShape.Inherit ov s (Shape.integer p1 : Shape N F I P)).recv
          (Shape.integer p2 : Shape N F I P)).recv.Minimum = some m ∧ pm ≤ m) ∧
    (∀ pm, p1.Maximum = some pm ∨ p2.Maximum = some pm →
      ∃ m, (IntegerShape.Inherit ov
          (IntegerShape.Inherit ov s (Shape.integer p1 : Shape N F I P)).recv
          (Shape.integer p2 : Shape N F I P)).recv.Maximum = some m ∧ m ≤ pm) := by
  obtain ⟨a1, a2, -, -⟩ := IntegerShape_Inherit_bounds ov s p1 sh1 hok1
  obtain ⟨b1, b2, b3, b4⟩ := IntegerShape_Inherit_bounds ov _ p2 sh2 hok2
  constructor
  · rintro pm (h | h)
    · obtain ⟨m, hm, hle⟩ := a1 pm h
      exact ⟨m, b3 m hm, hle⟩
    · exact b1 pm h
  · rintro pm (h | h)
    · obtain ⟨m, hm, hle⟩ := a2 pm h
      exact ⟨m, b4 m hm, hle⟩
    · exact b2 pm h

/-- C17 (witness): a child without bounds merged into (5, 10) and then into (0, 20)
ends with a minimum that is at least 0. -/
theorem C17_IntegerShape_Inherit_chain_witness :
    ∃ m, (IntegerShape.Inherit (fun _ _ => true)
        (IntegerShape.Inherit (fun _ _ => true)
          (⟨⟨0, "integer", "a.raml", 0, none⟩, ⟨none⟩, ⟨none⟩, ⟨none, none, none⟩⟩ :
            IntegerShape Nat Nat Nat)
          (Shape.integer ⟨⟨1, "integer", "a.raml", 0, none⟩, ⟨none⟩, ⟨none⟩,
            ⟨some 5, some 10, none⟩⟩ : Shape Nat Int Nat Nat)).recv
        (Shape.integer ⟨⟨2, "integer", "a.raml", 0, none⟩, ⟨none⟩, ⟨none⟩,
            ⟨some 0, some 20, none⟩⟩ : Shape Nat Int Nat Nat)).recv.Minimum = some m ∧
      (0 : Int) ≤ m :=
  (C17_IntegerShape_Inherit_chain (fun _ _ => true)
      (⟨⟨0, "integer", "a.raml", 0, none⟩, ⟨none⟩, ⟨none⟩, ⟨none, none, none⟩⟩ :
            IntegerShape Nat Nat Nat)
      ⟨⟨1, "integer", "a.raml", 0, none⟩, ⟨none⟩, ⟨none⟩, ⟨some 5, some 10, none⟩⟩
      ⟨⟨2, "integer", "a.raml", 0, none⟩, ⟨none⟩, ⟨none⟩, ⟨some 0, some 20, none⟩⟩
      _ _ rfl rfl).1 0 (Or.inr rfl)

/-- C18. Inherit is order-sensitive: for the integer child C without minimum and the
ancestors P1 (minimum 0) and P2 (minimum 5), merging C into P2 and then into P1
succeeds with minimum 5, while merging C into P1 succeeds with minimum 0 and merging
that result into P2 fails with the minimum constraint violation. -/
theorem C18_IntegerShape_Inherit_order_sensitive :
    ∃ (c p1 p2 : IntegerShape Nat Nat Nat),
      c.Minimum = none ∧ p1.Minimum = some 0 ∧ p2.Minimum = some 5 ∧
      (IntegerShape.Inherit (fun _ _ => true) c
        (Shape.integer p2 : Shape Nat Int Nat Nat)).ret = .ok (.integer
          (IntegerShape.Inherit (fun _ _ => true) c
            (Shape.integer p2 : Shape Nat Int Nat Nat)).recv) ∧
      (IntegerShape.Inherit (fun _ _ => true)
        (IntegerShape.Inherit (fun _ _ => true) c
          (Shape.integer p2 : Shape Nat Int Nat Nat)).recv
        (Shape.integer p1 : Shape Nat Int Nat Nat)).ret = .ok (.integer
          { c with Minimum := some 5 }) ∧
      (IntegerShape.Inherit (fun _ _ => true)
        (IntegerShape.Inherit (fun _ _ => true) c
          (Shape.integer p2 : Shape Nat Int Nat Nat)).recv
        (Shape.integer p1 : Shape Nat Int Nat Nat)).recv.Minimum = some 5 ∧
      (IntegerShape.Inherit (fun _ _ => true) c
        (Shape.integer p1 : Shape Nat Int Nat Nat)).ret = .ok (.integer
          { c with Minimum := some 0 }) ∧
      (IntegerShape.Inherit (fun _ _ => true)
        (IntegerShape.Inherit (fun _ _ => true) c
          (Shape.integer p1 : Shape Nat Int Nat Nat)).recv
        (Shape.integer p2 : Shape Nat Int Nat Nat)).ret =
        .error (NewError "minimum constraint violation" c.Location c.Position
          [("source", .bigInt 5), ("target", .bigInt 0)]) :=
  ⟨⟨⟨0, "integer", "a.raml", 0, none⟩, ⟨none⟩, ⟨none⟩, ⟨none, none, none⟩⟩,
   ⟨⟨1, "integer", "a.raml", 0, none⟩, ⟨none⟩, ⟨none⟩, ⟨some 0, none, none⟩⟩,
   ⟨⟨2, "integer", "a.raml", 0, none⟩, ⟨none⟩, ⟨none⟩, ⟨some 5, none, none⟩⟩,
   rfl, rfl, rfl, rfl, rfl, rfl, rfl, rfl⟩

/-- C12. Clone preserves everything but identity: for every shape of each of the eleven
variants, Clone returns a shape of the same variant whose Id is the value produced by
GenerateShapeId and whose Type, Location, Position, CustomShapeFacets and facet fields
equal those of the receiver, and the receiver is unchanged. -/
theorem C12_Clone_preserves_all_but_Id :
    (∀ (newId : I) (s : IntegerShape N I P),
      (∃ c, (IntegerShape.Clone newId s : CloneResult (IntegerShape N I P) N F I P).ret = .integer c ∧ c.Id = newId ∧
        c.Type_ = s.Type_ ∧ c.Location = s.Location ∧ c.Position = s.Position ∧
        c.CustomShapeFacets = s.CustomShapeFacets ∧ c.toEnumFacets = s.toEnumFacets ∧ c.toFormatFacets = s.toFormatFacets ∧ c.toIntegerFacets = s.toIntegerFacets) ∧
      (IntegerShape.Clone newId s : CloneResult (IntegerShape N I P) N F I P).recv = s) ∧
    (∀ (newId : I) (s : NumberShape N F I P),
      (∃ c, (NumberShape.Clone newId s : CloneResult (NumberShape N F I P) N F I P).ret = .number c ∧ c.Id = newId ∧
        c.Type_ = s.Type_ ∧ c.Location = s.Location ∧ c.Position = s.Position ∧
        c.CustomShapeFacets = s.CustomShapeFacets ∧ c.toEnumFacets = s.toEnumFacets ∧ c.toFormatFacets = s.toFormatFacets ∧ c.toNumberFacets = s.toNumberFacets) ∧
      (NumberShape.Clone newId s : CloneResult (NumberShape N F I P) N F I P).recv = s) ∧
    (∀ (newId : I) (s : StringShape N I P),
      (∃ c, (StringShape.Clone newId s : CloneResult (StringShape N I P) N F I P).ret = .string c ∧ c.Id = newId ∧
        c.Type_ = s.Type_ ∧ c.Location = s.Location ∧ c.Position = s.Position ∧
        c.CustomShapeFacets = s.CustomShapeFacets ∧ c.toEnumFacets = s.toEnumFacets ∧ c.toStringFacets = s.toStringFacets) ∧
      (StringShape.Clone newId s : CloneResult (StringShape N I P) N F I P).recv = s) ∧
    (∀ (newId : I) (s : FileShape N I P),
      (∃ c, (FileShape.Clone newId s : CloneResult (FileShape N I P) N F I P).ret = .file c ∧ c.Id = newId ∧
        c.Type_ = s.Type_ ∧ c.Location = s.Location ∧ c.Position = s.Position ∧
        c.CustomShapeFacets = s.CustomShapeFacets ∧ c.toLengthFacets = s.toLengthFacets ∧ c.toFileFacets = s.toFileFacets) ∧
      (FileShape.Clone newId s : CloneResult (FileShape N I P) N F I P).recv = s) ∧
    (∀ (newId : I) (s : BooleanShape N I P),
      (∃ c, (BooleanShape.Clone newId s : CloneResult (BooleanShape N I P) N F I P).ret = .boolean c ∧ c.Id = newId ∧
        c.Type_ = s.Type_ ∧ c.Location = s.Location ∧ c.Position = s.Position ∧
        c.CustomShapeFacets = s.CustomShapeFacets ∧ c.toEnumFacets = s.toEnumFacets) ∧
      (BooleanShape.Clone newId s : CloneResult (BooleanShape N I P) N F I P).recv = s) ∧
    (∀ (newId : I) (s : DateTimeShape N I P),
      (∃ c, (DateTimeShape.Clone newId s : CloneResult (DateTimeShape N I P) N F I P).ret = .dateTime c ∧ c.Id = newId ∧
        c.Type_ = s.Type_ ∧ c.Location = s.Location ∧ c.Position = s.Position ∧
        c.CustomShapeFacets = s.CustomShapeFacets ∧ c.toFormatFacets = s.toFormatFacets) ∧
      (DateTimeShape.Clone newId s : CloneResult (DateTimeShape N I P) N F I P).recv = s) ∧
    (∀ (newId : I) (s : DateTimeOnlyShape N I P),
      (∃ c, (DateTimeOnlyShape.Clone newId s : CloneResult (DateTimeOnlyShape N I P) N F I P).ret = .dateTimeOnly c ∧ c.Id = newId ∧
        c.Type_ = s.Type_ ∧ c.Location = s.Location ∧ c.Position = s.Position ∧
        c.CustomShapeFacets = s.CustomShapeFacets) ∧
      (DateTimeOnlyShape.Clone newId s : CloneResult (DateTimeOnlyShape N I P) N F I P).recv = s) ∧
    (∀ (newId : I) (s : DateOnlyShape N I P),
      (∃ c, (DateOnlyShape.Clone newId s : CloneResult (DateOnlyShape N I P) N F I P).ret = .dateOnly c ∧ c.Id = newId ∧
        c.Type_ = s.Type_ ∧ c.Location = s.Location ∧ c.Position = s.Position ∧
        c.CustomShapeFacets = s.CustomShapeFacets) ∧
      (DateOnlyShape.Clone newId s : CloneResult (DateOnlyShape N I P) N F I P).recv = s) ∧
    (∀ (newId : I) (s : TimeOnlyShape N I P),
      (∃ c, (TimeOnlyShape.Clone newId s : CloneResult (TimeOnlyShape N I P) N F I P).ret = .timeOnly c ∧ c.Id = newId ∧
        c.Type_ = s.Type_ ∧ c.Location = s.Location ∧ c.Position = s.Position ∧
        c.CustomShapeFacets = s.CustomShapeFacets) ∧
      (TimeOnlyShape.Clone newId s : CloneResult (TimeOnlyShape N I P) N F I P).recv = s) ∧
    (∀ (newId : I) (s : AnyShape N I P),
      (∃ c, (AnyShape.Clone newId s : CloneResult (AnyShape N I P) N F I P).ret = .any c ∧ c.Id = newId ∧
        c.Type_ = s.Type_ ∧ c.Location = s.Location ∧ c.Position = s.Position ∧
        c.CustomShapeFacets = s.CustomShapeFacets) ∧
      (AnyShape.Clone newId s : CloneResult (AnyShape N I P) N F I P).recv = s) ∧
    (∀ (newId : I) (s : NilShape N I P),
      (∃ c, (NilShape.Clone newId s : CloneResult (NilShape N I P) N F I P).ret = .nil c ∧ c.Id = newId ∧
        c.Type_ = s.Type_ ∧ c.Location = s.Location ∧ c.Position = s.Position ∧
        c.CustomShapeFacets = s.CustomShapeFacets) ∧
      (NilShape.Clone newId s : CloneResult (NilShape N I P) N F I P).recv = s) :=
  ⟨fun _ _ => ⟨⟨_, rfl, rfl, rfl, rfl, rfl, rfl, rfl, rfl, rfl⟩, rfl⟩,
   fun _ _ => ⟨⟨_, rfl, rfl, rfl, rfl, rfl, rfl, rfl, rfl, rfl⟩, rfl⟩,
   fun _ _ => ⟨⟨_, rfl, rfl, rfl, rfl, rfl, rfl, rfl, rfl⟩, rfl⟩,
   fun _ _ => ⟨⟨_, rfl, rfl, rfl, rfl, rfl, rfl, rfl, rfl⟩, rfl⟩,
   fun _ _ => ⟨⟨_, rfl, rfl, rfl, rfl, rfl, rfl, rfl⟩, rfl⟩,
   fun _ _ => ⟨⟨_, rfl, rfl, rfl, rfl, rfl, rfl, rfl⟩, rfl⟩,
   fun _ _ => ⟨⟨_, rfl, rfl, rfl, rfl, rfl, rfl⟩, rfl⟩,
   fun _ _ => ⟨⟨_, rfl, rfl, rfl, rfl, rfl, rfl⟩, rfl⟩,
   fun _ _ => ⟨⟨_, rfl, rfl, rfl, rfl, rfl, rfl⟩, rfl⟩,
   fun _ _ => ⟨⟨_, rfl, rfl, rfl, rfl, rfl, rfl⟩, rfl⟩,
   fun _ _ => ⟨⟨_, rfl, rfl, rfl, rfl, rfl, rfl⟩, rfl⟩⟩

/-- C13. MakeEnum contract: MakeEnum succeeds with the list `ns` iff the node is of
sequence kind and `ns` has exactly one entry per element of its content, the i-th being
the node MakeNode makes of the i-th element; it fails with the "enum must be sequence
node" error on any other kind and fails whenever MakeNode fails on some element;
when MakeNode succeeds on every element of a sequence it succeeds. -/
theorem C13_MakeEnum_contract (MakeNode : YamlNode → String → Except X N) (v : YamlNode)
    (location : String) :
    (∀ ns, MakeEnum MakeNode v location = .ok ns ↔
      (v.Kind = SequenceNode ∧ v.Content.length = ns.length ∧
        ∀ i (h₁ : i < v.Content.length) (h₂ : i < ns.length),
          MakeNode (v.Content.get ⟨i, h₁⟩) location = .ok (ns.get ⟨i, h₂⟩))) ∧
    (v.Kind ≠ SequenceNode →
      MakeEnum MakeNode v location = .error (.new "enum must be sequence node" location v)) ∧
    ((∃ c ∈ v.Content, ∃ e, MakeNode c location = .error e) →
      ∃ e, MakeEnum MakeNode v location = .error e) ∧
    (v.Kind = SequenceNode → (∀ c ∈ v.Content, ∃ n, MakeNode c location = .ok n) →
      ∃ ns, MakeEnum MakeNode v location = .ok ns) := by
  refine ⟨?_, ?_, ?_, ?_⟩
  · intro ns
    by_cases hk : v.Kind = SequenceNode
    · simp only [MakeEnum, hk, ne_eq, not_true_eq_false, if_false, true_and]
      rw [makeEnumElems_ok_iff, List.forall₂_iff_get]
    · simp [MakeEnum, hk]
  · intro hk
    simp [MakeEnum, hk]
  · intro h
    by_cases hk : v.Kind = SequenceNode
    · simp only [MakeEnum, hk, ne_eq, not_true_eq_false, if_false]
      exact makeEnumElems_error_of_mem MakeNode location v.Content h
    · exact ⟨.new "enum must be sequence node" location v, by simp [MakeEnum, hk]⟩
  · intro hk h
    simp only [MakeEnum, hk, ne_eq, not_true_eq_false, if_false]
    exact makeEnumElems_ok_of_all MakeNode location v.Content h

/-- C13 (witness): an empty sequence yields the empty enum, and a scalar node is
rejected. -/
theorem C13_MakeEnum_contract_witness :
    (∃ ns, MakeEnum (fun (c : YamlNode) _ => (.ok c.Value : Except String String))
      ⟨2, "!!seq", "", [], 1, 1⟩ "a.raml" = .ok ns) ∧
    MakeEnum (fun (c : YamlNode) _ => (.ok c.Value : Except String String))
      ⟨8, "!!str", "a", [], 1, 1⟩ "a.raml" =
        .error (.new "enum must be sequence node" "a.raml" ⟨8, "!!str", "a", [], 1, 1⟩) :=
  ⟨(C13_MakeEnum_contract (fun (c : YamlNode) _ => (.ok c.Value : Except String String))
      ⟨2, "!!seq", "", [], 1, 1⟩ "a.raml").2.2.2 rfl (fun _ h => nomatch h),
   (C13_MakeEnum_contract (fun (c : YamlNode) _ => (.ok c.Value : Except String String))
      ⟨8, "!!str", "a", [], 1, 1⟩ "a.raml").2.1 (by decide)⟩

end Raml
